import Mathlib

/-!
# Order fulfilment state machine of `plib/core/data`

A shallow embedding of `order.go` and `milestones.go` (package `data`):
the order aggregate, its seven milestone regions, the sleep schedule and the
missing-info overlay, and of the order-number generator, the reference
loaders and the milestone status update of `order_service.go` with
`HandleRefLoadError` and `WrapErrors` of `commons.go`; then the middleware of
`middleware.go` (`RecoverHandler`, `JWTAuthHandler`) with the error response of
`aliz.go`, and the JSON time of `core/util/core.go`; followed by theorems about
the operations on them.

Conventions of the embedding
* A Go pointer that may be nil is an `Option`; a Go slice that the code tests
  against nil is an `Option (List _)`, `none` being the nil slice.
* A method with a pointer receiver that mutates the order is a function from
  the order before the call to the order after it.
* `time.Now().UTC()` is an argument named `now`: an instant is the number of
  nanoseconds since the Unix epoch, and `Time.Add` is addition of nanoseconds.
* The zero value of a Go struct is the Lean structure with every field at its
  default, written `{}`.
* The elements of `SleepStatusList` and their `State` pointers are taken to be
  non-nil, as they are for every entry built by `newSleepStateStatus`.
* The random source and the database session are arguments: a draw of
  `rand.Intn` is any value below its bound, a lookup answers a document or an
  error, and a loop that may run for ever is run for a given number of rounds.
* A Go error is its message, `none` being the nil error; a call that may panic
  on a nil pointer returns an `Option`, `none` being the panic.
* An HTTP handler is a function from the request and the exchange so far (what
  was written to the response, reported to the error handler and logged) to
  the exchange after it, with the value of the panic it ended in, if any.
  `jwt.Parse` is an argument.
-/

namespace Plib

/-! ## Primitive types -/

/-- An instant, in nanoseconds since the Unix epoch (`time.Time`). -/
abbrev Time := Int

/-- A duration in nanoseconds (`time.Duration`). -/
abbrev Duration := Int

/-- The constant `time.Hour`. -/
def Hour : Duration := 3600 * 1000000000

/-- The method `Time.Add`. -/
def Time.Add (t : Time) (d : Duration) : Time := t + d

/-- The type `bson.ObjectId`, a string of bytes. -/
abbrev ObjectId := String

/-- The open bag `map[string]interface{}` of a milestone; no operation of the
aggregate below reads or writes it, the values are kept as strings. -/
abbrev ParameterBag := List (String × String)

/-- The struct `mgo.DBRef`. -/
structure DBRef where
  Collection : String := ""
  Id : ObjectId := ""
  Database : String := ""
deriving DecidableEq, Repr

/-! ## Milestone statuses (`milestones.go`) -/

def MSNotInitiated : String := "NOT_INITIATED"
def MSCallCompleted : String := "CALL_COMPLETED"
def MSCompleted : String := "COMPLETED"
def MSTransferInitiated : String := "TRANSFER_INITIATED"
def MSTransferRequested : String := "TRANSFER_REQUEST_SENT"
def MSZeroRefills : String := "ZERO_REFILLS"
def MSEScriptRequestSent : String := "ESCRIPT_REQUEST_SENT"
def MSTransferBack : String := "TRANSFER_BACK"
def MSTransferOut : String := "TRANSFER_OUT"
def MSVerificationInitiated : String := "VERIFICATION_INITIATED"
def MSTransferBackCompleted : String := "TRANSFER_BACK_COMPLETED"
def MSTransferOutCompleted : String := "TRANSFER_OUT_COMPLETED"
def MSRefillNotDue : String := "REFILL_NOT_DUE"
def MSSendNewRxFax : String := "SEND_NEW_RX_FAX"
def MSTransferControlled : String := "TRANSFER_CONTROLLED"
def MSRouteControlled : String := "ROUTE_CONTROLLED"
def MSReverseInsurance : String := "REVERSE_INSURANCE"
def MSInsuranceReversed : String := "INSURANCE_REVERSED"
def MSPendingApproval : String := "PENDING_APPROVAL"
def MSPaymentAuthorized : String := "PAYMENT_AUTHORIZED"
def MSFaxSent : String := "FAX_SENT"
def MSPriorAuth : String := "PRIOR_AUTH"
def MSPriorAuthProcessing : String := "PRIOR_AUTH_PROCESSING"
def MSShipped : String := "SHIPPED"
def MSWaitingLabelScan : String := "WAITING_LABEL_SCAN"
def MSShippingLabelGenerated : String := "SHIPPING_LABEL_GENERATED"
def MSGenerateShippingLabel : String := "GENERATE_SHIPPING_LABEL"
def MSPendingActionTaken : String := "PENDING_ACTION_TAKEN"
def MSCashPriceCheck : String := "CASH_PRICE_CHECK"
def MSCashPriceIdentified : String := "CASH_PRICE_IDENTIFIED"
def MSPendingApprovalUntilFreeTrial : String := "PENDING_APPROVAL_UNTIL_FREE_TRIAL"
def MSPendingApprovalUntilPriceInspection : String :=
  "PENDING_APPROVAL_UNTIL_PRICE_INSPECTION"
def MSPendingApprovalUntilPriceInspectionByPP : String :=
  "PENDING_APPROVAL_UNTIL_PRICE_INSPECTION_BY_PP"
def MSPendingApprovalUntilPriceInspectionNoFreeTrial : String :=
  "PENDING_APPROVAL_UNTIL_PRICE_INSPECTION_NO_FREE_TRIAL"
def MSPendingApprovalUntilPriceInspectionFreeTrial : String :=
  "PENDING_APPROVAL_UNTIL_PRICE_INSPECTION_FREE_TRIAL"
def MSPendingApprovalAfterPriceInspection : String :=
  "PENDING_APPROVAL_AFTER_PRICE_INSPECTION"
def MSPendingApprovalAndSignup : String := "PENDING_APPROVAL_AND_SIGNUP"
def MSPendingPaymentOffline : String := "PENDING_APPROVAL_OFFLINE"
def MSPaymentCompleteInvoicePending : String := "PAYMENT_COMPLETE_INVOICE_PENDING"
def MSPaymentIncompleteInvoicePending : String := "PAYMENT_INCOMPLETE_INVOICE_PENDING"
def MSPaymentIncompleteOffline : String := "PAYMENT_INCOMPLETE_OFFLINE"
def MSInsuranceOverride : String := "INSURANCE_OVERRIDE"
def MSInTransit : String := "IN_TRANSIT"
def MSDelivered : String := "DELIVERED"

/-- The variable `MilestoneNames`. -/
def MilestoneNames : List String :=
  ["transferMilestone", "orderVerification", "insuranceVerificationMilestone",
   "paymentMilestone", "deliveryMilestone", "stockVerificationMilestone",
   "refillAuthorization"]

/-- The variable `MilestoneStatusList`. -/
def MilestoneStatusList : List String :=
  [MSNotInitiated, MSCompleted, MSCallCompleted, MSTransferInitiated, MSTransferBack,
   MSTransferRequested, MSZeroRefills, MSEScriptRequestSent, MSFaxSent, MSPendingApproval,
   MSPaymentAuthorized, MSPriorAuth, MSRefillNotDue, MSShipped, MSWaitingLabelScan,
   MSReverseInsurance, MSInsuranceReversed]

/-- The string type `DrugType`. -/
abbrev DrugType := String

/-- The string type `PaymentProvider`. -/
abbrev PaymentProvider := String

/-! ## Milestone regions (`milestones.go`) -/

/-- The struct `Milestone`, embedded by every region. -/
structure Milestone where
  Status : String := ""
  Comment : String := ""
  Parameters : Option ParameterBag := none
  LastProcessedDate : Option Time := none
deriving DecidableEq, Repr

/-- The struct `TransferMilestone`. -/
structure TransferMilestone extends Milestone where
  MedicationName : String := ""
  MedicationStrength : String := ""
  MedicationForm : String := ""
  Sig : String := ""
  RefillAuthorizedBy : String := ""
  MedicationQuantity : Int := 0
  DaysOfSupply : Int := 0
  NumberOfRefillsTransferred : Int := 0
  DoctorName : String := ""
  DoctorPhoneNumber : String := ""
  DoctorFaxNumber : String := ""
  DoctorNpi : String := ""
  DoctorCity : String := ""
  DrugType : Option DrugType := none
  LastFillDate : Option Time := none
  CurrentCopay : String := ""
  FaxQueueID : String := ""
  CouponAvailable : String := ""
  CopayAvailable : String := ""
  CouponGroupNumber : String := ""
  CouponBinNumber : String := ""
  CouponIDNumber : String := ""
  CouponPcnNumber : String := ""
  RefillRequestedDate : Option Time := none
  PendingPriorStatus : String := ""
  MDApprovedOverPhone : Bool := false
  OPSentFax : Bool := false
deriving DecidableEq, Repr

/-- The struct `NewRxMilestone`. -/
structure NewRxMilestone extends Milestone where
  MedicationName : String := ""
  MedicationQuantity : Int := 0
  DaysOfSupply : Int := 0
  RefillsRemaining : Int := 0
  DoctorName : String := ""
  DoctorPhoneNumber : String := ""
  DoctorFaxNumber : String := ""
  DoctorNpi : String := ""
  DoctorCity : String := ""
  DrugType : Option DrugType := none
  FaxQueueID : String := ""
  PendingPriorStatus : String := ""
  NeedsMDApproval : Bool := false
deriving DecidableEq, Repr

/-- The struct `StockCheckMilestone`. -/
structure StockCheckMilestone extends Milestone where
  StockAvailability : Option Time := none
deriving DecidableEq, Repr

/-- The struct `InsuranceMilestone`. -/
structure InsuranceMilestone extends Milestone where
  CanRefill : String := ""
  NewRxNumber : String := ""
  FaxQueueID : String := ""
  IsFederalSponsoredInsurance : String := ""
  NewCopay : String := ""
  EarliestRefillDate : Option Time := none
  InsuranceRunDate : Option Time := none
  RefillNotDueMarkedDueDate : Option Time := none
  EarliestRefillPullForwardDate : Option Time := none
  RefillNotDueCount : Int := 0
  RefillWindow : Int := 0
  DoctorName : String := ""
  DoctorPhoneNumber : String := ""
  DoctorFaxNumber : String := ""
  SendCopayConfirmEmail : Bool := false
  HighCopay : Bool := false
  HighCopayReason : String := ""
  CopayChanged : Bool := false
  CopayChangedReason : String := ""
  SwitchedFromCash : Bool := false
  StepTherapyRequired : Bool := false
  MDApprovedOverPhone : Bool := false
  CallCustomerForRefillNotDue : Bool := false
  DiagnosisCode : String := ""
  MedicationHistory : String := ""
  AssociatedLabTests : Bool := false
  SendToPP : Bool := false
deriving DecidableEq, Repr

/-- The struct `PaymentMilestone`. -/
structure PaymentMilestone extends Milestone where
  PaymentError : String := ""
  ErrorCode : String := ""
  ChargeAttempt : Int := 0
  AppliedPromo : String := ""
  TransactionID : String := ""
  PaymentProviderUsed : Option PaymentProvider := none
  ChargeType : String := ""
  AppliedDummyCharge : Bool := false
  AppliedFreeTrialCharge : Bool := false
  MarkedShipLater : Bool := false
  MedicationPrice : String := ""
  DeliveryCharge : String := ""
  FinalCharge : String := ""
  AppliedPromoDiscount : String := ""
  PaymentProcessedDate : Option Time := none
  ErrorAlertSentDate : Option Time := none
  LastReminderSentDate : Option Time := none
  PaymentReminderCount : Int := 0
  HighPrice : Bool := false
  HighPriceReason : String := ""
  PriceChanged : Bool := false
  PriceChangedReason : String := ""
  ShouldReverseCashClaim : Bool := false
  ShouldCallPatientForSignup : Bool := false
deriving DecidableEq, Repr

/-- The struct `DeliveryMilestone`. -/
structure DeliveryMilestone extends Milestone where
  ShippingRateID : String := ""
  TrackingNumber : String := ""
  TrackingURL : String := ""
  TrackingURLForMobile : String := ""
  ShippingLabelURL : String := ""
  ShipmentTransactionID : String := ""
  ShippingServiceName : String := ""
  GenerateLabelError : String := ""
  ShippingLabelCost : String := ""
  EstimatedDeliveryDays : Int := 0
  EstimatedDeliveryDate : Option Time := none
  ShippedDate : Option Time := none
  DeliveredDate : Option Time := none
  DeliveryConfirmed : Bool := false
  SameDayDelivery : Bool := false
  UserSelectedSameDayPickupTime : Bool := false
  PharmacyPrintedSameDayShippingLabel : Bool := false
  CarrierType : String := ""
  PhilShipmentID : String := ""
  DeliveryStatus : String := ""
deriving DecidableEq, Repr

/-- The struct `RefillMilestone`. -/
structure RefillMilestone extends Milestone where
  RxName : String := ""
  Quantity : Int := 0
  DaysOfSupply : Int := 0
  AuthorizedRefills : Int := 0
  DoctorName : String := ""
  DoctorPhoneNumber : String := ""
  DoctorFaxNumber : String := ""
  DoctorNpi : String := ""
  DoctorCity : String := ""
  FaxQueueID : String := ""
  RefillRequestedDate : Option Time := none
  MDApprovedOverPhone : Bool := false
  Sig : String := ""
  RefillAuthorizedBy : String := ""
deriving DecidableEq, Repr

/-! ## Common data and referenced documents (`data.go`, `user.go`, `address.go`,
`payment.go`, `pharmacy.go`) -/

/-- The struct `BaseData`. -/
structure BaseData where
  ID : ObjectId := ""
  CreatedDate : Option Time := none
  UpdatedDate : Option Time := none
deriving DecidableEq, Repr

/-- The method `BaseData.InitData`: `id` is the value of `bson.NewObjectId()`. -/
def BaseData.InitData (id : ObjectId) (now : Time) (data : BaseData) : BaseData :=
  { data with ID := id, CreatedDate := some now, UpdatedDate := some now }

/-- The struct `UserRole`. -/
structure UserRole where
  ID : ObjectId := ""
  Name : String := ""
  Description : String := ""
deriving DecidableEq, Repr

/-- The struct `UserAttributes`; a `map[string]string` is a list of pairs. -/
structure UserAttributes where
  PhoneNumberVerified : Bool := false
  LoginAttemptsCount : Int := 0
  LoginAttemptsExceeded : Option Time := none
  LemonaidAttributes : Option (List (String × String)) := none
  AdBloomAttributes : Option (List (String × String)) := none
  MdFunnelAttributes : Option (List (String × String)) := none
  ProcessingAttributes : Option (List (String × String)) := none
deriving DecidableEq, Repr

/-- The struct `UserNotificationPrefs`. -/
structure UserNotificationPrefs where
  Blocked : Bool := false
  RxUpdatesPref : String := ""
  AnnouncementsPref : String := ""
deriving DecidableEq, Repr

/-- The struct `User`. -/
structure User extends BaseData where
  FullName : String := ""
  Email : String := ""
  AccountNumber : String := ""
  Password : String := ""
  PhoneNumber : String := ""
  FromNumber : String := ""
  ZipCode : String := ""
  City : String := ""
  State : String := ""
  AccountStatus : String := ""
  Source : String := ""
  PromoCodeUsed : Bool := false
  FreeTrialState : String := ""
  UserAttributes : Option UserAttributes := none
  NotificationPrefs : Option UserNotificationPrefs := none
  Promo : Option DBRef := none
  RoleRefs : Option (List DBRef) := none
  Roles : Option (List UserRole) := none
deriving DecidableEq, Repr

/-- The struct `Address`. -/
structure Address extends BaseData where
  Street1 : String := ""
  Street2 : String := ""
  City : String := ""
  State : String := ""
  ZipCode : String := ""
  ZipCodeAddon : String := ""
  Country : String := ""
  PatientID : String := ""
  ManagerRef : Option DBRef := none
  Manager : Option User := none
deriving DecidableEq, Repr

/-- The struct `Payment`. -/
structure Payment extends BaseData where
  CardName : String := ""
  Last4Digit : String := ""
  Cvc : String := ""
  ExpiryMonth : Int := 0
  ExpiryYear : Int := 0
  PaymentToken : String := ""
  ProviderCustomerID : String := ""
  Provider : String := ""
  FsaHsaCard : Bool := false
  TestCard : Bool := false
  PatientID : String := ""
  ManagerRef : Option DBRef := none
  Manager : Option User := none
  CardNumber : String := ""
deriving DecidableEq, Repr

/-- The struct `Pharmacy`. -/
structure Pharmacy extends BaseData where
  Name : String := ""
  PhoneNumber : String := ""
  FaxNumber : String := ""
  StoreNumber : String := ""
  Street1 : String := ""
  City : String := ""
  State : String := ""
  ZipCode : String := ""
  Email : String := ""
  Country : String := ""
  ContactName : String := ""
  ShippingLabelDisplayName : String := ""
  TimeZone : String := ""
  NPI : String := ""
  DEA : String := ""
  PartnershipStatus : String := ""
  WeekDaysSupportHours : String := ""
  WeekendSupportHours : String := ""
  Partner : Bool := false
  InactivePartner : Bool := false
deriving DecidableEq, Repr

/-! ## The order aggregate (`order.go`) -/

/-- The constant `FirstFill`. -/
def FirstFill : String := "FirstFill"

/-- The constant `ReFill`. -/
def ReFill : String := "ReFill"

/-- The string type `OrderSleepState`. -/
abbrev OrderSleepState := String

def CallPatient : OrderSleepState := "CallPatient"
def ScrubAndRoute : OrderSleepState := "ScrubAndRoute"
def ScrubbedAndRouted : OrderSleepState := "ScrubbedAndRouted"
def CheckFax : OrderSleepState := "CheckFax"
def CallMD : OrderSleepState := "CallMD"
def PaymentApproval : OrderSleepState := "PaymentApproval"
def PaymentApprovalUntilFreeTrialDelivered : OrderSleepState :=
  "PaymentApprovalUntilFreeTrialDelivered"
def ProcessOrder : OrderSleepState := "ProcessOrder"
def TransferFaxFollowUp : OrderSleepState := "TransferFaxFollowUp"
def DelayedEmailSent : OrderSleepState := "DelayedEmailSent"
def DelayedCalledCustomer : OrderSleepState := "DelayedCallCustomer"
def TimedSleep : OrderSleepState := "TimedSleep"

/-- The string type `MissingStatus`. -/
abbrev MissingStatus := String

def MissingInfo : MissingStatus := "MISSING_INFO"
def Exception : MissingStatus := "EXCEPTION"
def NotCovered : MissingStatus := "NOT_COVERED"
def MissingInsurance : MissingStatus := "MISSING_INSURANCE"
def InvalidInsurance : MissingStatus := "INVALID_INSURANCE"
def InsuranceExpired : MissingStatus := "INSURANCE_EXPIRED"
def NoPatient : MissingStatus := "NO_PATIENT"
def RefillsDenied : MissingStatus := "REFILLS_DENIED"
def PriorAuthDenied : MissingStatus := "PRIOR_AUTH_DENIED"
def StepTherapyDenied : MissingStatus := "STEP_THERAPY_DENIED"
def NewRxDenied : MissingStatus := "NEW_RX_DENIED"
def PaymentError : MissingStatus := "PAYMENT_ERROR"
def CopayIncreased : MissingStatus := "COPAY_INCREASED"
def CopayDecreased : MissingStatus := "COPAY_DECREASED"
def OriginalCopayNotAvailable : MissingStatus := "ORIGINAL_COPAY_NOTAVAILABLE"
def InvalidOpNoPatient : MissingStatus := "INVALID_OP_NO_PATIENT"
def InvalidOpNoTransferableRx : MissingStatus := "INVALID_OP_NO_TRANSFERABLE_RX"
def OpRefusal : MissingStatus := "OP_REFUSAL"
def C2Drugs : MissingStatus := "C2_DRUGS"
def InsuranceOverride : MissingStatus := "INSURANCE_OVERRIDE"
def DeliveryFailed : MissingStatus := "DELIVERY_FAILED"
def DeliveryReturned : MissingStatus := "DELIVERY_RETURNED"
def StockException : MissingStatus := "STOCK_EXCEPTION"

/-- The string type `MissingField`. -/
abbrev MissingField := String

/-- The string type `InsuranceExceptionType`. -/
abbrev InsuranceExceptionType := String

/-- The string type `RefillDeniedType`. -/
abbrev RefillDeniedType := String

/-- The struct `OrderSleepStatus`. -/
structure OrderSleepStatus where
  State : OrderSleepState := ""
  SleepStartDate : Option Time := none
  SleepStopDate : Option Time := none
  ResetNeeded : Bool := false
  SleepResetCount : Int := 0
deriving DecidableEq, Repr

/-- The struct `MissingInfoState`. -/
structure MissingInfoState where
  MissingFields : Option (List MissingField) := none
  MissingStatus : Option MissingStatus := none
  Comment : String := ""
  InsuranceExceptionType : Option InsuranceExceptionType := none
  RefillDeniedType : Option RefillDeniedType := none
deriving DecidableEq, Repr

/-- The struct `NotificationStats`. -/
structure NotificationStats where
  «Type» : String := ""
  SentDate : Option Time := none
deriving DecidableEq, Repr

/-- The struct `Order`. -/
structure Order extends BaseData where
  OrderNumber : String := ""
  RxID : String := ""
  FillType : String := ""
  PaymentOption : String := ""
  PaperPrescriptionImageID : String := ""
  DrugType : String := ""
  DeliveryOption : String := ""
  TransferAll : Bool := false
  RerunInsurance : Bool := false
  Archived : Bool := false
  HighAlert : Bool := false
  ExpeditedShipping : Bool := false
  ShouldContactCustomerForPaymentApproval : Bool := false
  SingleStepMDFunnelSignup : Bool := false
  CallCustomerForUpsell : Bool := false
  BundleFill : Bool := false
  FaxQueueID : String := ""
  SleepStatusList : Option (List OrderSleepStatus) := none
  FaxSentCount : Int := 0
  CalledMDCount : Int := 0
  EScriptSentCount : Int := 0
  MissingInfoState : Option MissingInfoState := none
  TransferMilestone : Option TransferMilestone := none
  NewRxMilestone : Option NewRxMilestone := none
  InsuranceMilestone : Option InsuranceMilestone := none
  StockCheckMilestone : Option StockCheckMilestone := none
  PaymentMilestone : Option PaymentMilestone := none
  DeliveryMilestone : Option DeliveryMilestone := none
  RefillMilestone : Option RefillMilestone := none
  NotificationStatsList : Option (List NotificationStats) := none
  OrderPlacedDate : Option Time := none
  OriginPharmacyRef : Option DBRef := none
  PartnerPharmacyRef : Option DBRef := none
  AddressRef : Option DBRef := none
  PaymentRef : Option DBRef := none
  OriginPharmacy : Option Pharmacy := none
  PartnerPharmacy : Option Pharmacy := none
  Address : Option Address := none
  Payment : Option Payment := none

namespace Order

/-! ### Status accessors -/

/-- The method `Order.TransferStatus`. -/
def TransferStatus (o : Order) : String :=
  match o.TransferMilestone with
  | none => ""
  | some tm => tm.Status

/-- The method `Order.NewPrescriptionStatus`. -/
def NewPrescriptionStatus (o : Order) : String :=
  match o.NewRxMilestone with
  | none => ""
  | some nm => nm.Status

/-- The method `Order.PaymentStatus`. -/
def PaymentStatus (o : Order) : String :=
  match o.PaymentMilestone with
  | none => ""
  | some pm => pm.Status

/-- The method `Order.InsuranceStatus`. -/
def InsuranceStatus (o : Order) : String :=
  match o.InsuranceMilestone with
  | none => ""
  | some im => im.Status

/-- The method `Order.StockCheckStatus`. -/
def StockCheckStatus (o : Order) : String :=
  match o.StockCheckMilestone with
  | none => ""
  | some sm => sm.Status

/-- The method `Order.DeliveryStatus`. -/
def DeliveryStatus (o : Order) : String :=
  match o.DeliveryMilestone with
  | none => ""
  | some dm => dm.Status

/-- The method `Order.RefillAuthStatus`. -/
def RefillAuthStatus (o : Order) : String :=
  match o.RefillMilestone with
  | none => ""
  | some rm => rm.Status

/-- The method `Order.IsPayOutOfPocket`. -/
def IsPayOutOfPocket (o : Order) : Bool :=
  o.PaymentOption == "PayDirectly"

/-- The method `Order.IsPayThroughInsurance`. -/
def IsPayThroughInsurance (o : Order) : Bool :=
  o.PaymentOption == "PayThroughInsurance"

/-- The method `Order.IsTransferBack`. -/
def IsTransferBack (o : Order) : Bool :=
  o.TransferStatus == MSTransferBack || o.TransferStatus == MSTransferBackCompleted

/-! ### Derived predicates -/

/-- The method `Order.IsProcessingTransfer`. -/
def IsProcessingTransfer (o : Order) : Bool :=
  if o.TransferStatus != "" && o.TransferStatus != MSCompleted && !o.IsTransferBack then
    true
  else
    false

/-- The method `Order.IsProcessingNewPrescription`. -/
def IsProcessingNewPrescription (o : Order) : Bool :=
  if o.NewPrescriptionStatus != "" && o.NewPrescriptionStatus != MSCompleted then
    true
  else
    false

/-- The method `Order.IsProcessingInsurance`. -/
def IsProcessingInsurance (o : Order) : Bool :=
  if o.IsPayOutOfPocket then
    false
  else if o.InsuranceStatus != "" && o.InsuranceStatus != MSCompleted then
    true
  else
    false

/-- The method `Order.IsProcessingCash`. -/
def IsProcessingCash (o : Order) : Bool :=
  if !o.IsPayOutOfPocket then
    false
  else if o.PaymentStatus != "" && o.PaymentStatus == MSNotInitiated then
    true
  else
    false

/-- The method `Order.IsProcessingPayment`. -/
def IsProcessingPayment (o : Order) : Bool :=
  if o.PaymentStatus != "" && o.PaymentStatus != MSCompleted then
    true
  else
    false

/-- The method `Order.IsPendingPaymentApproval`. -/
def IsPendingPaymentApproval (o : Order) : Bool :=
  if o.PaymentStatus != "" &&
      (o.PaymentStatus == MSPendingApproval ||
        (o.PaymentStatus == MSPendingApprovalAfterPriceInspection &&
          !o.ShouldContactCustomerForPaymentApproval)) then
    true
  else
    false

/-- The method `Order.IsProcessingStockCheck`. -/
def IsProcessingStockCheck (o : Order) : Bool :=
  if o.StockCheckStatus != "" && o.StockCheckStatus != MSCompleted then
    true
  else
    false

/-- The method `Order.IsProcessingDelivery`. -/
def IsProcessingDelivery (o : Order) : Bool :=
  if o.DeliveryStatus != "" && o.DeliveryStatus != MSShipped then
    true
  else
    false

/-- The method `Order.IsProcessingRefillAuth`. -/
def IsProcessingRefillAuth (o : Order) : Bool :=
  if o.RefillAuthStatus != "" && o.RefillAuthStatus != MSCompleted &&
      o.RefillAuthStatus != MSNotInitiated then
    true
  else
    false

end Order

/-! ### Sleep schedule -/

/-- The function `newSleepStateStatus`. -/
def newSleepStateStatus (sleepState : OrderSleepState) (sleepStartDate : Option Time)
    (sleepStopDate : Option Time) : OrderSleepStatus :=
  let status : OrderSleepStatus := {}
  let status := { status with State := sleepState }
  let status := if sleepState != TimedSleep then { status with ResetNeeded := true } else status
  let status := { status with SleepStartDate := sleepStartDate }
  { status with SleepStopDate := sleepStopDate }

/-- The body of the `range` loop of `UpdateSleepStateWithStartAndStopDate` on one
entry: an entry whose state matches gets the reset flag (unless the state is
`TimedSleep`) and the two dates, any other entry is left alone. -/
def touchSleepStatus (sleepState : OrderSleepState) (sleepStartDate : Option Time)
    (sleepStopDate : Option Time) (status : OrderSleepStatus) : OrderSleepStatus :=
  if status.State == sleepState then
    let status := if sleepState != TimedSleep then { status with ResetNeeded := true } else status
    let status := { status with SleepStartDate := sleepStartDate }
    { status with SleepStopDate := sleepStopDate }
  else
    status

namespace Order

/-- The method `Order.UpdateSleepStateWithStartAndStopDate`. The loop runs over
the whole list (there is no `break`), `found` records whether some entry
matched. -/
def UpdateSleepStateWithStartAndStopDate (o : Order) (sleepState : OrderSleepState)
    (sleepStartDate : Option Time) (sleepStopDate : Option Time) : Order :=
  match o.SleepStatusList with
  | none =>
    let status := newSleepStateStatus sleepState sleepStartDate sleepStopDate
    { o with SleepStatusList := some ([] ++ [status]) }
  | some l =>
    let found := l.any (fun status => status.State == sleepState)
    let l := l.map (touchSleepStatus sleepState sleepStartDate sleepStopDate)
    if !found then
      let status := newSleepStateStatus sleepState sleepStartDate sleepStopDate
      { o with SleepStatusList := some (l ++ [status]) }
    else
      { o with SleepStatusList := some l }

/-- The method `Order.UpdateSleepStateWithStartDate`; `now` is the clock read
inside the `TimedSleep` branch. -/
def UpdateSleepStateWithStartDate (now : Time) (o : Order) (sleepState : OrderSleepState)
    (sleepStartDate : Time) : Order :=
  let sleepStopDate : Option Time :=
    if sleepState == TimedSleep then
      let t := now
      let nextDay := t.Add (24 * Hour)
      some nextDay
    else
      none
  o.UpdateSleepStateWithStartAndStopDate sleepState (some sleepStartDate) sleepStopDate

/-- The method `Order.UpdateSleepState`; `now` is the clock read of the method
itself, `later` the clock read made by `UpdateSleepStateWithStartDate` after it. -/
def UpdateSleepState (now later : Time) (o : Order) (sleepState : OrderSleepState) : Order :=
  let t := now
  UpdateSleepStateWithStartDate later o sleepState t

/-- The method `Order.UpdateTimedSleepState`. -/
def UpdateTimedSleepState (now : Time) (o : Order) (wakeupAt : Option Time) : Order :=
  let t := now
  o.UpdateSleepStateWithStartAndStopDate TimedSleep (some t) wakeupAt

/-- The method `Order.GetSleepStatus`. -/
def GetSleepStatus (o : Order) (sleepState : OrderSleepState) : Option OrderSleepStatus :=
  match o.SleepStatusList with
  | none => none
  | some l => l.find? (fun status => status.State == sleepState)

/-- The method `Order.RemoveSleepStatus`. -/
def RemoveSleepStatus (o : Order) (sleepState : OrderSleepState) : Order :=
  match o.SleepStatusList with
  | none => o
  | some l =>
    let newList := l.filter (fun status => status.State != sleepState)
    { o with SleepStatusList := some newList }

/-! ### Compound transitions -/

/-- The method `Order.PendingActionTaken`. -/
def PendingActionTaken (now : Time) (o : Order) : Order :=
  let t := now
  let o :=
    match o.TransferMilestone with
    | some tm =>
      let tm := { tm with Status := MSPendingActionTaken }
      let tm := { tm with LastProcessedDate := some t }
      { o with TransferMilestone := some tm }
    | none => o
  let o :=
    match o.NewRxMilestone with
    | some nm =>
      let nm := { nm with Status := MSPendingActionTaken }
      let nm := { nm with LastProcessedDate := some t }
      { o with NewRxMilestone := some nm }
    | none => o
  let o := { o with MissingInfoState := none }
  o.RemoveSleepStatus CallPatient

/-- The method `Order.SavePendingPriorStatus`. -/
def SavePendingPriorStatus (o : Order) : Order :=
  let o :=
    match o.TransferMilestone with
    | some tm =>
      if tm.Status != MSPendingActionTaken then
        { o with TransferMilestone := some { tm with PendingPriorStatus := tm.Status } }
      else o
    | none => o
  match o.NewRxMilestone with
  | some nm =>
    if nm.Status != MSPendingActionTaken then
      { o with NewRxMilestone := some { nm with PendingPriorStatus := nm.Status } }
    else o
  | none => o

/-! ### Construction -/

/-- The method `Order.InitializeTransferMilestone`. -/
def InitializeTransferMilestone (o : Order) : Order :=
  let tm : Plib.TransferMilestone := {}
  let tm := { tm with Status := MSCallCompleted }
  let tm := { tm with DaysOfSupply := 30 }
  { o with TransferMilestone := some tm }

/-- The method `Order.InitializeNewRxMilestone`. -/
def InitializeNewRxMilestone (o : Order) : Order :=
  let nm : Plib.NewRxMilestone := {}
  let nm := { nm with Status := MSCallCompleted }
  let nm := { nm with MedicationQuantity := 30 }
  { o with NewRxMilestone := some nm }

/-- The method `Order.InitializeInsuranceMilestone`. -/
def InitializeInsuranceMilestone (o : Order) : Order :=
  let im : Plib.InsuranceMilestone := {}
  let im := { im with Status := MSNotInitiated }
  let im := { im with SendCopayConfirmEmail := true }
  { o with InsuranceMilestone := some im }

/-- The method `Order.InitializePaymentMilestone`. -/
def InitializePaymentMilestone (o : Order) : Order :=
  let pm : Plib.PaymentMilestone := {}
  let pm := { pm with Status := MSNotInitiated }
  let pm := { pm with AppliedDummyCharge := false }
  { o with PaymentMilestone := some pm }

/-- The method `Order.InitializeStockCheckMilestone`. -/
def InitializeStockCheckMilestone (o : Order) : Order :=
  let sm : Plib.StockCheckMilestone := {}
  let sm := { sm with Status := MSNotInitiated }
  { o with StockCheckMilestone := some sm }

/-- The method `Order.InitializeDeliveryMilestone`. -/
def InitializeDeliveryMilestone (o : Order) : Order :=
  let dm : Plib.DeliveryMilestone := {}
  let dm := { dm with Status := MSNotInitiated }
  let dm := { dm with DeliveryConfirmed := false }
  { o with DeliveryMilestone := some dm }

end Order

/-- The function `InitializeOrder`; `id` is the value of `bson.NewObjectId()` and
`now` the clock read made by `InitData`. -/
def InitializeOrder (id : ObjectId) (now : Time) (orderNumber : String)
    (originType : String) : Order :=
  let order : Order := {}
  let order := { order with toBaseData := order.toBaseData.InitData id now }
  let order := { order with OrderNumber := orderNumber }
  let order :=
    if originType == "Transfer" then
      let order := order.InitializeTransferMilestone
      { order with TransferAll := true }
    else
      order.InitializeNewRxMilestone
  let order := { order with FillType := FirstFill }
  let order := order.InitializeInsuranceMilestone
  let order := order.InitializeDeliveryMilestone
  let order := order.InitializePaymentMilestone
  let order := order.InitializeStockCheckMilestone
  order

/-! ## Properties and sample inputs used by the theorems -/

/-- The entries of the sleep schedule, the nil slice having none. -/
def sleepList (o : Order) : List OrderSleepStatus :=
  o.SleepStatusList.getD []

/-- The number of entries of the sleep schedule whose state is `s`. -/
def sleepCount (o : Order) (s : OrderSleepState) : Nat :=
  (sleepList o).countP (fun e => e.State == s)

/-- The sleep schedule holds at most one entry per state. -/
def SleepUnique (o : Order) : Prop :=
  ∀ s : OrderSleepState, sleepCount o s ≤ 1

/-- An order paying through insurance with a missing-info overlay set and every
one of its seven regions in the middle of processing. -/
def suspendedOrder : Order :=
  { PaymentOption := "PayThroughInsurance"
    MissingInfoState := some { MissingStatus := some MissingInfo }
    TransferMilestone := some { Status := MSTransferInitiated }
    NewRxMilestone := some { Status := MSVerificationInitiated }
    InsuranceMilestone := some { Status := MSPriorAuth }
    PaymentMilestone := some { Status := MSPendingApproval }
    StockCheckMilestone := some { Status := MSNotInitiated }
    DeliveryMilestone := some { Status := MSNotInitiated }
    RefillMilestone := some { Status := MSFaxSent } }

/-- The order `suspendedOrder` paying out of pocket, its payment not initiated. -/
def suspendedCashOrder : Order :=
  { suspendedOrder with
    PaymentOption := "PayDirectly"
    PaymentMilestone := some { Status := MSNotInitiated } }

/-- An order whose sleep schedule holds a `CallPatient` entry that does not need a
reset, a `TimedSleep` entry and a `CheckFax` entry, with a missing-info overlay
and a transfer milestone. -/
def sleepingOrder : Order :=
  { MissingInfoState := some { MissingStatus := some MissingInfo }
    TransferMilestone := some { Status := MSTransferInitiated }
    SleepStatusList := some
      [ { State := CallPatient, SleepStartDate := some 10, SleepResetCount := 2 },
        { State := TimedSleep, SleepStartDate := some 20, SleepStopDate := some 30 },
        { State := CheckFax, SleepStartDate := some 40, ResetNeeded := true } ] }

/-- A freshly initialised transfer order. -/
def freshOrder : Order :=
  InitializeOrder "5f1e0c2a9d3b4e0001a7c001" 1000 "1234-5678-9012" "Transfer"

/-- One call of a sleep operation, with its arguments and the clock readings made
during the call. -/
inductive SleepOp where
  | updateSleepState (now later : Time) (s : OrderSleepState)
  | updateSleepStateWithStartDate (now : Time) (s : OrderSleepState) (start : Time)
  | updateTimedSleepState (now : Time) (wakeupAt : Option Time)
  | updateSleepStateWithStartAndStopDate (s : OrderSleepState) (start stop : Option Time)
  | removeSleepStatus (s : OrderSleepState)

/-- The order after one sleep operation. -/
def SleepOp.apply (o : Order) : SleepOp → Order
  | .updateSleepState now later s => o.UpdateSleepState now later s
  | .updateSleepStateWithStartDate now s start => Order.UpdateSleepStateWithStartDate now o s start
  | .updateTimedSleepState now wakeupAt => o.UpdateTimedSleepState now wakeupAt
  | .updateSleepStateWithStartAndStopDate s start stop =>
    o.UpdateSleepStateWithStartAndStopDate s start stop
  | .removeSleepStatus s => o.RemoveSleepStatus s

/-- The order after a sequence of sleep operations, first to last. -/
def runSleepOps (o : Order) (ops : List SleepOp) : Order :=
  ops.foldl SleepOp.apply o

/-- Every `TimedSleep` entry has a start date and a stop date exactly 24 hours
after it. -/
def TimedWindow (o : Order) : Prop :=
  ∀ e ∈ sleepList o, e.State = TimedSleep →
    ∃ t : Time, e.SleepStartDate = some t ∧ e.SleepStopDate = some (t.Add (24 * Hour))

/-- The call hands a `TimedSleep` entry a stop date 24 hours after its start date:
trivially so when the call does not write a `TimedSleep` entry. -/
def SleepOp.GivesWindow : SleepOp → Prop
  | .updateSleepState now later s => s = TimedSleep → later = now
  | .updateSleepStateWithStartDate now s start => s = TimedSleep → start = now
  | .updateTimedSleepState now wakeupAt => wakeupAt = some (now.Add (24 * Hour))
  | .updateSleepStateWithStartAndStopDate s start stop =>
    s = TimedSleep → ∃ t : Time, start = some t ∧ stop = some (t.Add (24 * Hour))
  | .removeSleepStatus _ => True

/-- An order whose transfer region is already at `PENDING_ACTION_TAKEN`, the
status before that having been saved as `CALL_COMPLETED`. -/
def pendingOrder : Order :=
  { TransferMilestone :=
      some { Status := MSPendingActionTaken, PendingPriorStatus := MSCallCompleted } }

/-! ## Further operations of the aggregate (`order.go`) -/

namespace Order

/-- The method `Order.MoveToScrubAndRoute`. -/
def MoveToScrubAndRoute (now : Time) (o : Order) : Order :=
  let t := now
  let o :=
    match o.TransferMilestone with
    | some tm =>
      if o.TransferStatus == MSNotInitiated then
        let tm := { tm with Status := MSCallCompleted }
        let tm := { tm with LastProcessedDate := some t }
        { o with TransferMilestone := some tm }
      else o
    | none => o
  match o.NewRxMilestone with
  | some nm =>
    if o.NewPrescriptionStatus == MSNotInitiated then
      let nm := { nm with Status := MSCallCompleted }
      let nm := { nm with LastProcessedDate := some t }
      { o with NewRxMilestone := some nm }
    else o
  | none => o

/-- The method `Order.InsuranceOverride`. -/
def InsuranceOverride (o : Order) : Order :=
  match o.InsuranceMilestone with
  | some im =>
    let im := { im with Status := MSInsuranceOverride }
    let im := { im with SendToPP := false }
    { o with InsuranceMilestone := some im }
  | none => o

/-- The method `Order.SetMissingInfoState`. -/
def SetMissingInfoState (o : Order) (status : MissingStatus) : Order :=
  let missingInfo : Plib.MissingInfoState := {}
  let missingInfo := { missingInfo with MissingStatus := some status }
  { o with MissingInfoState := some missingInfo }

end Order

/-! ## Errors and the database session (outside the repository)

The packages `gmgo`, `mgo` and `pkg/errors` are libraries the repository calls.
Of a Go `error` only the message returned by `Error()` is kept, a nil error
being `none`; of a session only the answer of each lookup is kept. -/

/-- A non-nil Go `error`, identified with the message `Error()` returns. -/
abbrev GoError := String

/-- The variable `ErrNotFound` of `data.go`, the message of the error a lookup
returns when no document matches. -/
def ErrNotFound : String := "not found"

/-- The function `errors.Wrapf` of `pkg/errors` on a non-nil error and a format
without verbs: the message of the result is the format, a colon and a blank,
and the message of the wrapped error. -/
def Wrapf (err : GoError) (message : String) : GoError :=
  message ++ ": " ++ err

/-- The session `gmgo.DbSession`: what `Find` by order number and `FindByRef`
into an address, a payment and a pharmacy answer, either the document read or
the error returned. On an error the document passed in is left as it was. -/
structure DbSession where
  FindOrderByNumber : String → Except GoError Order
  FindAddressByRef : DBRef → Except GoError Address
  FindPaymentByRef : DBRef → Except GoError Payment
  FindPharmacyByRef : DBRef → Except GoError Pharmacy

/-- The orders a document store holds and the lookups by order number on which
the store fails, each with the error it returns there (a lost connection, a
timeout). -/
structure OrderStore where
  orders : List Order
  failure : String → Option GoError

/-- The answer of `Find` by order number on a store: the failure of the store
when there is one, else the first order held with that number, else the error
`not found`. -/
def OrderStore.Find (store : OrderStore) (orderNumber : String) : Except GoError Order :=
  match store.failure orderNumber with
  | some err => .error err
  | none =>
    match store.orders.find? (fun o => o.OrderNumber == orderNumber) with
    | some o => .ok o
    | none => .error ErrNotFound

/-- A session on a store of orders that holds no other document. -/
def OrderStore.session (store : OrderStore) : DbSession :=
  { FindOrderByNumber := store.Find
    FindAddressByRef := fun _ => .error ErrNotFound
    FindPaymentByRef := fun _ => .error ErrNotFound
    FindPharmacyByRef := fun _ => .error ErrNotFound }

/-! ## Order numbers (`order_service.go`) -/

/-- The variable `digits`. -/
def digits : String := "1234567890"

/-- The source behind `math/rand`: `src k` is the raw outcome of the draw
number `k` since the start of the program. -/
abbrev RandSource := Nat → Nat

/-- The function `rand.Intn` on a positive `n` at draw number `calls`: any value
below `n`. -/
def Intn (src : RandSource) (calls : Nat) (n : Nat) : Nat :=
  src calls % n

/-- The loop of `generateOrderNumber` from index `i` on, `remaining` being
`size - i`: the bytes written at `i`, `i + 1`, ... and the number of draws made
when the loop ends. -/
def fillOrderNumber (src : RandSource) : (remaining : Nat) → (i : Nat) → (calls : Nat) →
    List Char × Nat
  | 0, _, calls => ([], calls)
  | remaining + 1, i, calls =>
    if i == 4 || i == 9 then
      let rest := fillOrderNumber src remaining (i + 1) calls
      ('-' :: rest.1, rest.2)
    else
      let c := digits.toList.get
        ⟨Intn src calls digits.toList.length, Nat.mod_lt _ (by decide)⟩
      let rest := fillOrderNumber src remaining (i + 1) (calls + 1)
      (c :: rest.1, rest.2)

/-- The function `generateOrderNumber`, `calls` draws having been made before
the call: the string built and the number of draws made after it. -/
def generateOrderNumber (src : RandSource) (calls : Nat) : String × Nat :=
  let size := 14
  let buf := fillOrderNumber src size 0 calls
  (String.mk buf.1, buf.2)

/-- The function `FindByOrderNumberInSession`. -/
def FindByOrderNumberInSession (orderNumber : String) (session : DbSession) :
    Option Order × Option GoError :=
  match session.FindOrderByNumber orderNumber with
  | .error err => (none, some err)
  | .ok o => (some o, none)

/-- The `for o != nil` loop of `GenerateOrderNumber`, run for at most `fuel`
rounds: `none` when the loop is still running after them. -/
def GenerateOrderNumberLoop (session : DbSession) (src : RandSource) :
    (fuel : Nat) → (orderNumber : String) → (o : Option Order) → (calls : Nat) →
    Option (String × Nat)
  | _, orderNumber, none, calls => some (orderNumber, calls)
  | 0, _, some _, _ => none
  | fuel + 1, _, some _, calls =>
    let next := generateOrderNumber src calls
    let found := FindByOrderNumberInSession next.1 session
    GenerateOrderNumberLoop session src fuel next.1 found.1 next.2

/-- The function `GenerateOrderNumber` on the session `data.Session()` returns,
`calls` draws having been made before the call: the order number returned and
the number of draws made, or `none` when the loop runs for more than `fuel`
rounds. The error of each lookup is dropped, as by `o, _ :=` in the source. -/
def GenerateOrderNumber (session : DbSession) (src : RandSource) (fuel : Nat) (calls : Nat) :
    Option (String × Nat) :=
  let first := generateOrderNumber src calls
  let found := FindByOrderNumberInSession first.1 session
  GenerateOrderNumberLoop session src fuel first.1 found.1 first.2

/-- The candidate number `j` that `GenerateOrderNumber` tries, counted from 0. -/
def orderNumberCandidate (src : RandSource) (calls : Nat) (j : Nat) : String :=
  (generateOrderNumber src (calls + 12 * j)).1

/-- The shape `dddd-dddd-dddd`: fourteen characters, a hyphen at the 0-based
positions 4 and 9 and a decimal digit everywhere else. -/
def IsOrderNumber (s : String) : Prop :=
  s.length = 14 ∧
  ∀ (i : Nat) (c : Char), s.toList[i]? = some c →
    if i = 4 ∨ i = 9 then c = '-' else c.isDigit = true

/-- A random source whose every draw is 0. -/
def zeroSource : RandSource := fun _ => 0

/-- A random source counting up: the draw number `k` is `k`. -/
def countingSource : RandSource := fun k => k

/-- A store that holds one order, numbered `1111-1111-1111`, and answers every
lookup. -/
def healthyStore : OrderStore :=
  { orders := [{ OrderNumber := "1111-1111-1111" }]
    failure := fun _ => none }

/-- The store `healthyStore` with its connection lost: every lookup fails. -/
def brokenStore : OrderStore :=
  { orders := [{ OrderNumber := "1111-1111-1111" }]
    failure := fun _ => some "EOF" }

/-! ## Loading references (`order.go`, `commons.go`, `order_service.go`) -/

/-- The function `AddressByRef`: on an error the new, empty address is returned
with the error. -/
def AddressByRef (dbRef : DBRef) (session : DbSession) : Option Address × Option GoError :=
  let addr : Address := {}
  match session.FindAddressByRef dbRef with
  | .error err => (some addr, some err)
  | .ok found => (some found, none)

/-- The function `PaymentByRef`. -/
def PaymentByRef (dbRef : DBRef) (session : DbSession) : Option Payment × Option GoError :=
  match session.FindPaymentByRef dbRef with
  | .error err => (none, some err)
  | .ok found => (some found, none)

/-- The function `PharmacyByRef`. -/
def PharmacyByRef (dbRef : DBRef) (session : DbSession) : Option Pharmacy × Option GoError :=
  match session.FindPharmacyByRef dbRef with
  | .error err => (none, some err)
  | .ok found => (some found, none)

/-- The function `HandleRefLoadError`: at each non-nil element the error kept so
far, or that element when none is kept yet, is wrapped once more. -/
def HandleRefLoadError (message : String) (errs : List (Option GoError)) : Option GoError :=
  errs.foldl
    (fun err ei =>
      if ei != none then
        let err := if err == none then ei else err
        match err with
        | some e => some (Wrapf e message)
        | none => none
      else
        err)
    none

/-- The test `err != nil && err.Error() != data.ErrNotFound` of `LoadReferences`. -/
def isLoadFailure (err : Option GoError) : Bool :=
  match err with
  | some e => e != ErrNotFound
  | none => false

/-- The function `LoadReferences`: the order after the call and the error
returned. -/
def LoadReferences (o : Order) (manager : Option User) (session : DbSession) :
    Order × Option GoError :=
  let errList : List (Option GoError) := []
  let (o, errList) :=
    match o.AddressRef with
    | some dbRef =>
      let (addr, err) := AddressByRef dbRef session
      if isLoadFailure err then (o, errList ++ [err]) else ({ o with Address := addr }, errList)
    | none => (o, errList)
  let (o, errList) :=
    match o.PaymentRef with
    | some dbRef =>
      let (p, err) := PaymentByRef dbRef session
      if isLoadFailure err then (o, errList ++ [err]) else ({ o with Payment := p }, errList)
    | none => (o, errList)
  let (o, errList) :=
    match o.OriginPharmacyRef with
    | some dbRef =>
      let (op, err) := PharmacyByRef dbRef session
      if isLoadFailure err then (o, errList ++ [err])
      else ({ o with OriginPharmacy := op }, errList)
    | none => (o, errList)
  let (o, errList) :=
    match o.PartnerPharmacyRef with
    | some dbRef =>
      let (pp, err) := PharmacyByRef dbRef session
      if isLoadFailure err then (o, errList ++ [err])
      else ({ o with PartnerPharmacy := pp }, errList)
    | none => (o, errList)
  let o :=
    match o.Payment with
    | some p => { o with Payment := some { p with Manager := manager } }
    | none => o
  let o :=
    match o.Address with
    | some a => { o with Address := some { a with Manager := manager } }
    | none => o
  (o, HandleRefLoadError "ERRORS" errList)

/-- Whether the lookup of a pharmacy reference, when the reference is set, fails
with an error other than `not found`. -/
def pharmacyLoadFails (session : DbSession) (dbRef : Option DBRef) : Bool :=
  match dbRef with
  | some r => isLoadFailure (PharmacyByRef r session).2
  | none => false

/-- A session that holds one address, under the id `a1`, and no other document. -/
def addressOnlySession : DbSession :=
  { FindOrderByNumber := fun _ => .error ErrNotFound
    FindAddressByRef := fun r =>
      if r.Id == "a1" then .ok { ID := "a1", Street1 := "1 Main St", City := "Reno" }
      else .error ErrNotFound
    FindPaymentByRef := fun _ => .error ErrNotFound
    FindPharmacyByRef := fun _ => .error ErrNotFound }

/-- An order that refers to the address `a1` and to a payment `p9`. -/
def referringOrder : Order :=
  { OrderNumber := "1234-5678-9012"
    AddressRef := some { Collection := "address", Id := "a1" }
    PaymentRef := some { Collection := "paymentInfo", Id := "p9" } }

/-! ## Loading references by configuration, aggregation of errors -/

/-- The function `WrapErrors` of `commons.go`, whose body is that of
`HandleRefLoadError`. -/
def WrapErrors (message : String) (errs : List (Option GoError)) : Option GoError :=
  errs.foldl
    (fun err ei =>
      if ei != none then
        let err := if err == none then ei else err
        match err with
        | some e => some (Wrapf e message)
        | none => none
      else
        err)
    none

/-- The struct `OrderLoadConfig`. -/
structure OrderLoadConfig where
  LoadAddress : Bool := false
  LoadPayment : Bool := false
  LoadOriginPharmacy : Bool := false
  LoadPartnerPharmacy : Bool := false
deriving DecidableEq, Repr

/-- One call of `FindByRef` on the session, named after the relation it is made
for, with the reference looked up. -/
inductive RefLookup where
  | address (dbRef : DBRef)
  | payment (dbRef : DBRef)
  | originPharmacy (dbRef : DBRef)
  | partnerPharmacy (dbRef : DBRef)
deriving DecidableEq, Repr

/-- What a call of `LoadReferencesWithConfig` leaves: the order after the call,
the error returned and the lookups made on the session, first to last. -/
structure LoadResult where
  order : Order
  err : Option GoError
  lookups : List RefLookup

/-- The function `LoadReferencesWithConfig`. -/
def LoadReferencesWithConfig (o : Order) (manager : Option User) (config : OrderLoadConfig)
    (session : DbSession) : LoadResult :=
  let errList : List (Option GoError) := []
  let lookups : List RefLookup := []
  let (o, errList, lookups) :=
    match config.LoadAddress, o.AddressRef, o.Address with
    | true, some dbRef, none =>
      let (addr, err) := AddressByRef dbRef session
      let lookups := lookups ++ [RefLookup.address dbRef]
      if isLoadFailure err then (o, errList ++ [err], lookups)
      else ({ o with Address := addr }, errList, lookups)
    | _, _, _ => (o, errList, lookups)
  let (o, errList, lookups) :=
    match config.LoadPayment, o.PaymentRef, o.Payment with
    | true, some dbRef, none =>
      let (p, err) := PaymentByRef dbRef session
      let lookups := lookups ++ [RefLookup.payment dbRef]
      if isLoadFailure err then (o, errList ++ [err], lookups)
      else ({ o with Payment := p }, errList, lookups)
    | _, _, _ => (o, errList, lookups)
  let (o, errList, lookups) :=
    match config.LoadOriginPharmacy, o.OriginPharmacyRef, o.OriginPharmacy with
    | true, some dbRef, none =>
      let (op, err) := PharmacyByRef dbRef session
      let lookups := lookups ++ [RefLookup.originPharmacy dbRef]
      if isLoadFailure err then (o, errList ++ [err], lookups)
      else ({ o with OriginPharmacy := op }, errList, lookups)
    | _, _, _ => (o, errList, lookups)
  let (o, errList, lookups) :=
    match config.LoadPartnerPharmacy, o.PartnerPharmacyRef, o.PartnerPharmacy with
    | true, some dbRef, none =>
      let (pp, err) := PharmacyByRef dbRef session
      let lookups := lookups ++ [RefLookup.partnerPharmacy dbRef]
      if isLoadFailure err then (o, errList ++ [err], lookups)
      else ({ o with PartnerPharmacy := pp }, errList, lookups)
    | _, _, _ => (o, errList, lookups)
  let o :=
    match o.Payment with
    | some p => { o with Payment := some { p with Manager := manager } }
    | none => o
  let o :=
    match o.Address with
    | some a => { o with Address := some { a with Manager := manager } }
    | none => o
  { order := o, err := HandleRefLoadError "ERRORS" errList, lookups := lookups }

/-! ## Accessors that read a milestone without a nil check (`order.go`) -/

namespace Order

/-- The method `Order.IsShipped`. -/
def IsShipped (o : Order) : Bool :=
  if o.DeliveryStatus != "" &&
      (o.DeliveryStatus == MSShipped || o.DeliveryStatus == MSWaitingLabelScan) then
    true
  else
    false

/-- The method `Order.IsDelivered`: `none` is the run-time panic of reading
`DeliveryConfirmed` through a nil `DeliveryMilestone`. -/
def IsDelivered (o : Order) : Option Bool :=
  match o.DeliveryMilestone with
  | some dm => some dm.DeliveryConfirmed
  | none => none

/-- The method `Order.IsPromoDiscountApplied`: `none` is the run-time panic of
reading `AppliedPromoDiscount` through a nil `PaymentMilestone`. -/
def IsPromoDiscountApplied (o : Order) : Option Bool :=
  match o.PaymentMilestone with
  | some pm =>
    some (pm.AppliedPromoDiscount != "" &&
      pm.AppliedPromoDiscount != "0.00" &&
      pm.AppliedPromoDiscount != "0.0" &&
      pm.AppliedPromoDiscount != "0")
  | none => none

/-- The method `Order.PromoDiscount`, which tests the milestone for nil. -/
def PromoDiscount (o : Order) : String :=
  match o.PaymentMilestone with
  | none => ""
  | some pm => pm.AppliedPromoDiscount

/-- The method `Order.CarrierType`, which tests the milestone for nil. -/
def CarrierType (o : Order) : String :=
  match o.DeliveryMilestone with
  | none => ""
  | some dm => dm.CarrierType

end Order

/-! ## Validation of a milestone update (`milestones.go`, `order_service.go`) -/

/-- Every constant of the block of milestone statuses of `milestones.go`, in the
order of the source. -/
def MilestoneStatusConstants : List String :=
  [MSNotInitiated, MSCallCompleted, MSCompleted, MSTransferInitiated, MSTransferRequested,
   MSZeroRefills, MSEScriptRequestSent, MSTransferBack, MSTransferOut,
   MSVerificationInitiated, MSTransferBackCompleted, MSTransferOutCompleted, MSRefillNotDue,
   MSSendNewRxFax, MSTransferControlled, MSRouteControlled, MSReverseInsurance,
   MSInsuranceReversed, MSPendingApproval, MSPaymentAuthorized, MSFaxSent, MSPriorAuth,
   MSPriorAuthProcessing, MSShipped, MSWaitingLabelScan, MSShippingLabelGenerated,
   MSGenerateShippingLabel, MSPendingActionTaken, MSCashPriceCheck, MSCashPriceIdentified,
   MSPendingApprovalUntilFreeTrial, MSPendingApprovalUntilPriceInspection,
   MSPendingApprovalUntilPriceInspectionByPP,
   MSPendingApprovalUntilPriceInspectionNoFreeTrial,
   MSPendingApprovalUntilPriceInspectionFreeTrial, MSPendingApprovalAfterPriceInspection,
   MSPendingApprovalAndSignup, MSPendingPaymentOffline, MSPaymentCompleteInvoicePending,
   MSPaymentIncompleteInvoicePending, MSPaymentIncompleteOffline, MSInsuranceOverride,
   MSInTransit, MSDelivered]

/-- The function `UpdateOrderMilestoneStatus`; `updateFieldValue` is what the
method `UpdateFieldValue` of the session returns for the order number, the
collection, the key and the value it is given. -/
def UpdateOrderMilestoneStatus
    (updateFieldValue : String → String → String → String → Option GoError)
    (orderNumber milestoneName status : String) : Option GoError :=
  let found := MilestoneNames.any (fun mn => mn == milestoneName)
  if !found then
    some "Invalid milestone name"
  else
    let found := MilestoneStatusList.any (fun st => st == status)
    if !found then
      some "Invalid milestone status value"
    else
      let key := milestoneName ++ ".status"
      updateFieldValue orderNumber "order" key status

/-- A session method `UpdateFieldValue` that always succeeds. -/
def updateAlwaysSucceeds : String → String → String → String → Option GoError :=
  fun _ _ _ _ => none

/-- A session whose address lookup finds no document, whatever the reference. -/
def emptySession : DbSession :=
  { FindOrderByNumber := fun _ => .error ErrNotFound
    FindAddressByRef := fun _ => .error ErrNotFound
    FindPaymentByRef := fun _ => .error ErrNotFound
    FindPharmacyByRef := fun _ => .error ErrNotFound }

/-- A manager, as `util.Manager` builds it from the id of the session. -/
def sampleManager : User := { ID := "u1" }

/-- An order whose address is already populated, without a manager, and which
refers to that address. -/
def populatedOrder : Order :=
  { AddressRef := some { Collection := "address", Id := "a1" }
    Address := some { ID := "a1", Street1 := "1 Main St", City := "Reno" } }

/-! ## The blocks of the reference loaders, one by one -/

/-- The attribute a block of `LoadReferences` leaves: the old one when the
reference is nil or the lookup fails with an error other than `not found`, else
what the lookup function returns. -/
def loadedValue {α : Type} (dbRef : Option DBRef) (fetch : DBRef → Option α × Option GoError)
    (old : Option α) : Option α :=
  match dbRef with
  | some r => if isLoadFailure (fetch r).2 then old else (fetch r).1
  | none => old

/-- The errors a block of `LoadReferences` appends to the list: the error of the
lookup when the reference is set and the error is not `not found`. -/
def loadedErrors {α : Type} (dbRef : Option DBRef)
    (fetch : DBRef → Option α × Option GoError) : List (Option GoError) :=
  match dbRef with
  | some r => if isLoadFailure (fetch r).2 then [(fetch r).2] else []
  | none => []

/-- The reference a block of `LoadReferencesWithConfig` looks up: the reference
of the order when the flag is set and the attribute is nil. -/
def dueRef {α : Type} (flag : Bool) (dbRef : Option DBRef) (old : Option α) : Option DBRef :=
  match flag, dbRef, old with
  | true, some r, none => some r
  | _, _, _ => none

/-- The first block of `LoadReferences`, on the order and the list of errors so
far. -/
def addressBlock (session : DbSession) (st : Order × List (Option GoError)) :
    Order × List (Option GoError) :=
  match st.1.AddressRef with
  | some dbRef =>
    let (addr, err) := AddressByRef dbRef session
    if isLoadFailure err then (st.1, st.2 ++ [err]) else ({ st.1 with Address := addr }, st.2)
  | none => (st.1, st.2)

/-- The second block of `LoadReferences`. -/
def paymentBlock (session : DbSession) (st : Order × List (Option GoError)) :
    Order × List (Option GoError) :=
  match st.1.PaymentRef with
  | some dbRef =>
    let (p, err) := PaymentByRef dbRef session
    if isLoadFailure err then (st.1, st.2 ++ [err]) else ({ st.1 with Payment := p }, st.2)
  | none => (st.1, st.2)

/-- The third block of `LoadReferences`. -/
def originPharmacyBlock (session : DbSession) (st : Order × List (Option GoError)) :
    Order × List (Option GoError) :=
  match st.1.OriginPharmacyRef with
  | some dbRef =>
    let (op, err) := PharmacyByRef dbRef session
    if isLoadFailure err then (st.1, st.2 ++ [err])
    else ({ st.1 with OriginPharmacy := op }, st.2)
  | none => (st.1, st.2)

/-- The fourth block of `LoadReferences`. -/
def partnerPharmacyBlock (session : DbSession) (st : Order × List (Option GoError)) :
    Order × List (Option GoError) :=
  match st.1.PartnerPharmacyRef with
  | some dbRef =>
    let (pp, err) := PharmacyByRef dbRef session
    if isLoadFailure err then (st.1, st.2 ++ [err])
    else ({ st.1 with PartnerPharmacy := pp }, st.2)
  | none => (st.1, st.2)

/-- The end of both loaders: the manager is put on a non-nil payment and on a
non-nil address. -/
def managerBlock (manager : Option User) (o : Order) : Order :=
  let o :=
    match o.Payment with
    | some p => { o with Payment := some { p with Manager := manager } }
    | none => o
  match o.Address with
  | some a => { o with Address := some { a with Manager := manager } }
  | none => o

/-- The first block of `LoadReferencesWithConfig`, on the order, the list of
errors and the lookups so far. -/
def addressBlockWithConfig (config : OrderLoadConfig) (session : DbSession)
    (st : Order × List (Option GoError) × List RefLookup) :
    Order × List (Option GoError) × List RefLookup :=
  match config.LoadAddress, st.1.AddressRef, st.1.Address with
  | true, some dbRef, none =>
    let (addr, err) := AddressByRef dbRef session
    let lookups := st.2.2 ++ [RefLookup.address dbRef]
    if isLoadFailure err then (st.1, st.2.1 ++ [err], lookups)
    else ({ st.1 with Address := addr }, st.2.1, lookups)
  | _, _, _ => (st.1, st.2.1, st.2.2)

/-- The second block of `LoadReferencesWithConfig`. -/
def paymentBlockWithConfig (config : OrderLoadConfig) (session : DbSession)
    (st : Order × List (Option GoError) × List RefLookup) :
    Order × List (Option GoError) × List RefLookup :=
  match config.LoadPayment, st.1.PaymentRef, st.1.Payment with
  | true, some dbRef, none =>
    let (p, err) := PaymentByRef dbRef session
    let lookups := st.2.2 ++ [RefLookup.payment dbRef]
    if isLoadFailure err then (st.1, st.2.1 ++ [err], lookups)
    else ({ st.1 with Payment := p }, st.2.1, lookups)
  | _, _, _ => (st.1, st.2.1, st.2.2)

/-- The third block of `LoadReferencesWithConfig`. -/
def originPharmacyBlockWithConfig (config : OrderLoadConfig) (session : DbSession)
    (st : Order × List (Option GoError) × List RefLookup) :
    Order × List (Option GoError) × List RefLookup :=
  match config.LoadOriginPharmacy, st.1.OriginPharmacyRef, st.1.OriginPharmacy with
  | true, some dbRef, none =>
    let (op, err) := PharmacyByRef dbRef session
    let lookups := st.2.2 ++ [RefLookup.originPharmacy dbRef]
    if isLoadFailure err then (st.1, st.2.1 ++ [err], lookups)
    else ({ st.1 with OriginPharmacy := op }, st.2.1, lookups)
  | _, _, _ => (st.1, st.2.1, st.2.2)

/-- The fourth block of `LoadReferencesWithConfig`. -/
def partnerPharmacyBlockWithConfig (config : OrderLoadConfig) (session : DbSession)
    (st : Order × List (Option GoError) × List RefLookup) :
    Order × List (Option GoError) × List RefLookup :=
  match config.LoadPartnerPharmacy, st.1.PartnerPharmacyRef, st.1.PartnerPharmacy with
  | true, some dbRef, none =>
    let (pp, err) := PharmacyByRef dbRef session
    let lookups := st.2.2 ++ [RefLookup.partnerPharmacy dbRef]
    if isLoadFailure err then (st.1, st.2.1 ++ [err], lookups)
    else ({ st.1 with PartnerPharmacy := pp }, st.2.1, lookups)
  | _, _, _ => (st.1, st.2.1, st.2.2)

/-- A session on which the lookup of an address fails with the error `EOF`, the
lookup of a payment answers a payment and no pharmacy is found. -/
def flakySession : DbSession :=
  { FindOrderByNumber := fun _ => .error ErrNotFound
    FindAddressByRef := fun _ => .error "EOF"
    FindPaymentByRef := fun _ => .ok { ID := "p9", CardName := "Ann Lee" }
    FindPharmacyByRef := fun _ => .error ErrNotFound }

/-- The configuration that asks for every relation. -/
def loadEverything : OrderLoadConfig :=
  { LoadAddress := true, LoadPayment := true, LoadOriginPharmacy := true,
    LoadPartnerPharmacy := true }

/-- The body of the loop of `HandleRefLoadError` and of `WrapErrors` at one
element: `err` is the error kept so far. -/
def wrapStep (message : String) (err : Option GoError) (ei : Option GoError) :
    Option GoError :=
  if ei != none then
    let err := if err == none then ei else err
    match err with
    | some e => some (Wrapf e message)
    | none => none
  else
    err

/-! ## Middleware (`middleware.go`, `aliz.go`)

Of a request the method, the Authorization header and the claims stored in its
context under `SessionUserKey` are kept; of the response writer, the error
handler and the logger, what was written to them. The packages `net/http` and
`jwt-go` are libraries the repository calls. -/

/-- The map `jwt.MapClaims`, its values kept as strings. -/
abbrev MapClaims := List (String × String)

/-- What the middleware reads of a `http.Request`; `Authorization` is the value of
`r.Header.Get("Authorization")`, empty when the header is absent. -/
structure Request where
  Method : String := ""
  Authorization : String := ""
  SessionUser : Option MapClaims := none
deriving DecidableEq, Repr

/-- The struct `Error` of `aliz.go`. -/
structure ApiError where
  ID : String
  Status : Int
  Title : String
  Detail : String
deriving DecidableEq, Repr

/-- The variable `UnAuthorized`. -/
def UnAuthorized : ApiError :=
  { ID := "un_authorized", Status := 401, Title := "Request UnAuthorized",
    Detail := "Request must be authorized" }

/-- One write to the body of the response: the JSON document `Errors` or a text. -/
inductive BodyPart where
  | errors (errs : List ApiError)
  | text (s : String)
deriving DecidableEq, Repr

/-- What a handler leaves behind: the Content-Type header, the status written by
`WriteHeader`, the parts written to the body, the errors passed to
`ErrorHandler.HandleError` and the lines logged, each in the order of the
calls. -/
structure Exchange where
  contentType : String := ""
  status : Option Int := none
  body : List BodyPart := []
  handled : List GoError := []
  logged : List String := []
deriving DecidableEq, Repr

/-- The value a Go `panic` carries, as the type switch of `RecoverHandler` sees
it: a string, an error, or a value of another type. -/
inductive PanicValue where
  | str (s : String)
  | err (e : GoError)
  | other
deriving DecidableEq, Repr

/-- A `http.Handler`: from the request and the exchange so far to the exchange
after `ServeHTTP` and the panic it ended in, if any. -/
abbrev Handler := Request → Exchange → Exchange × Option PanicValue

/-- The method `WriteHeader` of the response writer: the first status written
stays. -/
def WriteHeader (w : Exchange) (code : Int) : Exchange :=
  match w.status with
  | none => { w with status := some code }
  | some _ => w

/-- The function `WriteError`. -/
def WriteError (w : Exchange) (err : ApiError) : Exchange :=
  let w := { w with contentType := "application/json" }
  let w := WriteHeader w err.Status
  { w with body := w.body ++ [BodyPart.errors [err]] }

/-- The function `http.Error` of `net/http`. -/
def httpError (w : Exchange) (error : String) (code : Int) : Exchange :=
  let w := { w with contentType := "text/plain; charset=utf-8" }
  let w := WriteHeader w code
  { w with body := w.body ++ [BodyPart.text (error ++ "\n")] }

/-- The method `HandleError` of the error handler passed to the middleware. -/
def HandleError (w : Exchange) (err : GoError) : Exchange :=
  { w with handled := w.handled ++ [err] }

/-- The function `log.Printf`, on the line it prints. -/
def logPrintf (w : Exchange) (line : String) : Exchange :=
  { w with logged := w.logged ++ [line] }

/-- The deferred function of `RecoverHandler` when `recover()` returns `rr`. -/
def recoverDeferred (rr : Option PanicValue) (w : Exchange) : Exchange × Option PanicValue :=
  match rr with
  | some x =>
    let w := logPrintf w "PANIC: stack"
    let err : Option GoError :=
      match x with
      | .str s => some s
      | .err e => some e
      | .other => some "Unknown panic"
    let w :=
      match err with
      | some e => HandleError w e
      | none => w
    (httpError w "Internal Server Error" 500, none)
  | none => (w, none)

set_option linter.unusedVariables false in
/-- The function `RecoverHandler`, applied to `next`: the body of `fn` holds the
`defer` statement and nothing else, so it ends without a panic and the deferred
function runs on `recover() == nil`. -/
def RecoverHandler (next : Option Handler) : Handler := fun r w =>
  let body : Exchange × Option PanicValue := (w, none)
  recoverDeferred body.2 body.1

/-- The pieces of a list of characters between the occurrences of `sep`. -/
def splitChars (sep : Char) : List Char → List (List Char)
  | [] => [[]]
  | c :: cs =>
    if c == sep then
      [] :: splitChars sep cs
    else
      match splitChars sep cs with
      | [] => [[c]]
      | piece :: pieces => (c :: piece) :: pieces

/-- The function `strings.Split` on a separator of one character. -/
def stringsSplit (s : String) (sep : Char) : List String :=
  (splitChars sep s.toList).map String.mk

/-- The function `strings.ToLower` on the letters A to Z; a character outside
ASCII is left as it is, and no such character is lowered by Go to a letter of
the word the middleware compares with. -/
def stringsToLower (s : String) : String :=
  String.mk (s.toList.map Char.toLower)

/-- The function `getAuthHeaderParts`. -/
def getAuthHeaderParts (r : Request) : List String × Option GoError :=
  let authHeader := r.Authorization
  if authHeader == "" then
    ([""], none)
  else
    (stringsSplit authHeader ' ', none)

/-- The function `extractTokenFromAuthHeader`. -/
def extractTokenFromAuthHeader (r : Request) : String × Option GoError :=
  let (authHeaderParts, err) := getAuthHeaderParts r
  if err != none then
    ("", err)
  else if authHeaderParts.length != 2 ||
      stringsToLower (authHeaderParts.getD 0 "") != "bearer" then
    ("", some "Incorrect authorization header format. Invalid access token")
  else
    (authHeaderParts.getD 1 "", none)

/-- What `jwt.Parse` returns on a token without an error: whether the token is
valid and its claims when they are a `jwt.MapClaims`. -/
structure ParsedToken where
  Valid : Bool
  Claims : Option MapClaims
deriving DecidableEq, Repr

/-- The function `jwt.Parse` with the key function of `checkJWT`, on the token and
the secret: the parsed token or the error returned. -/
abbrev JwtParse := String → String → Except GoError ParsedToken

/-- The function `checkJWT`. -/
def checkJWT (parse : JwtParse) (r : Request) (secretAuthToken : String) :
    Option MapClaims × Option GoError :=
  if r.Method == "OPTIONS" then
    (none, none)
  else
    let (token, err) := extractTokenFromAuthHeader r
    if err != none then
      (none, err)
    else if token == "" then
      (none, some "Invalid auth token")
    else
      match parse token secretAuthToken with
      | .error err => (none, some err)
      | .ok parsedToken =>
        if !parsedToken.Valid then
          (none, some "Invalid auth token")
        else
          match parsedToken.Claims with
          | some claims => (some claims, none)
          | none => (none, some "Invalid auth token")

/-- The function `JWTAuthHandler`, applied to `next`. -/
def JWTAuthHandler (parse : JwtParse) (secretAuthToken : String) (next : Option Handler) :
    Handler := fun r w =>
  let (claims, err) := checkJWT parse r secretAuthToken
  match err with
  | some e =>
    if e != "Token is expired" then
      let w := logPrintf w ("[ERROR] Invalid authentication token: " ++ e)
      let w := HandleError w e
      let w := WriteError w UnAuthorized
      (w, none)
    else
      match next with
      | some next =>
        let r := match claims with
          | some c => { r with SessionUser := some c }
          | none => r
        next r w
      | none => (w, none)
  | none =>
    match next with
    | some next =>
      let r := match claims with
        | some c => { r with SessionUser := some c }
        | none => r
      next r w
    | none => (w, none)

/-- The handler `Index` of the example of `aliz.go`: it writes `Welcome!`. -/
def indexHandler : Handler := fun _ w =>
  ({ w with status := some 200, body := w.body ++ [BodyPart.text "Welcome!\n"] }, none)

/-- A handler that panics with the string `boom` before it writes anything. -/
def panickingHandler : Handler := fun _ w => (w, some (PanicValue.str "boom"))

/-- A parser that finds every token expired. -/
def expiredParse : JwtParse := fun _ _ => .error "Token is expired"

/-- A parser that finds the signature of every token wrong. -/
def badSignatureParse : JwtParse := fun _ _ => .error "signature is invalid"

/-- A GET request with a bearer token. -/
def bearerRequest : Request := { Method := "GET", Authorization := "Bearer abc.def.ghi" }

/-! ## JSON time (`core.go`)

A `JSONTime` is a `time.Time`, an instant in nanoseconds since the Unix epoch.
The packages `strconv`, `strings` and `time` are libraries the repository
calls. -/

/-- The type `JSONTime`. -/
abbrev JSONTime := Time

/-- The method `Time.Unix`: the whole seconds since the epoch, rounded down. -/
def Time.Unix (t : Time) : Int := t / 1000000000

/-- The function `time.Unix`. -/
def timeUnix (sec : Int) (nsec : Int) : Time := sec * 1000000000 + nsec

/-- The function `strconv.FormatInt` in base 10. -/
def FormatInt (i : Int) : String := toString i

/-- The value of a list of decimal digits, most significant first. -/
def digitsValue (cs : List Char) : Nat :=
  cs.foldl (fun acc c => 10 * acc + (c.toNat - '0'.toNat)) 0

/-- The function `strconv.ParseInt` in base 10 and 64 bits: an optional sign and
one or more decimal digits, within the range of `int64`; of the error only the
cause is kept. -/
def ParseInt (s : String) : Except GoError Int :=
  let (neg, body) :=
    match s.toList with
    | '+' :: rest => (false, rest)
    | '-' :: rest => (true, rest)
    | cs => (false, cs)
  if body.isEmpty || !body.all Char.isDigit then
    .error "invalid syntax"
  else
    let value : Int := if neg then -(digitsValue body : Int) else (digitsValue body : Int)
    if value < -9223372036854775808 || value > 9223372036854775807 then
      .error "value out of range"
    else
      .ok value

/-- The method `JSONTime.MarshalJSON`; the error it returns is always nil. -/
def MarshalJSON (t : JSONTime) : String :=
  FormatInt (Time.Unix t)

/-- The method `JSONTime.UnmarshalJSON`: the time stored, or the error. -/
def UnmarshalJSON (s : String) : Except GoError JSONTime :=
  let r := String.mk (s.toList.filter fun c => c != '"')
  match ParseInt r with
  | .error err => .error err
  | .ok result => .ok (timeUnix (result.tdiv 1000) 0)

/-! ## Theorems -/

/-- C1 (as stated, refuted): the order `suspendedOrder` has its MissingInfoState set,
yet IsProcessingTransfer, IsProcessingNewPrescription, IsProcessingInsurance,
IsProcessingPayment, IsProcessingStockCheck, IsProcessingDelivery,
IsProcessingRefillAuth and IsPendingPaymentApproval all return true on it, and
IsProcessingCash returns true on its out-of-pocket variant. -/
theorem suspension_dominance_fails :
    suspendedOrder.MissingInfoState ≠ none ∧
    suspendedCashOrder.MissingInfoState ≠ none ∧
    suspendedOrder.IsProcessingTransfer = true ∧
    suspendedOrder.IsProcessingNewPrescription = true ∧
    suspendedOrder.IsProcessingInsurance = true ∧
    suspendedCashOrder.IsProcessingCash = true ∧
    suspendedOrder.IsProcessingPayment = true ∧
    suspendedOrder.IsProcessingStockCheck = true ∧
    suspendedOrder.IsProcessingDelivery = true ∧
    suspendedOrder.IsProcessingRefillAuth = true ∧
    suspendedOrder.IsPendingPaymentApproval = true := by
  refine ⟨by simp [suspendedOrder], by simp [suspendedCashOrder, suspendedOrder],
    ?_, ?_, ?_, ?_, ?_, ?_, ?_, ?_, ?_⟩ <;> decide

/-- C1 (amended): none of the nine predicates consults MissingInfoState: on every
order each of them returns the same value whatever overlay (set or nil) is put
in place of the order's MissingInfoState, so the result is decided by the region
statuses, the payment option and the contact-customer flag alone. -/
theorem isProcessing_ignores_missingInfoState (o : Order) (mis : Option MissingInfoState) :
    ({ o with MissingInfoState := mis } : Order).IsProcessingTransfer
      = o.IsProcessingTransfer ∧
    ({ o with MissingInfoState := mis } : Order).IsProcessingNewPrescription
      = o.IsProcessingNewPrescription ∧
    ({ o with MissingInfoState := mis } : Order).IsProcessingInsurance
      = o.IsProcessingInsurance ∧
    ({ o with MissingInfoState := mis } : Order).IsProcessingCash
      = o.IsProcessingCash ∧
    ({ o with MissingInfoState := mis } : Order).IsProcessingPayment
      = o.IsProcessingPayment ∧
    ({ o with MissingInfoState := mis } : Order).IsProcessingStockCheck
      = o.IsProcessingStockCheck ∧
    ({ o with MissingInfoState := mis } : Order).IsProcessingDelivery
      = o.IsProcessingDelivery ∧
    ({ o with MissingInfoState := mis } : Order).IsProcessingRefillAuth
      = o.IsProcessingRefillAuth ∧
    ({ o with MissingInfoState := mis } : Order).IsPendingPaymentApproval
      = o.IsPendingPaymentApproval :=
  ⟨rfl, rfl, rfl, rfl, rfl, rfl, rfl, rfl, rfl⟩

/-! ### The sleep schedule as a list -/

theorem touchSleepStatus_State (s : OrderSleepState) (a b : Option Time)
    (e : OrderSleepStatus) : (touchSleepStatus s a b e).State = e.State := by
  unfold touchSleepStatus
  by_cases h : (e.State == s) = true
  · by_cases h' : (s != TimedSleep) = true <;> simp [h, h']
  · simp [h]

theorem touchSleepStatus_of_ne (s : OrderSleepState) (a b : Option Time)
    (e : OrderSleepStatus) (h : e.State ≠ s) : touchSleepStatus s a b e = e := by
  simp [touchSleepStatus, h]

theorem touchSleepStatus_of_eq (s : OrderSleepState) (a b : Option Time)
    (e : OrderSleepStatus) (h : e.State = s) :
    touchSleepStatus s a b e =
      { e with
        ResetNeeded := if s = TimedSleep then e.ResetNeeded else true
        SleepStartDate := a
        SleepStopDate := b } := by
  by_cases h' : s = TimedSleep <;> simp [touchSleepStatus, h, h']

theorem countP_map_touchSleepStatus (s s' : OrderSleepState) (a b : Option Time)
    (l : List OrderSleepStatus) :
    (l.map (touchSleepStatus s a b)).countP (fun e => e.State == s')
      = l.countP (fun e => e.State == s') := by
  induction l with
  | nil => rfl
  | cons e l ih => simp [List.countP_cons, touchSleepStatus_State, ih]

theorem map_touchSleepStatus_of_absent (s : OrderSleepState) (a b : Option Time)
    (l : List OrderSleepStatus) (h : ∀ e ∈ l, e.State ≠ s) :
    l.map (touchSleepStatus s a b) = l := by
  induction l with
  | nil => rfl
  | cons e l ih =>
    have he : e.State ≠ s := h e (List.mem_cons_self e l)
    have hl : ∀ x ∈ l, x.State ≠ s := fun x hx => h x (List.mem_cons_of_mem e hx)
    simp [touchSleepStatus_of_ne s a b e he, ih hl]

/-- The list left by `UpdateSleepStateWithStartAndStopDate`, for a nil and for a
non-nil schedule alike. -/
theorem sleepStatusList_update (o : Order) (s : OrderSleepState) (a b : Option Time) :
    (o.UpdateSleepStateWithStartAndStopDate s a b).SleepStatusList =
      some ((sleepList o).map (touchSleepStatus s a b) ++
        (if (sleepList o).any (fun e => e.State == s) then []
         else [newSleepStateStatus s a b])) := by
  unfold Order.UpdateSleepStateWithStartAndStopDate sleepList
  cases hl : o.SleepStatusList with
  | none => simp
  | some l =>
    simp only [Option.getD_some]
    by_cases hf : l.any (fun status => status.State == s) = true
    · have h1 : ¬ ((!l.any (fun status => status.State == s)) = true) := by
        rw [hf]; decide
      rw [if_neg h1, if_pos hf, List.append_nil]
    · have h1 : (!l.any (fun status => status.State == s)) = true := by
        rw [Bool.not_eq_true] at hf
        rw [hf]; rfl
      rw [if_pos h1, if_neg hf]

theorem sleepList_update (o : Order) (s : OrderSleepState) (a b : Option Time) :
    sleepList (o.UpdateSleepStateWithStartAndStopDate s a b) =
      (sleepList o).map (touchSleepStatus s a b) ++
        (if (sleepList o).any (fun e => e.State == s) then []
         else [newSleepStateStatus s a b]) := by
  rw [sleepList, sleepStatusList_update]; rfl

theorem newSleepStateStatus_eq (s : OrderSleepState) (a b : Option Time) :
    newSleepStateStatus s a b =
      { State := s, SleepStartDate := a, SleepStopDate := b,
        ResetNeeded := decide (s ≠ TimedSleep), SleepResetCount := 0 } := by
  by_cases h : s = TimedSleep <;> simp [newSleepStateStatus, h]

theorem any_state_eq_false_iff (s : OrderSleepState) (l : List OrderSleepStatus) :
    l.any (fun e => e.State == s) = false ↔ ∀ e ∈ l, e.State ≠ s := by
  simp [List.any_eq_false]

theorem any_state_iff_countP_pos (s : OrderSleepState) (l : List OrderSleepStatus) :
    l.any (fun e => e.State == s) = true ↔ 0 < l.countP (fun e => e.State == s) := by
  simp [List.any_eq_true, List.countP_pos_iff]

theorem sleepCount_update (o : Order) (s s' : OrderSleepState) (a b : Option Time) :
    sleepCount (o.UpdateSleepStateWithStartAndStopDate s a b) s' =
      sleepCount o s' + (if s' = s ∧ sleepCount o s = 0 then 1 else 0) := by
  unfold sleepCount
  rw [sleepList_update, List.countP_append, countP_map_touchSleepStatus]
  by_cases hf : (sleepList o).any (fun e => e.State == s) = true
  · have hpos := (any_state_iff_countP_pos s (sleepList o)).1 hf
    have hne : ¬ (List.countP (fun e => e.State == s) (sleepList o) = 0) := by omega
    simp [hf, hne]
  · have hzero : List.countP (fun e => e.State == s) (sleepList o) = 0 := by
      by_contra hc
      exact hf ((any_state_iff_countP_pos s (sleepList o)).2 (Nat.pos_of_ne_zero hc))
    by_cases hs : s' = s
    · simp [hf, hzero, hs, newSleepStateStatus_eq]
    · have hs2 : ¬ s = s' := fun h => hs h.symm
      simp [hf, hs, hs2, newSleepStateStatus_eq]

theorem sleepCount_remove (o : Order) (s s' : OrderSleepState) :
    sleepCount (o.RemoveSleepStatus s) s' = if s' = s then 0 else sleepCount o s' := by
  unfold sleepCount sleepList Order.RemoveSleepStatus
  cases hl : o.SleepStatusList with
  | none => simp [hl]
  | some l =>
    simp only [Option.getD_some]
    rw [List.countP_filter]
    by_cases hs : s' = s
    · subst hs
      simp
    · simp only [hs, if_false]
      apply List.countP_congr
      intro e _
      simp only [beq_iff_eq, bne_iff_ne, ne_eq, Bool.and_eq_true, decide_eq_true_eq]
      constructor
      · intro h; exact h.1
      · intro h; exact ⟨h, fun h2 => hs (h.symm.trans h2)⟩

theorem sleepUnique_iff_nodup (o : Order) :
    SleepUnique o ↔ ((sleepList o).map (fun e => e.State)).Nodup := by
  rw [List.nodup_iff_count_le_one]
  unfold SleepUnique sleepCount
  constructor
  · intro h a
    rw [List.count_eq_countP, List.countP_map]
    exact h a
  · intro h a
    have := h a
    rw [List.count_eq_countP, List.countP_map] at this
    exact this

theorem sleepUnique_sleepingOrder : SleepUnique sleepingOrder := by
  rw [sleepUnique_iff_nodup]
  decide

theorem resetNeeded_update (o : Order) (s : OrderSleepState) (a b : Option Time)
    (hs : s ≠ TimedSleep) (e : OrderSleepStatus)
    (he : e ∈ sleepList (o.UpdateSleepStateWithStartAndStopDate s a b)) (hes : e.State = s) :
    e.ResetNeeded = true := by
  rw [sleepList_update, List.mem_append] at he
  rcases he with he | he
  · obtain ⟨x, _, hx⟩ := List.mem_map.1 he
    have hxs : x.State = s := by
      rw [← touchSleepStatus_State s a b x, hx]; exact hes
    rw [← hx, touchSleepStatus_of_eq s a b x hxs]
    simp [hs]
  · by_cases hf : (sleepList o).any (fun e => e.State == s) = true
    · rw [if_pos hf] at he
      exact absurd he (List.not_mem_nil e)
    · rw [if_neg hf, List.mem_singleton] at he
      rw [he, newSleepStateStatus_eq]
      simp [hs]

/-- C2: on an order whose sleep schedule (nil or not) holds at most one entry per
state, and for a state `s` other than TimedSleep, after one call of
UpdateSleepStateWithStartAndStopDate(s, start, stop) and again after a second
call with the same arguments the schedule holds exactly one entry with state
`s`, and every entry with state `s` has resetNeeded = true. -/
theorem sleep_upsert_twice (o : Order) (s : OrderSleepState) (start stop : Option Time)
    (hs : s ≠ TimedSleep) (hu : SleepUnique o) :
    (sleepCount (o.UpdateSleepStateWithStartAndStopDate s start stop) s = 1 ∧
      ∀ e ∈ sleepList (o.UpdateSleepStateWithStartAndStopDate s start stop),
        e.State = s → e.ResetNeeded = true) ∧
    (sleepCount ((o.UpdateSleepStateWithStartAndStopDate s start stop)
        |>.UpdateSleepStateWithStartAndStopDate s start stop) s = 1 ∧
      ∀ e ∈ sleepList ((o.UpdateSleepStateWithStartAndStopDate s start stop)
          |>.UpdateSleepStateWithStartAndStopDate s start stop),
        e.State = s → e.ResetNeeded = true) := by
  have h1 : sleepCount (o.UpdateSleepStateWithStartAndStopDate s start stop) s = 1 := by
    rw [sleepCount_update]
    have := hu s
    by_cases hc : sleepCount o s = 0
    · simp [hc]
    · simp [hc]; omega
  refine ⟨⟨h1, fun e he hes => resetNeeded_update o s start stop hs e he hes⟩, ?_,
    fun e he hes => resetNeeded_update _ s start stop hs e he hes⟩
  rw [sleepCount_update, h1]
  simp

/-- C2 (witness): the theorem at `sleepingOrder` and the state CallPatient. -/
theorem sleep_upsert_twice_witness :
    CallPatient ≠ TimedSleep ∧ SleepUnique sleepingOrder ∧
    sleepCount ((sleepingOrder.UpdateSleepStateWithStartAndStopDate CallPatient (some 5) none)
        |>.UpdateSleepStateWithStartAndStopDate CallPatient (some 5) none) CallPatient = 1 :=
  ⟨by decide, sleepUnique_sleepingOrder,
    (sleep_upsert_twice sleepingOrder CallPatient (some 5) none (by decide)
      sleepUnique_sleepingOrder).2.1⟩

/-! ### The uniqueness invariant of the sleep schedule -/

theorem sleepUnique_update (o : Order) (s : OrderSleepState) (a b : Option Time)
    (hu : SleepUnique o) : SleepUnique (o.UpdateSleepStateWithStartAndStopDate s a b) := by
  intro s'
  rw [sleepCount_update]
  have h1 := hu s'
  by_cases hc : s' = s ∧ sleepCount o s = 0
  · obtain ⟨hs, h0⟩ := hc
    subst hs
    simp [h0]
  · simp only [hc, if_false]; omega

theorem sleepUnique_remove (o : Order) (s : OrderSleepState) (hu : SleepUnique o) :
    SleepUnique (o.RemoveSleepStatus s) := by
  intro s'
  rw [sleepCount_remove]
  by_cases hs : s' = s
  · simp [hs]
  · simp only [hs, if_false]; exact hu s'

/-- What `PendingActionTaken` leaves, field by field. -/
theorem pendingActionTaken_eq (now : Time) (o : Order) :
    o.PendingActionTaken now =
      { o with
        TransferMilestone := o.TransferMilestone.map fun tm =>
          { tm with Status := MSPendingActionTaken, LastProcessedDate := some now }
        NewRxMilestone := o.NewRxMilestone.map fun nm =>
          { nm with Status := MSPendingActionTaken, LastProcessedDate := some now }
        MissingInfoState := none
        SleepStatusList := o.SleepStatusList.map fun l =>
          l.filter fun status => status.State != CallPatient } := by
  unfold Order.PendingActionTaken Order.RemoveSleepStatus
  cases h1 : o.TransferMilestone <;> cases h2 : o.NewRxMilestone <;>
    cases h3 : o.SleepStatusList <;> simp [h1, h2, h3]

theorem sleepCount_pendingActionTaken (now : Time) (o : Order) (s : OrderSleepState) :
    sleepCount (o.PendingActionTaken now) s = sleepCount (o.RemoveSleepStatus CallPatient) s := by
  rw [pendingActionTaken_eq]
  unfold sleepCount sleepList Order.RemoveSleepStatus
  cases h3 : o.SleepStatusList <;> simp [h3]

theorem initializeOrder_sleepStatusList (id : ObjectId) (now : Time)
    (orderNumber originType : String) :
    (InitializeOrder id now orderNumber originType).SleepStatusList = none := by
  unfold InitializeOrder
  by_cases h : (originType == "Transfer") = true <;> simp [h] <;> rfl

/-- C3: the sleep schedule of the order returned by InitializeOrder holds at most
one entry per state, and each of UpdateSleepState, UpdateTimedSleepState,
UpdateSleepStateWithStartDate, UpdateSleepStateWithStartAndStopDate,
RemoveSleepStatus and PendingActionTaken, at every argument and clock reading,
takes an order with at most one entry per state to an order with at most one
entry per state. -/
theorem sleepUnique_invariant :
    (∀ (id : ObjectId) (now : Time) (orderNumber originType : String),
      SleepUnique (InitializeOrder id now orderNumber originType)) ∧
    (∀ o : Order, SleepUnique o →
      (∀ (now later : Time) (s : OrderSleepState),
        SleepUnique (o.UpdateSleepState now later s)) ∧
      (∀ (now : Time) (wakeupAt : Option Time),
        SleepUnique (o.UpdateTimedSleepState now wakeupAt)) ∧
      (∀ (now : Time) (s : OrderSleepState) (start : Time),
        SleepUnique (Order.UpdateSleepStateWithStartDate now o s start)) ∧
      (∀ (s : OrderSleepState) (start stop : Option Time),
        SleepUnique (o.UpdateSleepStateWithStartAndStopDate s start stop)) ∧
      (∀ s : OrderSleepState, SleepUnique (o.RemoveSleepStatus s)) ∧
      (∀ now : Time, SleepUnique (o.PendingActionTaken now))) := by
  refine ⟨?_, ?_⟩
  · intro id now orderNumber originType s
    simp [sleepCount, sleepList, initializeOrder_sleepStatusList]
  · intro o hu
    refine ⟨?_, ?_, ?_, ?_, ?_, ?_⟩
    · intro now later s
      exact sleepUnique_update o s _ _ hu
    · intro now wakeupAt
      exact sleepUnique_update o TimedSleep _ _ hu
    · intro now s start
      exact sleepUnique_update o s _ _ hu
    · intro s start stop
      exact sleepUnique_update o s start stop hu
    · intro s
      exact sleepUnique_remove o s hu
    · intro now s
      rw [sleepCount_pendingActionTaken]
      exact sleepUnique_remove o CallPatient hu s

/-- C3 (witness): the invariant carried from `sleepingOrder` through
UpdateTimedSleepState and through PendingActionTaken. -/
theorem sleepUnique_invariant_witness :
    SleepUnique sleepingOrder ∧
    SleepUnique (sleepingOrder.UpdateTimedSleepState 7 (some 9)) ∧
    SleepUnique (sleepingOrder.PendingActionTaken 7) :=
  ⟨sleepUnique_sleepingOrder,
    (sleepUnique_invariant.2 sleepingOrder sleepUnique_sleepingOrder).2.1 7 (some 9),
    (sleepUnique_invariant.2 sleepingOrder sleepUnique_sleepingOrder).2.2.2.2.2 7⟩

/-- C4: when the sleep schedule `l` of an order already holds an entry with state
`s`, UpdateSleepStateWithStartAndStopDate(s, start, stop) leaves a list of the
same length whose entry at each position keeps its state and its
sleepResetCount; an entry with state `s` gets sleepStartDate = start and
sleepStopDate = stop, gets resetNeeded = true when `s` is not TimedSleep and
keeps its resetNeeded when `s` is TimedSleep; an entry with another state is
unchanged. -/
theorem sleep_upsert_existing (o : Order) (l : List OrderSleepStatus) (s : OrderSleepState)
    (start stop : Option Time) (hl : o.SleepStatusList = some l)
    (hex : ∃ e ∈ l, e.State = s) :
    ∃ l', (o.UpdateSleepStateWithStartAndStopDate s start stop).SleepStatusList = some l' ∧
      l'.length = l.length ∧
      ∀ (i : Nat) (e : OrderSleepStatus), l[i]? = some e →
        ∃ e', l'[i]? = some e' ∧ e'.State = e.State ∧
          e'.SleepResetCount = e.SleepResetCount ∧
          (e.State = s →
            e'.SleepStartDate = start ∧ e'.SleepStopDate = stop ∧
            (s ≠ TimedSleep → e'.ResetNeeded = true) ∧
            (s = TimedSleep → e'.ResetNeeded = e.ResetNeeded)) ∧
          (e.State ≠ s → e' = e) := by
  have hsl : sleepList o = l := by simp [sleepList, hl]
  have hany : l.any (fun e => e.State == s) = true := by
    obtain ⟨e, he, hes⟩ := hex
    exact List.any_eq_true.2 ⟨e, he, by simp [hes]⟩
  refine ⟨l.map (touchSleepStatus s start stop), ?_, List.length_map _ _, ?_⟩
  · rw [sleepStatusList_update, hsl, if_pos hany, List.append_nil]
  · intro i e hie
    refine ⟨touchSleepStatus s start stop e, ?_, touchSleepStatus_State s start stop e, ?_, ?_, ?_⟩
    · rw [List.getElem?_map, hie]; rfl
    · by_cases hes : e.State = s
      · rw [touchSleepStatus_of_eq s start stop e hes]
      · rw [touchSleepStatus_of_ne s start stop e hes]
    · intro hes
      rw [touchSleepStatus_of_eq s start stop e hes]
      refine ⟨rfl, rfl, ?_, ?_⟩
      · intro hs; simp [hs]
      · intro hs; simp [hs]
    · intro hes
      exact touchSleepStatus_of_ne s start stop e hes

/-- C4 (witness): the theorem at `sleepingOrder` and its TimedSleep entry. -/
theorem sleep_upsert_existing_witness :
    ∃ l', (sleepingOrder.UpdateSleepStateWithStartAndStopDate TimedSleep (some 1)
        (some 2)).SleepStatusList = some l' ∧ l'.length = 3 :=
  let ⟨l', h1, h2, _⟩ := sleep_upsert_existing sleepingOrder _ TimedSleep (some 1) (some 2) rfl
    ⟨_, List.mem_cons_of_mem _ (List.mem_cons_self _ _), rfl⟩
  ⟨l', h1, h2⟩

/-- C5: when the sleep schedule of an order, nil or not, holds no entry with state
`s`, UpdateSleepStateWithStartAndStopDate(s, start, stop) leaves the former
entries unchanged and in place, followed by exactly one new entry with state
`s`, the given start and stop dates, sleepResetCount 0 and resetNeeded true
when `s` is not TimedSleep, false when it is. -/
theorem sleep_upsert_absent (o : Order) (s : OrderSleepState) (start stop : Option Time)
    (habs : ∀ e ∈ sleepList o, e.State ≠ s) :
    (o.UpdateSleepStateWithStartAndStopDate s start stop).SleepStatusList =
      some (sleepList o ++
        [{ State := s, SleepStartDate := start, SleepStopDate := stop,
           ResetNeeded := (s != TimedSleep), SleepResetCount := 0 }]) := by
  have hany : ¬ ((sleepList o).any (fun e => e.State == s) = true) := by
    rw [Bool.not_eq_true]
    exact (any_state_eq_false_iff s (sleepList o)).2 habs
  rw [sleepStatusList_update, if_neg hany, map_touchSleepStatus_of_absent s start stop _ habs,
    newSleepStateStatus_eq]
  by_cases hs : s = TimedSleep <;> simp [hs]

/-- C5 (witness): the theorem at `sleepingOrder` and the absent state CallMD. -/
theorem sleep_upsert_absent_witness :
    (∀ e ∈ sleepList sleepingOrder, e.State ≠ CallMD) ∧
    (sleepingOrder.UpdateSleepStateWithStartAndStopDate CallMD (some 1) none).SleepStatusList =
      some (sleepList sleepingOrder ++
        [{ State := CallMD, SleepStartDate := some 1, SleepStopDate := none,
           ResetNeeded := (CallMD != TimedSleep), SleepResetCount := 0 }]) :=
  ⟨by decide, sleep_upsert_absent sleepingOrder CallMD (some 1) none (by decide)⟩

/-! ### Timed sleep -/

/-- C6 (as stated, refuted): on the fresh order, which has no TimedSleep entry, at
clock reading 1000 a call UpdateTimedSleepState(1000 + 2h) leaves as only entry a
TimedSleep entry whose sleepStopDate is 1000 + 2h, not 1000 + 24h. -/
theorem timedSleep_window_fails :
    (∀ e ∈ sleepList freshOrder, e.State ≠ TimedSleep) ∧
    sleepList (freshOrder.UpdateTimedSleepState 1000 (some (Time.Add 1000 (2 * Hour)))) =
      [{ State := TimedSleep, SleepStartDate := some 1000,
         SleepStopDate := some (Time.Add 1000 (2 * Hour)),
         ResetNeeded := false, SleepResetCount := 0 }] ∧
    (some (Time.Add 1000 (2 * Hour)) : Option Time) ≠ some (Time.Add 1000 (24 * Hour)) := by
  refine ⟨by decide, by decide, by decide⟩

/-- C6 (amended): for every order without a TimedSleep entry, every clock reading
`now` and every `wakeupAt`, UpdateTimedSleepState(wakeupAt) appends to the
schedule one TimedSleep entry whose sleepStartDate is `now`, whose sleepStopDate
is `wakeupAt` and whose resetNeeded is false; the stop date `now` + 24 hours is
what UpdateSleepStateWithStartDate(TimedSleep, start) stores, whatever `start`
is. -/
theorem timedSleep_stores_wakeupAt (o : Order) (now : Time) (wakeupAt : Option Time)
    (habs : ∀ e ∈ sleepList o, e.State ≠ TimedSleep) :
    (o.UpdateTimedSleepState now wakeupAt).SleepStatusList =
      some (sleepList o ++
        [{ State := TimedSleep, SleepStartDate := some now, SleepStopDate := wakeupAt,
           ResetNeeded := false, SleepResetCount := 0 }]) ∧
    ∀ start : Time,
      (Order.UpdateSleepStateWithStartDate now o TimedSleep start).SleepStatusList =
        some (sleepList o ++
          [{ State := TimedSleep, SleepStartDate := some start,
             SleepStopDate := some (now.Add (24 * Hour)),
             ResetNeeded := false, SleepResetCount := 0 }]) := by
  have hany : ¬ ((sleepList o).any (fun e => e.State == TimedSleep) = true) := by
    rw [Bool.not_eq_true]
    exact (any_state_eq_false_iff TimedSleep (sleepList o)).2 habs
  constructor
  · unfold Order.UpdateTimedSleepState
    rw [sleepStatusList_update, if_neg hany,
      map_touchSleepStatus_of_absent TimedSleep _ _ _ habs, newSleepStateStatus_eq]
    simp
  · intro start
    unfold Order.UpdateSleepStateWithStartDate
    simp only [beq_self_eq_true, if_true]
    rw [sleepStatusList_update, if_neg hany,
      map_touchSleepStatus_of_absent TimedSleep _ _ _ habs, newSleepStateStatus_eq]
    simp

/-- C6 (witness): the amended theorem at the fresh order. -/
theorem timedSleep_stores_wakeupAt_witness :
    (∀ e ∈ sleepList freshOrder, e.State ≠ TimedSleep) ∧
    (freshOrder.UpdateTimedSleepState 1000 (some 5000)).SleepStatusList =
      some (sleepList freshOrder ++
        [{ State := TimedSleep, SleepStartDate := some 1000, SleepStopDate := some 5000,
           ResetNeeded := false, SleepResetCount := 0 }]) :=
  ⟨by decide, (timedSleep_stores_wakeupAt freshOrder 1000 (some 5000) (by decide)).1⟩

theorem timedWindow_update (o : Order) (s : OrderSleepState) (a b : Option Time)
    (hw : TimedWindow o)
    (hab : s = TimedSleep → ∃ t : Time, a = some t ∧ b = some (t.Add (24 * Hour))) :
    TimedWindow (o.UpdateSleepStateWithStartAndStopDate s a b) := by
  intro e he het
  rw [sleepList_update, List.mem_append] at he
  rcases he with he | he
  · obtain ⟨x, hx, hxe⟩ := List.mem_map.1 he
    by_cases hxs : x.State = s
    · have hs : s = TimedSleep := by
        rw [← hxs, ← touchSleepStatus_State s a b x, hxe]; exact het
      obtain ⟨t, ha, hb⟩ := hab hs
      refine ⟨t, ?_, ?_⟩
      · rw [← hxe, touchSleepStatus_of_eq s a b x hxs]; exact ha
      · rw [← hxe, touchSleepStatus_of_eq s a b x hxs]; exact hb
    · rw [touchSleepStatus_of_ne s a b x hxs] at hxe
      subst hxe
      exact hw x hx het
  · by_cases hf : (sleepList o).any (fun e => e.State == s) = true
    · rw [if_pos hf] at he
      exact absurd he (List.not_mem_nil e)
    · rw [if_neg hf, List.mem_singleton] at he
      subst he
      rw [newSleepStateStatus_eq] at het ⊢
      obtain ⟨t, ha, hb⟩ := hab het
      exact ⟨t, ha, hb⟩

theorem sleepList_remove (o : Order) (s : OrderSleepState) :
    sleepList (o.RemoveSleepStatus s) =
      (sleepList o).filter (fun e => e.State != s) := by
  unfold sleepList Order.RemoveSleepStatus
  cases hl : o.SleepStatusList <;> simp [hl]

theorem timedWindow_remove (o : Order) (s : OrderSleepState) (hw : TimedWindow o) :
    TimedWindow (o.RemoveSleepStatus s) := by
  intro e he het
  rw [sleepList_remove] at he
  exact hw e (List.mem_filter.1 he).1 het

theorem timedWindow_apply (o : Order) (op : SleepOp) (hw : TimedWindow o)
    (hop : op.GivesWindow) : TimedWindow (op.apply o) := by
  cases op with
  | updateSleepState now later s =>
    refine timedWindow_update o s _ _ hw ?_
    intro hs
    have hl : later = now := hop hs
    exact ⟨now, rfl, by simp [hs, hl]⟩
  | updateSleepStateWithStartDate now s start =>
    refine timedWindow_update o s _ _ hw ?_
    intro hs
    have hl : start = now := hop hs
    exact ⟨start, rfl, by simp [hs, hl]⟩
  | updateTimedSleepState now wakeupAt =>
    refine timedWindow_update o TimedSleep _ _ hw ?_
    intro _
    exact ⟨now, rfl, hop⟩
  | updateSleepStateWithStartAndStopDate s start stop =>
    exact timedWindow_update o s start stop hw hop
  | removeSleepStatus s =>
    exact timedWindow_remove o s hw

theorem timedWindow_runSleepOps (ops : List SleepOp) (o : Order) (hw : TimedWindow o)
    (hops : ∀ op ∈ ops, op.GivesWindow) : TimedWindow (runSleepOps o ops) := by
  induction ops generalizing o with
  | nil => exact hw
  | cons op ops ih =>
    unfold runSleepOps
    rw [List.foldl_cons]
    exact ih (op.apply o)
      (timedWindow_apply o op hw (hops op (List.mem_cons_self op ops)))
      (fun op' h' => hops op' (List.mem_cons_of_mem op h'))

/-- C7 (as stated, refuted): from the fresh order one call
UpdateTimedSleepState(1000 + 2h) at clock reading 1000, and likewise one call
UpdateSleepStateWithStartDate(TimedSleep, 400) at clock reading 1000, reaches an
order whose TimedSleep entry does not stop 24 hours after its start. -/
theorem timedSleep_invariant_fails :
    ¬ TimedWindow
        (runSleepOps freshOrder [.updateTimedSleepState 1000 (some (Time.Add 1000 (2 * Hour)))]) ∧
    ¬ TimedWindow
        (runSleepOps freshOrder [.updateSleepStateWithStartDate 1000 TimedSleep 400]) := by
  constructor
  · intro h
    obtain ⟨t, h1, h2⟩ := h
      { State := TimedSleep, SleepStartDate := some 1000,
        SleepStopDate := some (Time.Add 1000 (2 * Hour)) } (by decide) rfl
    simp only [Option.some.injEq] at h1 h2
    subst h1
    revert h2
    decide
  · intro h
    obtain ⟨t, h1, h2⟩ := h
      { State := TimedSleep, SleepStartDate := some 400,
        SleepStopDate := some (Time.Add 1000 (24 * Hour)) } (by decide) rfl
    simp only [Option.some.injEq] at h1 h2
    subst h1
    revert h2
    decide

/-- C7 (amended): for every order reached from InitializeOrder by a sequence of
sleep operations in which every call that writes a TimedSleep entry hands it a
stop date 24 hours after its start date (UpdateTimedSleepState with wakeupAt =
now + 24h, UpdateSleepStateWithStartDate(TimedSleep, start) with start equal to
the clock reading, UpdateSleepState(TimedSleep) with its two clock readings
equal, UpdateSleepStateWithStartAndStopDate(TimedSleep, t, t + 24h)), every
TimedSleep entry has a sleepStopDate exactly 24 hours after its
sleepStartDate. -/
theorem timedSleep_invariant_of_window_calls (id : ObjectId) (now : Time)
    (orderNumber originType : String) (ops : List SleepOp)
    (hops : ∀ op ∈ ops, op.GivesWindow) :
    TimedWindow (runSleepOps (InitializeOrder id now orderNumber originType) ops) := by
  apply timedWindow_runSleepOps ops _ _ hops
  intro e he
  simp [sleepList, initializeOrder_sleepStatusList] at he

/-- C7 (witness): the amended theorem on a sequence that writes a TimedSleep entry
three ways and removes a CallPatient entry. -/
theorem timedSleep_invariant_of_window_calls_witness :
    TimedWindow (runSleepOps (InitializeOrder "5f1e" 1000 "1234-5678-9012" "NewRx")
      [.updateSleepState 2000 2000 TimedSleep,
       .updateSleepState 2500 2600 CallPatient,
       .updateTimedSleepState 3000 (some (Time.Add 3000 (24 * Hour))),
       .removeSleepStatus CallPatient,
       .updateSleepStateWithStartDate 4000 TimedSleep 4000]) :=
  timedSleep_invariant_of_window_calls "5f1e" 1000 "1234-5678-9012" "NewRx" _ (by
    intro op hop
    simp only [List.mem_cons, List.mem_singleton, List.not_mem_nil, or_false] at hop
    rcases hop with h | h | h | h | h <;> subst h
    · intro _; rfl
    · intro h; exact absurd h (by decide)
    · rfl
    · trivial
    · intro _; rfl)

/-! ### Removal and lookup -/

theorem getSleepStatus_eq_find (o : Order) (s : OrderSleepState) :
    o.GetSleepStatus s = (sleepList o).find? (fun e => e.State == s) := by
  unfold Order.GetSleepStatus sleepList
  cases hl : o.SleepStatusList <;> simp

theorem find_state_filter_ne (l : List OrderSleepStatus) (s s' : OrderSleepState)
    (h : s' ≠ s) :
    (l.filter (fun e => e.State != s)).find? (fun e => e.State == s')
      = l.find? (fun e => e.State == s') := by
  induction l with
  | nil => rfl
  | cons e l ih =>
    by_cases hes : e.State = s
    · subst hes
      simp [List.filter_cons, List.find?_cons, Ne.symm h, ih]
    · by_cases hes' : e.State = s'
      · subst hes'
        simp [List.filter_cons, List.find?_cons, h]
      · simp [List.filter_cons, List.find?_cons, hes, hes', ih]

/-- C8: after RemoveSleepStatus(s) the schedule consists of exactly the former
entries whose state differs from `s`, in their former order; GetSleepStatus(s)
returns none and GetSleepStatus(s') is what it was for every other state; when
no entry had state `s` the entries are unchanged, and a nil list stays nil. -/
theorem removeSleepStatus_filter (o : Order) (s : OrderSleepState) :
    sleepList (o.RemoveSleepStatus s) = (sleepList o).filter (fun e => e.State != s) ∧
    (o.RemoveSleepStatus s).GetSleepStatus s = none ∧
    (∀ s' : OrderSleepState, s' ≠ s →
      (o.RemoveSleepStatus s).GetSleepStatus s' = o.GetSleepStatus s') ∧
    ((∀ e ∈ sleepList o, e.State ≠ s) → sleepList (o.RemoveSleepStatus s) = sleepList o) ∧
    (o.SleepStatusList = none → (o.RemoveSleepStatus s).SleepStatusList = none) := by
  refine ⟨sleepList_remove o s, ?_, ?_, ?_, ?_⟩
  · rw [getSleepStatus_eq_find, sleepList_remove, List.find?_eq_none]
    intro e he
    have := (List.mem_filter.1 he).2
    simpa using this
  · intro s' hs'
    rw [getSleepStatus_eq_find, getSleepStatus_eq_find, sleepList_remove,
      find_state_filter_ne _ s s' hs']
  · intro habs
    rw [sleepList_remove, List.filter_eq_self]
    intro e he
    simpa using habs e he
  · intro hnil
    simp [Order.RemoveSleepStatus, hnil]

/-- C8 (witness): removing the absent state CallMD from `sleepingOrder` leaves its
entries as they were, and the lookup of CheckFax is unchanged by removing
CallPatient. -/
theorem removeSleepStatus_filter_witness :
    sleepList (sleepingOrder.RemoveSleepStatus CallMD) = sleepList sleepingOrder ∧
    (sleepingOrder.RemoveSleepStatus CallPatient).GetSleepStatus CheckFax
      = sleepingOrder.GetSleepStatus CheckFax :=
  ⟨(removeSleepStatus_filter sleepingOrder CallMD).2.2.2.1 (by decide),
    (removeSleepStatus_filter sleepingOrder CallPatient).2.2.1 CheckFax (by decide)⟩

/-! ### Pending action -/

theorem sleepList_pendingActionTaken (now : Time) (o : Order) :
    sleepList (o.PendingActionTaken now) =
      (sleepList o).filter (fun e => e.State != CallPatient) := by
  rw [pendingActionTaken_eq]
  unfold sleepList
  cases h3 : o.SleepStatusList <;> simp [h3]

/-- C9: after PendingActionTaken() at clock reading `now`, a Transfer milestone
and a NewRx milestone that were present are present with status
PENDING_ACTION_TAKEN and lastProcessedDate `now` (an absent one stays absent),
MissingInfoState is nil, no sleep entry with state CallPatient remains, the
sleep entries with another state are the former ones in their former order,
and the Insurance, Payment, StockCheck, Delivery and RefillAuth milestones are
unchanged. -/
theorem pendingActionTaken_post (now : Time) (o : Order) :
    (∀ tm, o.TransferMilestone = some tm →
      ∃ tm', (o.PendingActionTaken now).TransferMilestone = some tm' ∧
        tm'.Status = MSPendingActionTaken ∧ tm'.LastProcessedDate = some now) ∧
    (∀ nm, o.NewRxMilestone = some nm →
      ∃ nm', (o.PendingActionTaken now).NewRxMilestone = some nm' ∧
        nm'.Status = MSPendingActionTaken ∧ nm'.LastProcessedDate = some now) ∧
    (o.TransferMilestone = none → (o.PendingActionTaken now).TransferMilestone = none) ∧
    (o.NewRxMilestone = none → (o.PendingActionTaken now).NewRxMilestone = none) ∧
    (o.PendingActionTaken now).MissingInfoState = none ∧
    (∀ e ∈ sleepList (o.PendingActionTaken now), e.State ≠ CallPatient) ∧
    sleepList (o.PendingActionTaken now) =
      (sleepList o).filter (fun e => e.State != CallPatient) ∧
    (o.PendingActionTaken now).InsuranceMilestone = o.InsuranceMilestone ∧
    (o.PendingActionTaken now).PaymentMilestone = o.PaymentMilestone ∧
    (o.PendingActionTaken now).StockCheckMilestone = o.StockCheckMilestone ∧
    (o.PendingActionTaken now).DeliveryMilestone = o.DeliveryMilestone ∧
    (o.PendingActionTaken now).RefillMilestone = o.RefillMilestone := by
  refine ⟨?_, ?_, ?_, ?_, ?_, ?_, sleepList_pendingActionTaken now o, ?_, ?_, ?_, ?_, ?_⟩
  · intro tm h
    rw [pendingActionTaken_eq]
    exact ⟨_, by simp only [h, Option.map_some']; rfl, rfl, rfl⟩
  · intro nm h
    rw [pendingActionTaken_eq]
    exact ⟨_, by simp only [h, Option.map_some']; rfl, rfl, rfl⟩
  · intro h
    rw [pendingActionTaken_eq]
    simp [h]
  · intro h
    rw [pendingActionTaken_eq]
    simp [h]
  · rw [pendingActionTaken_eq]
  · intro e he
    rw [sleepList_pendingActionTaken] at he
    simpa using (List.mem_filter.1 he).2
  all_goals rw [pendingActionTaken_eq]

/-- C9 (witness): on `sleepingOrder`, whose transfer milestone is present, the
milestone ends at PENDING_ACTION_TAKEN stamped with the clock reading. -/
theorem pendingActionTaken_post_witness :
    ∃ tm', (sleepingOrder.PendingActionTaken 1000).TransferMilestone = some tm' ∧
      tm'.Status = MSPendingActionTaken ∧ tm'.LastProcessedDate = some 1000 :=
  (pendingActionTaken_post 1000 sleepingOrder).1 _ rfl

/-- What `SavePendingPriorStatus` leaves, field by field. -/
theorem savePendingPriorStatus_eq (o : Order) :
    o.SavePendingPriorStatus =
      { o with
        TransferMilestone := o.TransferMilestone.map fun tm =>
          if tm.Status = MSPendingActionTaken then tm
          else { tm with PendingPriorStatus := tm.Status }
        NewRxMilestone := o.NewRxMilestone.map fun nm =>
          if nm.Status = MSPendingActionTaken then nm
          else { nm with PendingPriorStatus := nm.Status } } := by
  unfold Order.SavePendingPriorStatus
  cases h1 : o.TransferMilestone with
  | none =>
    cases h2 : o.NewRxMilestone with
    | none => simp [h1, h2]; cases o; simp_all
    | some nm =>
      by_cases hn : nm.Status = MSPendingActionTaken <;> simp [h1, h2, hn]
      cases o; simp_all
  | some tm =>
    cases h2 : o.NewRxMilestone with
    | none =>
      by_cases ht : tm.Status = MSPendingActionTaken <;> simp [h1, h2, ht]
      cases o; simp_all
    | some nm =>
      by_cases ht : tm.Status = MSPendingActionTaken <;>
        by_cases hn : nm.Status = MSPendingActionTaken <;> simp [h1, h2, ht, hn]
      cases o; simp_all

/-- C10 (as stated, refuted): the transfer region of `pendingOrder` is at
PENDING_ACTION_TAKEN before the first call, and after SavePendingPriorStatus();
PendingActionTaken(); SavePendingPriorStatus() its pendingPriorStatus is
CALL_COMPLETED, not the status it had before the first call. -/
theorem pendingPriorStatus_roundtrip_fails :
    pendingOrder.TransferStatus = MSPendingActionTaken ∧
    ((pendingOrder.SavePendingPriorStatus.PendingActionTaken 1000).SavePendingPriorStatus
        |>.TransferMilestone.map fun tm => tm.PendingPriorStatus) = some MSCallCompleted ∧
    MSCallCompleted ≠ MSPendingActionTaken := by
  refine ⟨by decide, by decide, by decide⟩

/-- C10 (amended): SavePendingPriorStatus() never changes the status of a present
Transfer or NewRx milestone, and sets its pendingPriorStatus to the status when
the status is not PENDING_ACTION_TAKEN, leaving it as it was otherwise.
Consequently after SavePendingPriorStatus(); PendingActionTaken();
SavePendingPriorStatus() the pendingPriorStatus equals the status the region
had before the first call when that status was not PENDING_ACTION_TAKEN, and
equals the pendingPriorStatus it had before the first call when it was. -/
theorem savePendingPriorStatus_snapshot (now : Time) (o : Order) :
    (∀ tm, o.TransferMilestone = some tm →
      ∃ tm', o.SavePendingPriorStatus.TransferMilestone = some tm' ∧
        tm'.Status = tm.Status ∧
        tm'.PendingPriorStatus =
          if tm.Status = MSPendingActionTaken then tm.PendingPriorStatus else tm.Status) ∧
    (∀ nm, o.NewRxMilestone = some nm →
      ∃ nm', o.SavePendingPriorStatus.NewRxMilestone = some nm' ∧
        nm'.Status = nm.Status ∧
        nm'.PendingPriorStatus =
          if nm.Status = MSPendingActionTaken then nm.PendingPriorStatus else nm.Status) ∧
    (∀ tm, o.TransferMilestone = some tm →
      ∃ tm', ((o.SavePendingPriorStatus.PendingActionTaken now).SavePendingPriorStatus
          |>.TransferMilestone) = some tm' ∧
        tm'.PendingPriorStatus =
          if tm.Status = MSPendingActionTaken then tm.PendingPriorStatus else tm.Status) ∧
    (∀ nm, o.NewRxMilestone = some nm →
      ∃ nm', ((o.SavePendingPriorStatus.PendingActionTaken now).SavePendingPriorStatus
          |>.NewRxMilestone) = some nm' ∧
        nm'.PendingPriorStatus =
          if nm.Status = MSPendingActionTaken then nm.PendingPriorStatus else nm.Status) := by
  refine ⟨?_, ?_, ?_, ?_⟩
  · intro tm h
    rw [savePendingPriorStatus_eq]
    by_cases ht : tm.Status = MSPendingActionTaken <;> simp [h, ht]
  · intro nm h
    rw [savePendingPriorStatus_eq]
    by_cases hn : nm.Status = MSPendingActionTaken <;> simp [h, hn]
  · intro tm h
    rw [savePendingPriorStatus_eq, pendingActionTaken_eq, savePendingPriorStatus_eq]
    by_cases ht : tm.Status = MSPendingActionTaken <;> simp [h, ht]
  · intro nm h
    rw [savePendingPriorStatus_eq, pendingActionTaken_eq, savePendingPriorStatus_eq]
    by_cases hn : nm.Status = MSPendingActionTaken <;> simp [h, hn]

/-- C10 (witness): on `sleepingOrder`, whose transfer region is at
TRANSFER_INITIATED, the saved status survives SavePendingPriorStatus();
PendingActionTaken(); SavePendingPriorStatus(). -/
theorem savePendingPriorStatus_snapshot_witness :
    ∃ tm', ((sleepingOrder.SavePendingPriorStatus.PendingActionTaken 1000).SavePendingPriorStatus
        |>.TransferMilestone) = some tm' ∧
      tm'.PendingPriorStatus = MSTransferInitiated :=
  let ⟨tm', h1, h2⟩ := (savePendingPriorStatus_snapshot 1000 sleepingOrder).2.2.1 _ rfl
  ⟨tm', h1, h2.trans (by decide)⟩

/-! ### Scrub and route, overlay, insurance override -/

/-- What `MoveToScrubAndRoute` leaves, field by field. -/
theorem moveToScrubAndRoute_eq (now : Time) (o : Order) :
    o.MoveToScrubAndRoute now =
      { o with
        TransferMilestone := o.TransferMilestone.map fun tm =>
          if tm.Status = MSNotInitiated then
            { tm with Status := MSCallCompleted, LastProcessedDate := some now }
          else tm
        NewRxMilestone := o.NewRxMilestone.map fun nm =>
          if nm.Status = MSNotInitiated then
            { nm with Status := MSCallCompleted, LastProcessedDate := some now }
          else nm } := by
  unfold Order.MoveToScrubAndRoute Order.NewPrescriptionStatus Order.TransferStatus
  cases h1 : o.TransferMilestone with
  | none =>
    cases h2 : o.NewRxMilestone with
    | none => simp [h1, h2]; cases o; simp_all
    | some nm =>
      by_cases hn : nm.Status = MSNotInitiated <;> simp [h1, h2, hn]
      cases o; simp_all
  | some tm =>
    cases h2 : o.NewRxMilestone with
    | none =>
      by_cases ht : tm.Status = MSNotInitiated <;> simp [h1, h2, ht]
      cases o; simp_all
    | some nm =>
      by_cases ht : tm.Status = MSNotInitiated <;>
        by_cases hn : nm.Status = MSNotInitiated <;> simp [h1, h2, ht, hn]
      cases o; simp_all

/-- C11: MoveToScrubAndRoute() at clock reading `now` replaces a present Transfer
milestone, and likewise a present NewRx milestone, by the same milestone with
status CALL_COMPLETED and lastProcessedDate `now` when its status is
NOT_INITIATED and leaves it as it is otherwise; every other field of the order
is unchanged; and applying it again, at the same or any other clock reading,
changes nothing. -/
theorem moveToScrubAndRoute_advances_once (now later : Time) (o : Order) :
    o.MoveToScrubAndRoute now =
      { o with
        TransferMilestone := o.TransferMilestone.map fun tm =>
          if tm.Status = MSNotInitiated then
            { tm with Status := MSCallCompleted, LastProcessedDate := some now }
          else tm
        NewRxMilestone := o.NewRxMilestone.map fun nm =>
          if nm.Status = MSNotInitiated then
            { nm with Status := MSCallCompleted, LastProcessedDate := some now }
          else nm } ∧
    (o.MoveToScrubAndRoute now).MoveToScrubAndRoute later = o.MoveToScrubAndRoute now := by
  refine ⟨moveToScrubAndRoute_eq now o, ?_⟩
  rw [moveToScrubAndRoute_eq later, moveToScrubAndRoute_eq now]
  have hne : ¬ (MSCallCompleted = MSNotInitiated) := by decide
  cases h1 : o.TransferMilestone with
  | none =>
    cases h2 : o.NewRxMilestone with
    | none => simp
    | some nm => by_cases hn : nm.Status = MSNotInitiated <;> simp [hn, hne]
  | some tm =>
    cases h2 : o.NewRxMilestone with
    | none => by_cases ht : tm.Status = MSNotInitiated <;> simp [ht, hne]
    | some nm =>
      by_cases ht : tm.Status = MSNotInitiated <;>
        by_cases hn : nm.Status = MSNotInitiated <;> simp [ht, hn, hne]

/-- C12: after SetMissingInfoState(status) the order is the former order with its
MissingInfoState replaced, whatever it was, by an overlay whose missingStatus
is `status`, whose missingFields is the nil slice, whose comment is empty and
whose insuranceExceptionType and refillDeniedType are nil; the seven milestones
and the sleep schedule are those of the former order. -/
theorem setMissingInfoState_replaces (o : Order) (status : MissingStatus) :
    (o.SetMissingInfoState status).MissingInfoState =
      some { MissingFields := none, MissingStatus := some status, Comment := "",
             InsuranceExceptionType := none, RefillDeniedType := none } ∧
    (∀ mis : Option MissingInfoState,
      ({ o with MissingInfoState := mis } : Order).SetMissingInfoState status
        = o.SetMissingInfoState status) ∧
    (o.SetMissingInfoState status).TransferMilestone = o.TransferMilestone ∧
    (o.SetMissingInfoState status).NewRxMilestone = o.NewRxMilestone ∧
    (o.SetMissingInfoState status).InsuranceMilestone = o.InsuranceMilestone ∧
    (o.SetMissingInfoState status).PaymentMilestone = o.PaymentMilestone ∧
    (o.SetMissingInfoState status).StockCheckMilestone = o.StockCheckMilestone ∧
    (o.SetMissingInfoState status).DeliveryMilestone = o.DeliveryMilestone ∧
    (o.SetMissingInfoState status).RefillMilestone = o.RefillMilestone ∧
    (o.SetMissingInfoState status).SleepStatusList = o.SleepStatusList :=
  ⟨rfl, fun _ => rfl, rfl, rfl, rfl, rfl, rfl, rfl, rfl, rfl⟩

/-- C13: on an order with an Insurance milestone `im`, InsuranceOverride() leaves
the order with that milestone replaced by `im` with status INSURANCE_OVERRIDE
and sendToPP false, every other field of the milestone and of the order being
unchanged; on an order without an Insurance milestone it leaves the order
unchanged. -/
theorem insuranceOverride_frame (o : Order) :
    (∀ im, o.InsuranceMilestone = some im →
      o.InsuranceOverride =
        { o with
          InsuranceMilestone :=
            some { im with Status := MSInsuranceOverride, SendToPP := false } }) ∧
    (o.InsuranceMilestone = none → o.InsuranceOverride = o) := by
  constructor
  · intro im h
    simp [Order.InsuranceOverride, h]
  · intro h
    simp [Order.InsuranceOverride, h]

/-- C13 (witness): the theorem at `suspendedOrder`, whose Insurance milestone is at
PRIOR_AUTH, and at `sleepingOrder`, which has none. -/
theorem insuranceOverride_frame_witness :
    suspendedOrder.InsuranceOverride =
      { suspendedOrder with
        InsuranceMilestone := some { Status := MSInsuranceOverride, SendToPP := false } } ∧
    sleepingOrder.InsuranceOverride = sleepingOrder :=
  ⟨(insuranceOverride_frame suspendedOrder).1 _ rfl,
    (insuranceOverride_frame sleepingOrder).2 rfl⟩

/-! ### Derived predicates -/

/-- C14: IsProcessingInsurance() is false on every order whose paymentOption is
PayDirectly and IsProcessingCash() is false on every order whose paymentOption
is PayThroughInsurance, whatever the insurance and payment statuses are; on no
order are the two predicates true together. -/
theorem payment_path_exclusive (o : Order) :
    (o.PaymentOption = "PayDirectly" → o.IsProcessingInsurance = false) ∧
    (o.PaymentOption = "PayThroughInsurance" → o.IsProcessingCash = false) ∧
    ¬ (o.IsProcessingInsurance = true ∧ o.IsProcessingCash = true) := by
  refine ⟨?_, ?_, ?_⟩
  · intro h
    simp [Order.IsProcessingInsurance, Order.IsPayOutOfPocket, h]
  · intro h
    simp [Order.IsProcessingCash, Order.IsPayOutOfPocket, h]
  · rintro ⟨h1, h2⟩
    by_cases h : o.PaymentOption = "PayDirectly"
    · simp [Order.IsProcessingInsurance, Order.IsPayOutOfPocket, h] at h1
    · simp [Order.IsProcessingCash, Order.IsPayOutOfPocket, h] at h2

/-- C14 (witness): the theorem at `suspendedCashOrder`, which pays directly, and at
`suspendedOrder`, which pays through insurance. -/
theorem payment_path_exclusive_witness :
    suspendedCashOrder.IsProcessingInsurance = false ∧
    suspendedOrder.IsProcessingCash = false :=
  ⟨(payment_path_exclusive suspendedCashOrder).1 rfl,
    (payment_path_exclusive suspendedOrder).2.1 rfl⟩

theorem initializeOrder_transferMilestone (id : ObjectId) (now : Time)
    (orderNumber originType : String) :
    (InitializeOrder id now orderNumber originType).TransferMilestone =
      if originType = "Transfer" then some { Status := MSCallCompleted, DaysOfSupply := 30 }
      else none := by
  by_cases h : originType = "Transfer"
  · subst h; rfl
  · have hb : (originType == "Transfer") = false := by simpa using h
    unfold InitializeOrder
    simp only [hb, if_neg h]
    rfl

theorem initializeOrder_newRxMilestone (id : ObjectId) (now : Time)
    (orderNumber originType : String) :
    (InitializeOrder id now orderNumber originType).NewRxMilestone =
      if originType = "Transfer" then none
      else some { Status := MSCallCompleted, MedicationQuantity := 30 } := by
  by_cases h : originType = "Transfer"
  · subst h; rfl
  · have hb : (originType == "Transfer") = false := by simpa using h
    unfold InitializeOrder
    simp only [hb, if_neg h]
    rfl

/-- C15: the order returned by InitializeOrder carries the given orderNumber; its
TransferMilestone is present exactly when originType is "Transfer" and its
NewRxMilestone exactly when it is not; its Insurance, Payment, StockCheck and
Delivery milestones are present with status NOT_INITIATED; it has no RefillAuth
milestone, no MissingInfoState and a nil sleep schedule. -/
theorem initializeOrder_seeds (id : ObjectId) (now : Time) (orderNumber originType : String) :
    (InitializeOrder id now orderNumber originType).OrderNumber = orderNumber ∧
    ((InitializeOrder id now orderNumber originType).TransferMilestone.isSome = true
      ↔ originType = "Transfer") ∧
    ((InitializeOrder id now orderNumber originType).NewRxMilestone.isSome = true
      ↔ originType ≠ "Transfer") ∧
    ((InitializeOrder id now orderNumber originType).InsuranceMilestone.map fun m => m.Status)
      = some MSNotInitiated ∧
    ((InitializeOrder id now orderNumber originType).PaymentMilestone.map fun m => m.Status)
      = some MSNotInitiated ∧
    ((InitializeOrder id now orderNumber originType).StockCheckMilestone.map fun m => m.Status)
      = some MSNotInitiated ∧
    ((InitializeOrder id now orderNumber originType).DeliveryMilestone.map fun m => m.Status)
      = some MSNotInitiated ∧
    (InitializeOrder id now orderNumber originType).RefillMilestone = none ∧
    (InitializeOrder id now orderNumber originType).MissingInfoState = none ∧
    (InitializeOrder id now orderNumber originType).SleepStatusList = none ∧
    sleepList (InitializeOrder id now orderNumber originType) = [] := by
  refine ⟨?_, ?_, ?_, ?_⟩
  · unfold InitializeOrder
    by_cases h : (originType == "Transfer") = true <;> simp only [h] <;> rfl
  · rw [initializeOrder_transferMilestone]
    by_cases h : originType = "Transfer" <;> simp [h]
  · rw [initializeOrder_newRxMilestone]
    by_cases h : originType = "Transfer" <;> simp [h]
  · unfold sleepList InitializeOrder
    by_cases h : (originType == "Transfer") = true <;> simp only [h] <;>
      exact ⟨rfl, rfl, rfl, rfl, rfl, rfl, rfl, rfl⟩

/-- C16: IsProcessingTransfer() is true exactly when the Transfer milestone is
present with a status that is not empty and not COMPLETED and IsTransferBack()
is false; so it is false on every order in transfer-back and on every order
without a Transfer milestone. -/
theorem isProcessingTransfer_iff (o : Order) :
    (o.IsProcessingTransfer = true ↔
      ∃ tm, o.TransferMilestone = some tm ∧ tm.Status ≠ "" ∧ tm.Status ≠ MSCompleted ∧
        o.IsTransferBack = false) ∧
    (o.IsTransferBack = true → o.IsProcessingTransfer = false) ∧
    (o.TransferMilestone = none → o.IsProcessingTransfer = false) := by
  refine ⟨?_, ?_, ?_⟩
  · cases h : o.TransferMilestone with
    | none => simp [Order.IsProcessingTransfer, Order.TransferStatus, h]
    | some tm => simp [Order.IsProcessingTransfer, Order.TransferStatus, h, and_assoc]
  · intro h
    simp [Order.IsProcessingTransfer, h]
  · intro h
    simp [Order.IsProcessingTransfer, Order.TransferStatus, h]

/-- C16 (witness): an order at TRANSFER_BACK is not processing its transfer, nor is
`pendingOrder` with its Transfer milestone taken away. -/
theorem isProcessingTransfer_iff_witness :
    ({ TransferMilestone := some { Status := MSTransferBack } } : Order).IsProcessingTransfer
      = false ∧
    ({ pendingOrder with TransferMilestone := none } : Order).IsProcessingTransfer = false :=
  ⟨(isProcessingTransfer_iff _).2.1 (by decide), (isProcessingTransfer_iff _).2.2 rfl⟩

/-- C17: IsProcessingRefillAuth() is true exactly when the RefillAuth status is not
empty, not COMPLETED and not NOT_INITIATED; IsProcessingNewPrescription() and
IsProcessingStockCheck() are true exactly when their status is not empty and
not COMPLETED, hence true at NOT_INITIATED where IsProcessingRefillAuth() is
false; IsProcessingDelivery() is true exactly when the delivery status is not
empty and not SHIPPED. -/
theorem isProcessing_notInitiated_asymmetry (o : Order) :
    (o.IsProcessingRefillAuth = true ↔
      o.RefillAuthStatus ≠ "" ∧ o.RefillAuthStatus ≠ MSCompleted ∧
        o.RefillAuthStatus ≠ MSNotInitiated) ∧
    (o.IsProcessingNewPrescription = true ↔
      o.NewPrescriptionStatus ≠ "" ∧ o.NewPrescriptionStatus ≠ MSCompleted) ∧
    (o.IsProcessingStockCheck = true ↔
      o.StockCheckStatus ≠ "" ∧ o.StockCheckStatus ≠ MSCompleted) ∧
    (o.IsProcessingDelivery = true ↔
      o.DeliveryStatus ≠ "" ∧ o.DeliveryStatus ≠ MSShipped) ∧
    (o.RefillAuthStatus = MSNotInitiated → o.IsProcessingRefillAuth = false) ∧
    (o.NewPrescriptionStatus = MSNotInitiated → o.IsProcessingNewPrescription = true) ∧
    (o.StockCheckStatus = MSNotInitiated → o.IsProcessingStockCheck = true) := by
  refine ⟨?_, ?_, ?_, ?_, ?_, ?_, ?_⟩
  · simp [Order.IsProcessingRefillAuth, and_assoc]
  · simp [Order.IsProcessingNewPrescription]
  · simp [Order.IsProcessingStockCheck]
  · simp [Order.IsProcessingDelivery]
  · intro h
    simp [Order.IsProcessingRefillAuth, h]
  · intro h
    rw [Order.IsProcessingNewPrescription, h]
    decide
  · intro h
    rw [Order.IsProcessingStockCheck, h]
    decide

/-- C17 (witness): with every region at NOT_INITIATED the refill authorisation is
not processing while the new prescription and the stock check are. -/
theorem isProcessing_notInitiated_asymmetry_witness :
    ({ RefillMilestone := some { Status := MSNotInitiated } } : Order).IsProcessingRefillAuth
      = false ∧
    ({ NewRxMilestone := some { Status := MSNotInitiated } } : Order).IsProcessingNewPrescription
      = true ∧
    ({ StockCheckMilestone := some { Status := MSNotInitiated } } : Order).IsProcessingStockCheck
      = true :=
  ⟨(isProcessing_notInitiated_asymmetry _).2.2.2.2.1 rfl,
    (isProcessing_notInitiated_asymmetry _).2.2.2.2.2.1 rfl,
    (isProcessing_notInitiated_asymmetry _).2.2.2.2.2.2 rfl⟩

/-! ### Order numbers -/

theorem digits_isDigit : ∀ c ∈ digits.toList, c.isDigit = true := by decide

theorem fillOrderNumber_length (src : RandSource) (remaining i calls : Nat) :
    (fillOrderNumber src remaining i calls).1.length = remaining := by
  induction remaining generalizing i calls with
  | zero => rfl
  | succ r ih =>
    unfold fillOrderNumber
    by_cases h : (i == 4 || i == 9) = true
    · rw [if_pos h]; simp [ih]
    · rw [if_neg h]; simp [ih]

theorem fillOrderNumber_shape (src : RandSource) (remaining i calls j : Nat) (c : Char)
    (hc : (fillOrderNumber src remaining i calls).1[j]? = some c) :
    if i + j = 4 ∨ i + j = 9 then c = '-' else c.isDigit = true := by
  induction remaining generalizing i calls j with
  | zero => simp [fillOrderNumber] at hc
  | succ r ih =>
    unfold fillOrderNumber at hc
    by_cases h : (i == 4 || i == 9) = true
    · rw [if_pos h] at hc
      cases j with
      | zero =>
        have h' : i = 4 ∨ i = 9 := by simpa using h
        simp only [List.getElem?_cons_zero, Option.some.injEq] at hc
        simp [h', hc.symm]
      | succ j =>
        simp only [List.getElem?_cons_succ] at hc
        have := ih (i + 1) calls j hc
        rwa [Nat.add_right_comm, Nat.add_assoc] at this
    · rw [if_neg h] at hc
      cases j with
      | zero =>
        have h' : ¬ (i = 4 ∨ i = 9) := by simpa using h
        simp only [List.getElem?_cons_zero, Option.some.injEq] at hc
        simp only [Nat.add_zero, h', if_false]
        rw [← hc]
        exact digits_isDigit _ (List.get_mem _ _ _)
      | succ j =>
        simp only [List.getElem?_cons_succ] at hc
        have := ih (i + 1) (calls + 1) j hc
        rwa [Nat.add_right_comm, Nat.add_assoc] at this

theorem isOrderNumber_generateOrderNumber (src : RandSource) (calls : Nat) :
    IsOrderNumber (generateOrderNumber src calls).1 := by
  refine ⟨?_, ?_⟩
  · show (fillOrderNumber src 14 0 calls).1.length = 14
    exact fillOrderNumber_length src 14 0 calls
  · intro i c hc
    have := fillOrderNumber_shape src 14 0 calls i c hc
    simpa using this

theorem generateOrderNumber_calls (src : RandSource) (calls : Nat) :
    (generateOrderNumber src calls).2 = calls + 12 := rfl

theorem generateOrderNumberLoop_none (session : DbSession) (src : RandSource)
    (fuel : Nat) (orderNumber : String) (calls : Nat) :
    GenerateOrderNumberLoop session src fuel orderNumber none calls
      = some (orderNumber, calls) := by
  cases fuel <;> rfl

theorem isOrderNumber_generateOrderNumberLoop (session : DbSession) (src : RandSource)
    (fuel : Nat) (orderNumber : String) (o : Option Order) (calls : Nat) (r : String × Nat)
    (hn : IsOrderNumber orderNumber)
    (hr : GenerateOrderNumberLoop session src fuel orderNumber o calls = some r) :
    IsOrderNumber r.1 := by
  induction fuel generalizing orderNumber o calls with
  | zero =>
    cases o with
    | none =>
      rw [generateOrderNumberLoop_none] at hr
      cases hr; exact hn
    | some _ => simp [GenerateOrderNumberLoop] at hr
  | succ fuel ih =>
    cases o with
    | none =>
      rw [generateOrderNumberLoop_none] at hr
      cases hr; exact hn
    | some _ =>
      unfold GenerateOrderNumberLoop at hr
      exact ih _ _ _ (isOrderNumber_generateOrderNumber src calls) hr

theorem orderNumberCandidate_shift (src : RandSource) (calls j : Nat) :
    orderNumberCandidate src (calls + 12) j = orderNumberCandidate src calls (j + 1) := by
  unfold orderNumberCandidate
  rw [Nat.mul_add, Nat.mul_one, Nat.add_assoc, Nat.add_comm 12]

/-- The loop returns the first candidate whose lookup finds no order, when the
fuel covers the candidates before it. -/
theorem generateOrderNumber_returns (session : DbSession) (src : RandSource)
    (k fuel calls : Nat) (hk : k ≤ fuel)
    (hbusy : ∀ j < k,
      (FindByOrderNumberInSession (orderNumberCandidate src calls j) session).1 ≠ none)
    (hfree : (FindByOrderNumberInSession (orderNumberCandidate src calls k) session).1 = none) :
    GenerateOrderNumber session src fuel calls =
      some (orderNumberCandidate src calls k, calls + 12 * (k + 1)) := by
  induction k generalizing fuel calls with
  | zero =>
    unfold GenerateOrderNumber
    have h0 : (generateOrderNumber src calls).1 = orderNumberCandidate src calls 0 := rfl
    simp only [h0, hfree, generateOrderNumberLoop_none, generateOrderNumber_calls]
  | succ k ih =>
    obtain ⟨fuel, rfl⟩ : ∃ f, fuel = f + 1 := ⟨fuel - 1, by omega⟩
    have h0 := hbusy 0 (Nat.succ_pos k)
    have hstep := ih fuel (calls + 12) (by omega)
      (fun j hj => by
        rw [orderNumberCandidate_shift]
        exact hbusy (j + 1) (by omega))
      (by rw [orderNumberCandidate_shift]; exact hfree)
    simp only [GenerateOrderNumber] at hstep ⊢
    have hc0 : (generateOrderNumber src calls).1 = orderNumberCandidate src calls 0 := rfl
    rw [hc0]
    obtain ⟨o, ho⟩ := Option.ne_none_iff_exists'.1 h0
    rw [ho]
    unfold GenerateOrderNumberLoop
    simp only [generateOrderNumber_calls] at hstep ⊢
    rw [hstep, orderNumberCandidate_shift]
    congr 2
    omega

/-- C18: whatever the random source draws and however many draws were made
before, generateOrderNumber returns a string of exactly 14 characters with a
hyphen at the 0-based positions 4 and 9 and a decimal digit at the other twelve;
so does every value GenerateOrderNumber returns, on any session; and
GenerateOrderNumber does return, namely the first candidate whose lookup
finds no order, once the rounds allowed cover the candidates before it. -/
theorem orderNumber_format :
    (∀ (src : RandSource) (calls : Nat), IsOrderNumber (generateOrderNumber src calls).1) ∧
    (∀ (session : DbSession) (src : RandSource) (fuel calls : Nat) (r : String × Nat),
      GenerateOrderNumber session src fuel calls = some r → IsOrderNumber r.1) ∧
    (∀ (session : DbSession) (src : RandSource) (k fuel calls : Nat), k ≤ fuel →
      (∀ j < k,
        (FindByOrderNumberInSession (orderNumberCandidate src calls j) session).1 ≠ none) →
      (FindByOrderNumberInSession (orderNumberCandidate src calls k) session).1 = none →
      GenerateOrderNumber session src fuel calls =
        some (orderNumberCandidate src calls k, calls + 12 * (k + 1))) := by
  refine ⟨isOrderNumber_generateOrderNumber, ?_, ?_⟩
  · intro session src fuel calls r hr
    exact isOrderNumber_generateOrderNumberLoop session src fuel _ _ _ r
      (isOrderNumber_generateOrderNumber src calls) hr
  · intro session src k fuel calls hk hbusy hfree
    exact generateOrderNumber_returns session src k fuel calls hk hbusy hfree

/-- C18 (witness): on the healthy store and the counting source
GenerateOrderNumber returns `1234-5678-9012`, which has the shape. -/
theorem orderNumber_format_witness :
    GenerateOrderNumber healthyStore.session countingSource 3 0
      = some ("1234-5678-9012", 12) ∧
    IsOrderNumber "1234-5678-9012" :=
  ⟨by decide,
    orderNumber_format.2.1 healthyStore.session countingSource 3 0 ("1234-5678-9012", 12)
      (by decide)⟩

theorem generateOrderNumberLoop_free (session : DbSession) (src : RandSource)
    (fuel : Nat) (orderNumber : String) (o : Option Order) (calls : Nat) (r : String × Nat)
    (ho : o = (FindByOrderNumberInSession orderNumber session).1)
    (hr : GenerateOrderNumberLoop session src fuel orderNumber o calls = some r) :
    (FindByOrderNumberInSession r.1 session).1 = none := by
  induction fuel generalizing orderNumber o calls with
  | zero =>
    cases o with
    | none =>
      rw [generateOrderNumberLoop_none] at hr
      cases hr; exact ho.symm
    | some _ => simp [GenerateOrderNumberLoop] at hr
  | succ fuel ih =>
    cases o with
    | none =>
      rw [generateOrderNumberLoop_none] at hr
      cases hr; exact ho.symm
    | some _ =>
      unfold GenerateOrderNumberLoop at hr
      exact ih _ _ _ rfl hr

/-- On a store none of whose lookups fails, a number returned by
`GenerateOrderNumber` is the number of no order held. -/
theorem generateOrderNumber_free_of_healthy (store : OrderStore)
    (hh : ∀ n, store.failure n = none) (src : RandSource) (fuel calls : Nat)
    (r : String × Nat) (hr : GenerateOrderNumber store.session src fuel calls = some r) :
    ∀ o ∈ store.orders, o.OrderNumber ≠ r.1 := by
  have hfree := generateOrderNumberLoop_free store.session src fuel _ _ _ r rfl hr
  intro o ho hon
  unfold FindByOrderNumberInSession OrderStore.session OrderStore.Find at hfree
  simp only [hh] at hfree
  cases hf : store.orders.find? (fun o => o.OrderNumber == r.1) with
  | none =>
    have := List.find?_eq_none.1 hf o ho
    simp [hon] at this
  | some x => simp [hf] at hfree

/-- C19 (the code at the failing input): the store `brokenStore` holds an order
numbered `1111-1111-1111` and fails every lookup with the error `EOF`; on the
source that always draws 0 the lookup of the first candidate returns no order
and that error, and GenerateOrderNumber returns `1111-1111-1111`, the number of
the order held. -/
theorem generateOrderNumber_collides_on_failure :
    (FindByOrderNumberInSession "1111-1111-1111" brokenStore.session).1 = none ∧
    (FindByOrderNumberInSession "1111-1111-1111" brokenStore.session).2 = some "EOF" ∧
    GenerateOrderNumber brokenStore.session zeroSource 0 0 = some ("1111-1111-1111", 12) ∧
    ∃ o ∈ brokenStore.orders, o.OrderNumber = "1111-1111-1111" := by
  refine ⟨rfl, by decide, by decide, ⟨_, List.mem_singleton.2 rfl, rfl⟩⟩

/-! ### Loading references -/

/-- C20 (as stated, refuted): `referringOrder` refers to the address `a1`, which
the session `addressOnlySession` resolves, and to a payment `p9`, which names no
document there; LoadReferences returns with the address populated and the
payment nil, and the error it returns is nil. -/
theorem loadReferences_not_found_is_silent :
    (LoadReferences referringOrder none addressOnlySession).1.Address =
      some { ID := "a1", Street1 := "1 Main St", City := "Reno" } ∧
    (LoadReferences referringOrder none addressOnlySession).1.Payment = none ∧
    (PaymentByRef { Collection := "paymentInfo", Id := "p9" } addressOnlySession).2
      = some ErrNotFound ∧
    (LoadReferences referringOrder none addressOnlySession).2 = none := by
  refine ⟨by decide, by decide, by decide, by decide⟩

/-- C20 (amended): for every order whose address reference resolves to an address
`a` and whose payment reference is answered by the error `not found`,
LoadReferences returns with Address set to `a` with the given manager, Payment
nil, and no error on account of the payment: the error returned is nil exactly
when neither pharmacy lookup fails with an error other than `not found`. -/
theorem loadReferences_payment_not_found (o : Order) (manager : Option User)
    (session : DbSession) (ra rp : DBRef) (a : Address)
    (hA : o.AddressRef = some ra) (hAok : session.FindAddressByRef ra = .ok a)
    (hP : o.PaymentRef = some rp)
    (hPnf : session.FindPaymentByRef rp = .error ErrNotFound) :
    (LoadReferences o manager session).1.Address = some { a with Manager := manager } ∧
    (LoadReferences o manager session).1.Payment = none ∧
    ((LoadReferences o manager session).2 = none ↔
      pharmacyLoadFails session o.OriginPharmacyRef = false ∧
      pharmacyLoadFails session o.PartnerPharmacyRef = false) := by
  rcases hop : o.OriginPharmacyRef with _ | r1 <;>
    rcases hpp : o.PartnerPharmacyRef with _ | r2
  · simp [LoadReferences, pharmacyLoadFails, AddressByRef, PaymentByRef, isLoadFailure,
      HandleRefLoadError, *]
  · rcases h2 : session.FindPharmacyByRef r2 with e2 | p2
    · by_cases he2 : e2 = ErrNotFound <;>
        simp [LoadReferences, pharmacyLoadFails, AddressByRef, PaymentByRef, PharmacyByRef,
          isLoadFailure, HandleRefLoadError, *]
    · simp [LoadReferences, pharmacyLoadFails, AddressByRef, PaymentByRef, PharmacyByRef,
        isLoadFailure, HandleRefLoadError, *]
  · rcases h1 : session.FindPharmacyByRef r1 with e1 | p1
    · by_cases he1 : e1 = ErrNotFound <;>
        simp [LoadReferences, pharmacyLoadFails, AddressByRef, PaymentByRef, PharmacyByRef,
          isLoadFailure, HandleRefLoadError, *]
    · simp [LoadReferences, pharmacyLoadFails, AddressByRef, PaymentByRef, PharmacyByRef,
        isLoadFailure, HandleRefLoadError, *]
  · rcases h1 : session.FindPharmacyByRef r1 with e1 | p1 <;>
      rcases h2 : session.FindPharmacyByRef r2 with e2 | p2
    · by_cases he1 : e1 = ErrNotFound <;> by_cases he2 : e2 = ErrNotFound <;>
        simp [LoadReferences, pharmacyLoadFails, AddressByRef, PaymentByRef, PharmacyByRef,
          isLoadFailure, HandleRefLoadError, *]
    · by_cases he1 : e1 = ErrNotFound <;>
        simp [LoadReferences, pharmacyLoadFails, AddressByRef, PaymentByRef, PharmacyByRef,
          isLoadFailure, HandleRefLoadError, *]
    · by_cases he2 : e2 = ErrNotFound <;>
        simp [LoadReferences, pharmacyLoadFails, AddressByRef, PaymentByRef, PharmacyByRef,
          isLoadFailure, HandleRefLoadError, *]
    · simp [LoadReferences, pharmacyLoadFails, AddressByRef, PaymentByRef, PharmacyByRef,
        isLoadFailure, HandleRefLoadError, *]

/-- C20 (witness): the amended theorem at `referringOrder` and
`addressOnlySession`. -/
theorem loadReferences_payment_not_found_witness :
    (LoadReferences referringOrder none addressOnlySession).1.Payment = none ∧
    ((LoadReferences referringOrder none addressOnlySession).2 = none ↔
      pharmacyLoadFails addressOnlySession referringOrder.OriginPharmacyRef = false ∧
      pharmacyLoadFails addressOnlySession referringOrder.PartnerPharmacyRef = false) :=
  (loadReferences_payment_not_found referringOrder none addressOnlySession
    { Collection := "address", Id := "a1" } { Collection := "paymentInfo", Id := "p9" }
    { ID := "a1", Street1 := "1 Main St", City := "Reno" } rfl rfl rfl rfl).2

/-! ### The reference loaders, block by block -/

theorem loadReferences_blocks (o : Order) (manager : Option User) (session : DbSession) :
    LoadReferences o manager session =
      (managerBlock manager
          (partnerPharmacyBlock session (originPharmacyBlock session
            (paymentBlock session (addressBlock session (o, []))))).1,
        HandleRefLoadError "ERRORS"
          (partnerPharmacyBlock session (originPharmacyBlock session
            (paymentBlock session (addressBlock session (o, []))))).2) := by
  rfl

theorem addressBlock_eq (session : DbSession) (o : Order) (errs : List (Option GoError)) :
    addressBlock session (o, errs) =
      ({ o with
          Address := loadedValue o.AddressRef (fun r => AddressByRef r session) o.Address },
        errs ++ loadedErrors o.AddressRef (fun r => AddressByRef r session)) := by
  unfold addressBlock loadedValue loadedErrors
  cases h : o.AddressRef with
  | none => simp [h]; cases o; simp_all
  | some r =>
    by_cases hf : isLoadFailure (AddressByRef r session).2 = true <;>
      (simp [h, hf]; try (cases o; simp_all))

theorem paymentBlock_eq (session : DbSession) (o : Order) (errs : List (Option GoError)) :
    paymentBlock session (o, errs) =
      ({ o with
          Payment := loadedValue o.PaymentRef (fun r => PaymentByRef r session) o.Payment },
        errs ++ loadedErrors o.PaymentRef (fun r => PaymentByRef r session)) := by
  unfold paymentBlock loadedValue loadedErrors
  cases h : o.PaymentRef with
  | none => simp [h]; cases o; simp_all
  | some r =>
    by_cases hf : isLoadFailure (PaymentByRef r session).2 = true <;>
      (simp [h, hf]; try (cases o; simp_all))

theorem originPharmacyBlock_eq (session : DbSession) (o : Order)
    (errs : List (Option GoError)) :
    originPharmacyBlock session (o, errs) =
      ({ o with
          OriginPharmacy :=
            loadedValue o.OriginPharmacyRef (fun r => PharmacyByRef r session)
              o.OriginPharmacy },
        errs ++ loadedErrors o.OriginPharmacyRef (fun r => PharmacyByRef r session)) := by
  unfold originPharmacyBlock loadedValue loadedErrors
  cases h : o.OriginPharmacyRef with
  | none => simp [h]; cases o; simp_all
  | some r =>
    by_cases hf : isLoadFailure (PharmacyByRef r session).2 = true <;>
      (simp [h, hf]; try (cases o; simp_all))

theorem partnerPharmacyBlock_eq (session : DbSession) (o : Order)
    (errs : List (Option GoError)) :
    partnerPharmacyBlock session (o, errs) =
      ({ o with
          PartnerPharmacy :=
            loadedValue o.PartnerPharmacyRef (fun r => PharmacyByRef r session)
              o.PartnerPharmacy },
        errs ++ loadedErrors o.PartnerPharmacyRef (fun r => PharmacyByRef r session)) := by
  unfold partnerPharmacyBlock loadedValue loadedErrors
  cases h : o.PartnerPharmacyRef with
  | none => simp [h]; cases o; simp_all
  | some r =>
    by_cases hf : isLoadFailure (PharmacyByRef r session).2 = true <;>
      (simp [h, hf]; try (cases o; simp_all))

theorem managerBlock_eq (manager : Option User) (o : Order) :
    managerBlock manager o =
      { o with
        Payment := o.Payment.map fun p => { p with Manager := manager }
        Address := o.Address.map fun a => { a with Manager := manager } } := by
  unfold managerBlock
  cases h1 : o.Payment <;> cases h2 : o.Address <;>
    (simp [h1, h2]; try (cases o; simp_all))

/-- What `LoadReferences` leaves, attribute by attribute, and the errors it
aggregates. -/
theorem loadReferences_eq (o : Order) (manager : Option User) (session : DbSession) :
    LoadReferences o manager session =
      ({ o with
          Address :=
            (loadedValue o.AddressRef (fun r => AddressByRef r session) o.Address).map
              fun a => { a with Manager := manager }
          Payment :=
            (loadedValue o.PaymentRef (fun r => PaymentByRef r session) o.Payment).map
              fun p => { p with Manager := manager }
          OriginPharmacy :=
            loadedValue o.OriginPharmacyRef (fun r => PharmacyByRef r session) o.OriginPharmacy
          PartnerPharmacy :=
            loadedValue o.PartnerPharmacyRef (fun r => PharmacyByRef r session)
              o.PartnerPharmacy },
        HandleRefLoadError "ERRORS"
          (loadedErrors o.AddressRef (fun r => AddressByRef r session) ++
            loadedErrors o.PaymentRef (fun r => PaymentByRef r session) ++
            loadedErrors o.OriginPharmacyRef (fun r => PharmacyByRef r session) ++
            loadedErrors o.PartnerPharmacyRef (fun r => PharmacyByRef r session))) := by
  rw [loadReferences_blocks, addressBlock_eq, paymentBlock_eq, originPharmacyBlock_eq,
    partnerPharmacyBlock_eq, managerBlock_eq]
  simp

theorem loadReferencesWithConfig_blocks (o : Order) (manager : Option User)
    (config : OrderLoadConfig) (session : DbSession) :
    LoadReferencesWithConfig o manager config session =
      { order := managerBlock manager
          (partnerPharmacyBlockWithConfig config session
            (originPharmacyBlockWithConfig config session
              (paymentBlockWithConfig config session
                (addressBlockWithConfig config session (o, [], []))))).1
        err := HandleRefLoadError "ERRORS"
          (partnerPharmacyBlockWithConfig config session
            (originPharmacyBlockWithConfig config session
              (paymentBlockWithConfig config session
                (addressBlockWithConfig config session (o, [], []))))).2.1
        lookups :=
          (partnerPharmacyBlockWithConfig config session
            (originPharmacyBlockWithConfig config session
              (paymentBlockWithConfig config session
                (addressBlockWithConfig config session (o, [], []))))).2.2 } := by
  rfl

theorem dueRef_eq_some {α : Type} (flag : Bool) (dbRef : Option DBRef) (old : Option α)
    (r : DBRef) :
    dueRef flag dbRef old = some r ↔ flag = true ∧ dbRef = some r ∧ old = none := by
  cases flag <;> cases dbRef <;> cases old <;> simp [dueRef]

theorem addressBlockWithConfig_eq (config : OrderLoadConfig) (session : DbSession)
    (o : Order) (errs : List (Option GoError)) (lookups : List RefLookup) :
    addressBlockWithConfig config session (o, errs, lookups) =
      ({ o with
          Address :=
            loadedValue (dueRef config.LoadAddress o.AddressRef o.Address)
              (fun r => AddressByRef r session) o.Address },
        errs ++ loadedErrors (dueRef config.LoadAddress o.AddressRef o.Address)
          (fun r => AddressByRef r session),
        lookups ++
          (dueRef config.LoadAddress o.AddressRef o.Address).toList.map RefLookup.address) := by
  unfold addressBlockWithConfig loadedValue loadedErrors dueRef
  cases h1 : config.LoadAddress with
  | false => simp [h1]
  | true =>
    cases h2 : o.AddressRef with
    | none => simp [h1, h2]; cases o; simp_all
    | some r =>
      cases h3 : o.Address with
      | some a => simp [h1, h2, h3]; cases o; simp_all
      | none =>
        by_cases hf : isLoadFailure (AddressByRef r session).2 = true
        · simp [h1, h2, h3, hf]; cases o; simp_all
        · simp [h1, h2, h3, hf]

theorem paymentBlockWithConfig_eq (config : OrderLoadConfig) (session : DbSession)
    (o : Order) (errs : List (Option GoError)) (lookups : List RefLookup) :
    paymentBlockWithConfig config session (o, errs, lookups) =
      ({ o with
          Payment :=
            loadedValue (dueRef config.LoadPayment o.PaymentRef o.Payment)
              (fun r => PaymentByRef r session) o.Payment },
        errs ++ loadedErrors (dueRef config.LoadPayment o.PaymentRef o.Payment)
          (fun r => PaymentByRef r session),
        lookups ++
          (dueRef config.LoadPayment o.PaymentRef o.Payment).toList.map RefLookup.payment) := by
  unfold paymentBlockWithConfig loadedValue loadedErrors dueRef
  cases h1 : config.LoadPayment with
  | false => simp [h1]
  | true =>
    cases h2 : o.PaymentRef with
    | none => simp [h1, h2]; cases o; simp_all
    | some r =>
      cases h3 : o.Payment with
      | some a => simp [h1, h2, h3]; cases o; simp_all
      | none =>
        by_cases hf : isLoadFailure (PaymentByRef r session).2 = true
        · simp [h1, h2, h3, hf]; cases o; simp_all
        · simp [h1, h2, h3, hf]

theorem originPharmacyBlockWithConfig_eq (config : OrderLoadConfig) (session : DbSession)
    (o : Order) (errs : List (Option GoError)) (lookups : List RefLookup) :
    originPharmacyBlockWithConfig config session (o, errs, lookups) =
      ({ o with
          OriginPharmacy :=
            loadedValue (dueRef config.LoadOriginPharmacy o.OriginPharmacyRef o.OriginPharmacy)
              (fun r => PharmacyByRef r session) o.OriginPharmacy },
        errs ++ loadedErrors (dueRef config.LoadOriginPharmacy o.OriginPharmacyRef o.OriginPharmacy)
          (fun r => PharmacyByRef r session),
        lookups ++
          (dueRef config.LoadOriginPharmacy o.OriginPharmacyRef o.OriginPharmacy).toList.map RefLookup.originPharmacy) := by
  unfold originPharmacyBlockWithConfig loadedValue loadedErrors dueRef
  cases h1 : config.LoadOriginPharmacy with
  | false => simp [h1]
  | true =>
    cases h2 : o.OriginPharmacyRef with
    | none => simp [h1, h2]; cases o; simp_all
    | some r =>
      cases h3 : o.OriginPharmacy with
      | some a => simp [h1, h2, h3]; cases o; simp_all
      | none =>
        by_cases hf : isLoadFailure (PharmacyByRef r session).2 = true
        · simp [h1, h2, h3, hf]; cases o; simp_all
        · simp [h1, h2, h3, hf]

theorem partnerPharmacyBlockWithConfig_eq (config : OrderLoadConfig) (session : DbSession)
    (o : Order) (errs : List (Option GoError)) (lookups : List RefLookup) :
    partnerPharmacyBlockWithConfig config session (o, errs, lookups) =
      ({ o with
          PartnerPharmacy :=
            loadedValue (dueRef config.LoadPartnerPharmacy o.PartnerPharmacyRef o.PartnerPharmacy)
              (fun r => PharmacyByRef r session) o.PartnerPharmacy },
        errs ++ loadedErrors (dueRef config.LoadPartnerPharmacy o.PartnerPharmacyRef o.PartnerPharmacy)
          (fun r => PharmacyByRef r session),
        lookups ++
          (dueRef config.LoadPartnerPharmacy o.PartnerPharmacyRef o.PartnerPharmacy).toList.map RefLookup.partnerPharmacy) := by
  unfold partnerPharmacyBlockWithConfig loadedValue loadedErrors dueRef
  cases h1 : config.LoadPartnerPharmacy with
  | false => simp [h1]
  | true =>
    cases h2 : o.PartnerPharmacyRef with
    | none => simp [h1, h2]; cases o; simp_all
    | some r =>
      cases h3 : o.PartnerPharmacy with
      | some a => simp [h1, h2, h3]; cases o; simp_all
      | none =>
        by_cases hf : isLoadFailure (PharmacyByRef r session).2 = true
        · simp [h1, h2, h3, hf]; cases o; simp_all
        · simp [h1, h2, h3, hf]

/-- What `LoadReferencesWithConfig` leaves, attribute by attribute, the errors it
aggregates and the lookups it makes. -/
theorem loadReferencesWithConfig_eq (o : Order) (manager : Option User)
    (config : OrderLoadConfig) (session : DbSession) :
    LoadReferencesWithConfig o manager config session =
      { order :=
          { o with
            Address :=
              (loadedValue (dueRef config.LoadAddress o.AddressRef o.Address)
                (fun r => AddressByRef r session) o.Address).map
                fun a => { a with Manager := manager }
            Payment :=
              (loadedValue (dueRef config.LoadPayment o.PaymentRef o.Payment)
                (fun r => PaymentByRef r session) o.Payment).map
                fun p => { p with Manager := manager }
            OriginPharmacy :=
              loadedValue (dueRef config.LoadOriginPharmacy o.OriginPharmacyRef o.OriginPharmacy)
                (fun r => PharmacyByRef r session) o.OriginPharmacy
            PartnerPharmacy :=
              loadedValue
                (dueRef config.LoadPartnerPharmacy o.PartnerPharmacyRef o.PartnerPharmacy)
                (fun r => PharmacyByRef r session) o.PartnerPharmacy }
        err := HandleRefLoadError "ERRORS"
          (loadedErrors (dueRef config.LoadAddress o.AddressRef o.Address)
              (fun r => AddressByRef r session) ++
            loadedErrors (dueRef config.LoadPayment o.PaymentRef o.Payment)
              (fun r => PaymentByRef r session) ++
            loadedErrors (dueRef config.LoadOriginPharmacy o.OriginPharmacyRef o.OriginPharmacy)
              (fun r => PharmacyByRef r session) ++
            loadedErrors
              (dueRef config.LoadPartnerPharmacy o.PartnerPharmacyRef o.PartnerPharmacy)
              (fun r => PharmacyByRef r session))
        lookups :=
          (dueRef config.LoadAddress o.AddressRef o.Address).toList.map RefLookup.address ++
          (dueRef config.LoadPayment o.PaymentRef o.Payment).toList.map RefLookup.payment ++
          (dueRef config.LoadOriginPharmacy o.OriginPharmacyRef o.OriginPharmacy).toList.map
            RefLookup.originPharmacy ++
          (dueRef config.LoadPartnerPharmacy o.PartnerPharmacyRef o.PartnerPharmacy).toList.map
            RefLookup.partnerPharmacy } := by
  rw [loadReferencesWithConfig_blocks, addressBlockWithConfig_eq, paymentBlockWithConfig_eq,
    originPharmacyBlockWithConfig_eq, partnerPharmacyBlockWithConfig_eq, managerBlock_eq]
  simp

/-! ### Aggregation of errors -/

theorem handleRefLoadError_fold_none (message : String) (errs : List (Option GoError))
    (acc : Option GoError) :
    errs.foldl (wrapStep message) acc = none ↔ acc = none ∧ ∀ e ∈ errs, e = none := by
  induction errs generalizing acc with
  | nil => simp
  | cons e errs ih =>
    rw [List.foldl_cons, ih]
    cases e with
    | none => simp [wrapStep]
    | some x => cases acc <;> simp [wrapStep]

/-- `HandleRefLoadError` returns nil exactly when every element is nil. -/
theorem handleRefLoadError_eq_none_iff (message : String) (errs : List (Option GoError)) :
    HandleRefLoadError message errs = none ↔ ∀ e ∈ errs, e = none := by
  show errs.foldl (wrapStep message) none = none ↔ _
  rw [handleRefLoadError_fold_none]
  simp

theorem handleRefLoadError_fold_some (message : String) (errs : List (Option GoError))
    (x : GoError) :
    errs.foldl (wrapStep message) (some x) =
      some ((fun e => Wrapf e message)^[(errs.filter fun e => e != none).length] x) := by
  induction errs generalizing x with
  | nil => rfl
  | cons e errs ih =>
    rw [List.foldl_cons]
    cases e with
    | none => simpa [wrapStep] using ih x
    | some y => simpa [wrapStep] using ih (Wrapf x message)

/-- The error `HandleRefLoadError` returns carries the first non-nil element
alone, wrapped once for every non-nil element of the list. -/
theorem handleRefLoadError_first (message : String) (nils : List (Option GoError))
    (x : GoError) (rest : List (Option GoError)) (hn : ∀ e ∈ nils, e = none) :
    HandleRefLoadError message (nils ++ some x :: rest) =
      some ((fun e => Wrapf e message)^[(rest.filter fun e => e != none).length + 1] x) := by
  show (nils ++ some x :: rest).foldl (wrapStep message) none = _
  rw [List.foldl_append]
  have h0 := (handleRefLoadError_fold_none message nils none).2 ⟨rfl, hn⟩
  rw [h0, List.foldl_cons]
  have h1 : wrapStep message none (some x) = some (Wrapf x message) := by simp [wrapStep]
  rw [h1, handleRefLoadError_fold_some, Function.iterate_succ_apply]

/-- C23 (the code at the failing input): on the two errors `address lookup failed`
and `payment lookup failed` HandleRefLoadError, and WrapErrors with it, returns
the error `ERRORS: ERRORS: address lookup failed`, the first error wrapped
twice, whose message does not contain the message of the second. -/
theorem handleRefLoadError_drops_later_errors :
    HandleRefLoadError "ERRORS" [some "address lookup failed", some "payment lookup failed"]
      = some "ERRORS: ERRORS: address lookup failed" ∧
    WrapErrors "ERRORS" [some "address lookup failed", some "payment lookup failed"]
      = some "ERRORS: ERRORS: address lookup failed" ∧
    ¬ ("payment lookup failed".toList <:+: "ERRORS: ERRORS: address lookup failed".toList) := by
  refine ⟨by decide, by decide, by decide⟩

/-! ### Not found, short circuit, incremental loading -/

theorem loadedErrors_all_some {α : Type} (dbRef : Option DBRef)
    (fetch : DBRef → Option α × Option GoError) :
    ∀ e ∈ loadedErrors dbRef fetch, e ≠ none := by
  intro e he
  unfold loadedErrors at he
  cases dbRef with
  | none => simp at he
  | some r =>
    by_cases hf : isLoadFailure (fetch r).2 = true
    · simp only [hf, if_true, List.mem_singleton] at he
      subst he
      intro hnone
      rw [hnone] at hf
      simp [isLoadFailure] at hf
    · simp [hf] at he

theorem loadedErrors_eq_nil_iff {α : Type} (dbRef : Option DBRef)
    (fetch : DBRef → Option α × Option GoError) :
    loadedErrors dbRef fetch = [] ↔
      ∀ r, dbRef = some r → isLoadFailure (fetch r).2 = false := by
  unfold loadedErrors
  cases dbRef with
  | none => simp
  | some r => by_cases hf : isLoadFailure (fetch r).2 = true <;> simp [hf]

theorem isLoadFailure_addressByRef (r : DBRef) (session : DbSession) :
    isLoadFailure (AddressByRef r session).2 = true ↔
      ∃ e, session.FindAddressByRef r = .error e ∧ e ≠ ErrNotFound := by
  unfold AddressByRef isLoadFailure
  rcases h : session.FindAddressByRef r with e | a <;> simp

theorem isLoadFailure_paymentByRef (r : DBRef) (session : DbSession) :
    isLoadFailure (PaymentByRef r session).2 = true ↔
      ∃ e, session.FindPaymentByRef r = .error e ∧ e ≠ ErrNotFound := by
  unfold PaymentByRef isLoadFailure
  rcases h : session.FindPaymentByRef r with e | a <;> simp

theorem isLoadFailure_pharmacyByRef (r : DBRef) (session : DbSession) :
    isLoadFailure (PharmacyByRef r session).2 = true ↔
      ∃ e, session.FindPharmacyByRef r = .error e ∧ e ≠ ErrNotFound := by
  unfold PharmacyByRef isLoadFailure
  rcases h : session.FindPharmacyByRef r with e | a <;> simp

theorem handleRefLoadError_loaded_ne_none (message : String)
    (l : List (Option GoError)) (hl : ∀ e ∈ l, e ≠ none) :
    HandleRefLoadError message l ≠ none ↔ l ≠ [] := by
  rw [Ne, handleRefLoadError_eq_none_iff]
  constructor
  · intro h hnil
    apply h
    rw [hnil]
    simp
  · intro h hall
    cases l with
    | nil => exact h rfl
    | cons e l => exact hl e (List.mem_cons_self e l) (hall e (List.mem_cons_self e l))

/-- C22: LoadReferences looks up every relation whose reference is set, whatever
became of the lookups before it: an address, a payment, an origin pharmacy and
a partner pharmacy whose lookup succeeds is the attribute of the order after
the call (the address and the payment carrying the manager of the call),
whether or not another lookup failed; and the error returned is non-nil
exactly when the lookup of some relation whose reference is set fails with an
error other than `not found`. -/
theorem loadReferences_no_short_circuit (o : Order) (manager : Option User)
    (session : DbSession) :
    (∀ r a, o.AddressRef = some r → session.FindAddressByRef r = .ok a →
      (LoadReferences o manager session).1.Address = some { a with Manager := manager }) ∧
    (∀ r p, o.PaymentRef = some r → session.FindPaymentByRef r = .ok p →
      (LoadReferences o manager session).1.Payment = some { p with Manager := manager }) ∧
    (∀ r p, o.OriginPharmacyRef = some r → session.FindPharmacyByRef r = .ok p →
      (LoadReferences o manager session).1.OriginPharmacy = some p) ∧
    (∀ r p, o.PartnerPharmacyRef = some r → session.FindPharmacyByRef r = .ok p →
      (LoadReferences o manager session).1.PartnerPharmacy = some p) ∧
    ((LoadReferences o manager session).2 ≠ none ↔
      (∃ r e, o.AddressRef = some r ∧ session.FindAddressByRef r = .error e ∧
        e ≠ ErrNotFound) ∨
      (∃ r e, o.PaymentRef = some r ∧ session.FindPaymentByRef r = .error e ∧
        e ≠ ErrNotFound) ∨
      (∃ r e, o.OriginPharmacyRef = some r ∧ session.FindPharmacyByRef r = .error e ∧
        e ≠ ErrNotFound) ∨
      (∃ r e, o.PartnerPharmacyRef = some r ∧ session.FindPharmacyByRef r = .error e ∧
        e ≠ ErrNotFound)) := by
  rw [loadReferences_eq]
  refine ⟨?_, ?_, ?_, ?_, ?_⟩
  · intro r a hr ha
    simp [loadedValue, hr, AddressByRef, ha, isLoadFailure]
  · intro r p hr hp
    simp [loadedValue, hr, PaymentByRef, hp, isLoadFailure]
  · intro r p hr hp
    simp [loadedValue, hr, PharmacyByRef, hp, isLoadFailure]
  · intro r p hr hp
    simp [loadedValue, hr, PharmacyByRef, hp, isLoadFailure]
  · show HandleRefLoadError "ERRORS" _ ≠ none ↔ _
    rw [handleRefLoadError_loaded_ne_none]
    · simp only [ne_eq, List.append_eq_nil, not_and_or, loadedErrors_eq_nil_iff,
        not_forall, Bool.not_eq_false, isLoadFailure_addressByRef,
        isLoadFailure_paymentByRef, isLoadFailure_pharmacyByRef, exists_prop, or_assoc]
      constructor
      · rintro (⟨r, hr, e, h1, h2⟩ | ⟨r, hr, e, h1, h2⟩ | ⟨r, hr, e, h1, h2⟩ |
          ⟨r, hr, e, h1, h2⟩)
        · exact Or.inl ⟨r, e, hr, h1, h2⟩
        · exact Or.inr (Or.inl ⟨r, e, hr, h1, h2⟩)
        · exact Or.inr (Or.inr (Or.inl ⟨r, e, hr, h1, h2⟩))
        · exact Or.inr (Or.inr (Or.inr ⟨r, e, hr, h1, h2⟩))
      · rintro (⟨r, e, hr, h1, h2⟩ | ⟨r, e, hr, h1, h2⟩ | ⟨r, e, hr, h1, h2⟩ |
          ⟨r, e, hr, h1, h2⟩)
        · exact Or.inl ⟨r, hr, e, h1, h2⟩
        · exact Or.inr (Or.inl ⟨r, hr, e, h1, h2⟩)
        · exact Or.inr (Or.inr (Or.inl ⟨r, hr, e, h1, h2⟩))
        · exact Or.inr (Or.inr (Or.inr ⟨r, hr, e, h1, h2⟩))
    · intro e he
      simp only [List.mem_append] at he
      rcases he with ((he | he) | he) | he <;> exact loadedErrors_all_some _ _ e he

/-- C22 (witness): on `flakySession` the lookup of the address of `referringOrder`
fails with `EOF`, the payment looked up after it is populated all the same, and
the error returned is non-nil. -/
theorem loadReferences_no_short_circuit_witness :
    (LoadReferences referringOrder none flakySession).1.Payment
      = some { ID := "p9", CardName := "Ann Lee" } ∧
    (LoadReferences referringOrder none flakySession).2 ≠ none :=
  ⟨(loadReferences_no_short_circuit referringOrder none flakySession).2.1
      { Collection := "paymentInfo", Id := "p9" } { ID := "p9", CardName := "Ann Lee" } rfl rfl,
    (loadReferences_no_short_circuit referringOrder none flakySession).2.2.2.2.2
      (Or.inl ⟨{ Collection := "address", Id := "a1" }, "EOF", rfl, rfl, by decide⟩)⟩

/-- A payment, an origin pharmacy and a partner pharmacy whose lookup answers
`not found` are nil after `LoadReferences`. -/
theorem loadReferences_not_found_nil (o : Order) (manager : Option User)
    (session : DbSession) :
    (∀ r, o.PaymentRef = some r → session.FindPaymentByRef r = .error ErrNotFound →
      (LoadReferences o manager session).1.Payment = none) ∧
    (∀ r, o.OriginPharmacyRef = some r → session.FindPharmacyByRef r = .error ErrNotFound →
      (LoadReferences o manager session).1.OriginPharmacy = none) ∧
    (∀ r, o.PartnerPharmacyRef = some r → session.FindPharmacyByRef r = .error ErrNotFound →
      (LoadReferences o manager session).1.PartnerPharmacy = none) ∧
    (∀ r, o.AddressRef = some r → session.FindAddressByRef r = .error ErrNotFound →
      (LoadReferences o manager session).1.Address = some { Manager := manager }) := by
  rw [loadReferences_eq]
  refine ⟨?_, ?_, ?_, ?_⟩
  · intro r hr hp
    simp [loadedValue, hr, PaymentByRef, hp, isLoadFailure]
  · intro r hr hp
    simp [loadedValue, hr, PharmacyByRef, hp, isLoadFailure]
  · intro r hr hp
    simp [loadedValue, hr, PharmacyByRef, hp, isLoadFailure]
  · intro r hr hp
    simp [loadedValue, hr, AddressByRef, hp, isLoadFailure]

/-- C21 (the code at the failing input): on `emptySession` the lookup of the
address `a1` of `referringOrder` answers `not found`; LoadReferences, and
LoadReferencesWithConfig asked for every relation, return no error, leave the
payment nil, and leave as Address a non-nil address that is empty but for the
manager of the call. -/
theorem loadReferences_address_not_found_not_nil :
    (AddressByRef { Collection := "address", Id := "a1" } emptySession).2
      = some ErrNotFound ∧
    (LoadReferences referringOrder (some sampleManager) emptySession).2 = none ∧
    (LoadReferences referringOrder (some sampleManager) emptySession).1.Payment = none ∧
    (LoadReferences referringOrder (some sampleManager) emptySession).1.Address
      = some { Manager := some sampleManager } ∧
    (LoadReferencesWithConfig referringOrder (some sampleManager) loadEverything
      emptySession).err = none ∧
    (LoadReferencesWithConfig referringOrder (some sampleManager) loadEverything
      emptySession).order.Address = some { Manager := some sampleManager } := by
  refine ⟨by decide, by decide, by decide, by decide, by decide, by decide⟩

/-- C24 (as stated, refuted): the address of `populatedOrder` is populated and has
no manager; LoadReferencesWithConfig, whether asked for nothing or for every
relation, makes no lookup, yet the address it leaves is not the address as it
was: its Manager is the manager of the call. -/
theorem loadReferencesWithConfig_changes_populated :
    populatedOrder.Address = some { ID := "a1", Street1 := "1 Main St", City := "Reno" } ∧
    (LoadReferencesWithConfig populatedOrder (some sampleManager) {} emptySession).lookups
      = [] ∧
    (LoadReferencesWithConfig populatedOrder (some sampleManager) loadEverything
      emptySession).lookups = [] ∧
    (LoadReferencesWithConfig populatedOrder (some sampleManager) {} emptySession).order.Address
      = some { ID := "a1", Street1 := "1 Main St", City := "Reno",
               Manager := some sampleManager } ∧
    (LoadReferencesWithConfig populatedOrder (some sampleManager) {} emptySession).order.Address
      ≠ populatedOrder.Address ∧
    (LoadReferencesWithConfig populatedOrder (some sampleManager) loadEverything
      emptySession).order.Address ≠ populatedOrder.Address := by
  refine ⟨rfl, by decide, by decide, by decide, by decide, by decide⟩

/-- C24 (amended): LoadReferencesWithConfig looks a relation up exactly when its
flag is true, its reference is set and its attribute is nil, and then at that
reference; a relation whose flag is false or whose attribute is populated is
not looked up and keeps its value, except that a populated Address and a
populated Payment get the manager of the call as their Manager. -/
theorem loadReferencesWithConfig_incremental (o : Order) (manager : Option User)
    (config : OrderLoadConfig) (session : DbSession) :
    (∀ r, RefLookup.address r ∈ (LoadReferencesWithConfig o manager config session).lookups ↔
      config.LoadAddress = true ∧ o.AddressRef = some r ∧ o.Address = none) ∧
    (∀ r, RefLookup.payment r ∈ (LoadReferencesWithConfig o manager config session).lookups ↔
      config.LoadPayment = true ∧ o.PaymentRef = some r ∧ o.Payment = none) ∧
    (∀ r, RefLookup.originPharmacy r ∈
        (LoadReferencesWithConfig o manager config session).lookups ↔
      config.LoadOriginPharmacy = true ∧ o.OriginPharmacyRef = some r ∧
        o.OriginPharmacy = none) ∧
    (∀ r, RefLookup.partnerPharmacy r ∈
        (LoadReferencesWithConfig o manager config session).lookups ↔
      config.LoadPartnerPharmacy = true ∧ o.PartnerPharmacyRef = some r ∧
        o.PartnerPharmacy = none) ∧
    (config.LoadAddress = false ∨ o.Address ≠ none →
      (LoadReferencesWithConfig o manager config session).order.Address =
        o.Address.map fun a => { a with Manager := manager }) ∧
    (config.LoadPayment = false ∨ o.Payment ≠ none →
      (LoadReferencesWithConfig o manager config session).order.Payment =
        o.Payment.map fun p => { p with Manager := manager }) ∧
    (config.LoadOriginPharmacy = false ∨ o.OriginPharmacy ≠ none →
      (LoadReferencesWithConfig o manager config session).order.OriginPharmacy =
        o.OriginPharmacy) ∧
    (config.LoadPartnerPharmacy = false ∨ o.PartnerPharmacy ≠ none →
      (LoadReferencesWithConfig o manager config session).order.PartnerPharmacy =
        o.PartnerPharmacy) := by
  rw [loadReferencesWithConfig_eq]
  have hdue : ∀ {α : Type} (flag : Bool) (dbRef : Option DBRef) (old : Option α),
      flag = false ∨ old ≠ none → dueRef flag dbRef old = none := by
    intro α flag dbRef old h
    cases flag <;> cases dbRef <;> cases old <;> simp_all [dueRef]
  refine ⟨?_, ?_, ?_, ?_, ?_, ?_, ?_, ?_⟩
  · intro r
    simp [Option.mem_toList, dueRef_eq_some]
  · intro r
    simp [Option.mem_toList, dueRef_eq_some]
  · intro r
    simp [Option.mem_toList, dueRef_eq_some]
  · intro r
    simp [Option.mem_toList, dueRef_eq_some]
  · intro h
    simp [hdue _ o.AddressRef _ h, loadedValue]
  · intro h
    simp [hdue _ o.PaymentRef _ h, loadedValue]
  · intro h
    simp [hdue _ o.OriginPharmacyRef _ h, loadedValue]
  · intro h
    simp [hdue _ o.PartnerPharmacyRef _ h, loadedValue]

/-- C24 (witness): the amended theorem at `populatedOrder` asked for every
relation. -/
theorem loadReferencesWithConfig_incremental_witness :
    (LoadReferencesWithConfig populatedOrder (some sampleManager) loadEverything
      emptySession).order.Address =
        populatedOrder.Address.map fun a => { a with Manager := some sampleManager } :=
  (loadReferencesWithConfig_incremental populatedOrder (some sampleManager) loadEverything
    emptySession).2.2.2.2.1 (Or.inr (by decide))

/-! ### Stamps, nil milestones, the list of statuses -/

/-- C25 (as stated, refuted): InsuranceOverride() moves the Insurance region of
`suspendedOrder` from PRIOR_AUTH to INSURANCE_OVERRIDE and leaves its
lastProcessedDate nil. -/
theorem insuranceOverride_does_not_stamp :
    suspendedOrder.InsuranceStatus = MSPriorAuth ∧
    suspendedOrder.InsuranceOverride.InsuranceStatus = MSInsuranceOverride ∧
    (suspendedOrder.InsuranceOverride.InsuranceMilestone.map fun im => im.LastProcessedDate)
      = some none := by
  refine ⟨by decide, by decide, by decide⟩

/-- C25 (amended): a Transfer or NewRx milestone whose status MoveToScrubAndRoute()
changes, and every Transfer or NewRx milestone present after
PendingActionTaken(), has lastProcessedDate equal to the clock reading of the
call; InsuranceOverride() changes the status of the Insurance milestone and
leaves its lastProcessedDate as it was. -/
theorem status_change_stamps (now : Time) (o : Order) :
    (∀ tm tm', o.TransferMilestone = some tm →
      (o.MoveToScrubAndRoute now).TransferMilestone = some tm' →
      tm'.Status ≠ tm.Status → tm'.LastProcessedDate = some now) ∧
    (∀ nm nm', o.NewRxMilestone = some nm →
      (o.MoveToScrubAndRoute now).NewRxMilestone = some nm' →
      nm'.Status ≠ nm.Status → nm'.LastProcessedDate = some now) ∧
    (∀ tm', (o.PendingActionTaken now).TransferMilestone = some tm' →
      tm'.LastProcessedDate = some now) ∧
    (∀ nm', (o.PendingActionTaken now).NewRxMilestone = some nm' →
      nm'.LastProcessedDate = some now) ∧
    (∀ im im', o.InsuranceMilestone = some im →
      o.InsuranceOverride.InsuranceMilestone = some im' →
      im'.Status = MSInsuranceOverride ∧ im'.LastProcessedDate = im.LastProcessedDate) := by
  refine ⟨?_, ?_, ?_, ?_, ?_⟩
  · intro tm tm' h h' hne
    rw [moveToScrubAndRoute_eq] at h'
    simp only [h, Option.map_some', Option.some.injEq] at h'
    by_cases hs : tm.Status = MSNotInitiated
    · rw [if_pos hs] at h'
      rw [← h']
    · rw [if_neg hs] at h'
      rw [h'] at hne
      exact absurd rfl hne
  · intro nm nm' h h' hne
    rw [moveToScrubAndRoute_eq] at h'
    simp only [h, Option.map_some', Option.some.injEq] at h'
    by_cases hs : nm.Status = MSNotInitiated
    · rw [if_pos hs] at h'
      rw [← h']
    · rw [if_neg hs] at h'
      rw [h'] at hne
      exact absurd rfl hne
  · intro tm' h'
    rw [pendingActionTaken_eq] at h'
    cases h : o.TransferMilestone with
    | none => simp [h] at h'
    | some tm =>
      simp only [h, Option.map_some', Option.some.injEq] at h'
      rw [← h']
  · intro nm' h'
    rw [pendingActionTaken_eq] at h'
    cases h : o.NewRxMilestone with
    | none => simp [h] at h'
    | some nm =>
      simp only [h, Option.map_some', Option.some.injEq] at h'
      rw [← h']
  · intro im im' h h'
    simp only [Order.InsuranceOverride, h, Option.some.injEq] at h'
    rw [← h']
    exact ⟨rfl, rfl⟩

/-- C25 (witness): MoveToScrubAndRoute() at clock reading 1000 on an order whose
Transfer milestone is at NOT_INITIATED stamps the milestone with 1000. -/
theorem status_change_stamps_witness :
    ∃ tm', (Order.MoveToScrubAndRoute 1000
        { TransferMilestone := some { Status := MSNotInitiated } }).TransferMilestone
          = some tm' ∧
      tm'.LastProcessedDate = some 1000 :=
  ⟨_, rfl, (status_change_stamps 1000
    { TransferMilestone := some { Status := MSNotInitiated } }).1 _ _ rfl rfl (by decide)⟩

/-- C26 (the code at the failing input): on the zero order, which has no Delivery
and no Payment milestone, IsDelivered() and IsPromoDiscountApplied() end in the
panic of a nil pointer, where CarrierType() and PromoDiscount(), which test the
milestone for nil, return the empty string; the same holds for the order
InitializeOrder returns once its milestones are taken away. -/
theorem isDelivered_panics_without_milestone :
    ({} : Order).DeliveryMilestone = none ∧
    ({} : Order).IsDelivered = none ∧
    ({} : Order).IsPromoDiscountApplied = none ∧
    ({} : Order).CarrierType = "" ∧
    ({} : Order).PromoDiscount = "" ∧
    ({ freshOrder with DeliveryMilestone := none, PaymentMilestone := none } : Order).IsDelivered
      = none ∧
    freshOrder.IsDelivered = some false ∧
    freshOrder.IsPromoDiscountApplied = some false := by
  refine ⟨rfl, rfl, rfl, rfl, rfl, rfl, by decide, by decide⟩

/-- The two accessors panic exactly on an order without the milestone they read. -/
theorem isDelivered_eq_none_iff (o : Order) :
    (o.IsDelivered = none ↔ o.DeliveryMilestone = none) ∧
    (o.IsPromoDiscountApplied = none ↔ o.PaymentMilestone = none) := by
  constructor
  · cases h : o.DeliveryMilestone <;> simp [Order.IsDelivered, h]
  · cases h : o.PaymentMilestone <;> simp [Order.IsPromoDiscountApplied, h]

/-- The validation of `UpdateOrderMilestoneStatus`: the name is refused exactly
when it is not in `MilestoneNames`, and with a name accepted the status is
refused exactly when it is not in `MilestoneStatusList`. -/
theorem updateOrderMilestoneStatus_validation
    (updateFieldValue : String → String → String → String → Option GoError)
    (orderNumber milestoneName status : String) :
    (milestoneName ∉ MilestoneNames →
      UpdateOrderMilestoneStatus updateFieldValue orderNumber milestoneName status
        = some "Invalid milestone name") ∧
    (milestoneName ∈ MilestoneNames → status ∉ MilestoneStatusList →
      UpdateOrderMilestoneStatus updateFieldValue orderNumber milestoneName status
        = some "Invalid milestone status value") ∧
    (milestoneName ∈ MilestoneNames → status ∈ MilestoneStatusList →
      UpdateOrderMilestoneStatus updateFieldValue orderNumber milestoneName status
        = updateFieldValue orderNumber "order" (milestoneName ++ ".status") status) := by
  have hn : MilestoneNames.any (fun mn => mn == milestoneName) = true ↔
      milestoneName ∈ MilestoneNames := by
    simp [List.any_eq_true]
  have hs : MilestoneStatusList.any (fun st => st == status) = true ↔
      status ∈ MilestoneStatusList := by
    simp [List.any_eq_true]
  unfold UpdateOrderMilestoneStatus
  refine ⟨?_, ?_, ?_⟩
  · intro h
    have h' : MilestoneNames.any (fun mn => mn == milestoneName) = false := by
      rw [← Bool.not_eq_true, hn]; exact h
    simp only [h']
    rfl
  · intro h1 h2
    have h1' := hn.2 h1
    have h2' : MilestoneStatusList.any (fun st => st == status) = false := by
      rw [← Bool.not_eq_true, hs]; exact h2
    simp only [h1', h2']
    rfl
  · intro h1 h2
    have h1' := hn.2 h1
    have h2' := hs.2 h2
    simp only [h1', h2']
    rfl

/-- C27 (the code at the failing input): PENDING_ACTION_TAKEN, INSURANCE_OVERRIDE
and CASH_PRICE_IDENTIFIED are constants of the enumeration of milestone
statuses and are not in MilestoneStatusList, which holds 17 of the 44
constants; UpdateOrderMilestoneStatus on the milestone name transferMilestone
and the status PENDING_ACTION_TAKEN returns the error `Invalid milestone status
value`. -/
theorem milestoneStatusList_incomplete :
    MSPendingActionTaken ∈ MilestoneStatusConstants ∧
    MSPendingActionTaken ∉ MilestoneStatusList ∧
    MSInsuranceOverride ∈ MilestoneStatusConstants ∧
    MSInsuranceOverride ∉ MilestoneStatusList ∧
    MSCashPriceIdentified ∈ MilestoneStatusConstants ∧
    MSCashPriceIdentified ∉ MilestoneStatusList ∧
    MilestoneStatusConstants.length = 44 ∧
    (MilestoneStatusConstants.filter fun s => MilestoneStatusList.contains s).length = 17 ∧
    "transferMilestone" ∈ MilestoneNames ∧
    UpdateOrderMilestoneStatus updateAlwaysSucceeds "1234-5678-9012" "transferMilestone"
      MSPendingActionTaken = some "Invalid milestone status value" := by
  refine ⟨by decide, by decide, by decide, by decide, by decide, by decide, by decide,
    by decide, by decide, by decide⟩

/-! ### Middleware -/

/-- The handler `RecoverHandler` builds leaves the exchange as it found it,
whatever `next` is. -/
theorem recoverHandler_eq (next : Option Handler) (r : Request) (w : Exchange) :
    RecoverHandler next r w = (w, none) := rfl

/-- C28 (the code at the failing input): on a GET request the handler Index of
the package example writes `Welcome!`, and the handler RecoverHandler builds
around it writes nothing; around a handler that panics with `boom` it writes
nothing either and passes no error to HandleError, although its deferred
function, given that panic, would pass `boom` to HandleError and answer 500. -/
theorem recoverHandler_never_serves_next :
    indexHandler bearerRequest {} =
      ({ status := some 200, body := [BodyPart.text "Welcome!\n"] }, none) ∧
    RecoverHandler (some indexHandler) bearerRequest {} = ({}, none) ∧
    RecoverHandler (some panickingHandler) bearerRequest {} = ({}, none) ∧
    recoverDeferred (some (PanicValue.str "boom")) {} =
      ({ contentType := "text/plain; charset=utf-8", status := some 500,
         body := [BodyPart.text "Internal Server Error\n"], handled := ["boom"],
         logged := ["PANIC: stack"] }, none) := by
  refine ⟨by decide, by decide, by decide, by decide⟩

/-- Whenever `checkJWT` returns an error it returns nil claims with it. -/
theorem checkJWT_error_no_claims (parse : JwtParse) (r : Request) (secretAuthToken : String)
    (e : GoError) (he : (checkJWT parse r secretAuthToken).2 = some e) :
    (checkJWT parse r secretAuthToken).1 = none := by
  revert he
  unfold checkJWT
  by_cases hm : (r.Method == "OPTIONS") = true
  · simp [hm]
  · rcases hx : extractTokenFromAuthHeader r with ⟨token, err⟩
    simp only [hm]
    by_cases h1 : (err != none) = true
    · simp [h1]
    · by_cases h2 : (token == "") = true
      · simp [h1, h2]
      · cases hp : parse token secretAuthToken with
        | error err2 => simp [h1, h2]
        | ok parsedToken =>
          by_cases h3 : parsedToken.Valid = true
          · cases h4 : parsedToken.Claims <;> simp [h1, h2, h3, h4]
          · simp [h1, h2, h3]

/-- C29 (the code at the failing input): on a GET request with a bearer token that
the parser finds expired, checkJWT returns nil claims and the error `Token is
expired`, and the handler JWTAuthHandler builds invokes the next handler all
the same, whatever it is, on the request as it came: around Index the exchange
is the one Index leaves, status 200 and `Welcome!`, with no 401, no error passed
to HandleError and nothing logged. -/
theorem jwtAuthHandler_serves_expired_token :
    checkJWT expiredParse bearerRequest "secret" = (none, some "Token is expired") ∧
    (∀ next : Handler,
      JWTAuthHandler expiredParse "secret" (some next) bearerRequest {} =
        next bearerRequest {}) ∧
    JWTAuthHandler expiredParse "secret" (some indexHandler) bearerRequest {} =
      ({ status := some 200, body := [BodyPart.text "Welcome!\n"] }, none) ∧
    (JWTAuthHandler expiredParse "secret" (some indexHandler) bearerRequest {}).1.status
      ≠ some 401 ∧
    (JWTAuthHandler expiredParse "secret" (some indexHandler) bearerRequest {}).1.handled
      = [] ∧
    (JWTAuthHandler expiredParse "secret" (some indexHandler) bearerRequest {}).1.logged
      = [] := by
  refine ⟨by decide, fun next => rfl, by decide, by decide, by decide, by decide⟩

/-- The handler `JWTAuthHandler` builds, case by case. On an error of `checkJWT`
other than `Token is expired` it does not invoke the next handler, whatever it
is: it logs the error, passes it to HandleError and writes the UnAuthorized
response, status 401 when no status was written before. On the error `Token is
expired` the claims are nil and a non-nil next handler is invoked on the
request as it came. On no error a non-nil next handler is invoked, on the
request carrying the claims when there are claims. -/
theorem jwtAuthHandler_cases (parse : JwtParse) (secretAuthToken : String)
    (r : Request) (w : Exchange) :
    (∀ e, (checkJWT parse r secretAuthToken).2 = some e → e ≠ "Token is expired" →
      ∀ next : Option Handler,
        JWTAuthHandler parse secretAuthToken next r w =
          (WriteError
            (HandleError (logPrintf w ("[ERROR] Invalid authentication token: " ++ e)) e)
            UnAuthorized, none) ∧
        (JWTAuthHandler parse secretAuthToken next r w).1.handled = w.handled ++ [e] ∧
        (w.status = none →
          (JWTAuthHandler parse secretAuthToken next r w).1.status = some 401)) ∧
    ((checkJWT parse r secretAuthToken).2 = some "Token is expired" →
      (checkJWT parse r secretAuthToken).1 = none ∧
      ∀ next : Handler, JWTAuthHandler parse secretAuthToken (some next) r w = next r w) ∧
    ((checkJWT parse r secretAuthToken).2 = none →
      ∀ next : Handler,
        JWTAuthHandler parse secretAuthToken (some next) r w =
          next
            (match (checkJWT parse r secretAuthToken).1 with
              | some c => { r with SessionUser := some c }
              | none => r)
            w) := by
  refine ⟨?_, ?_, ?_⟩
  · intro e he hne next
    have h1 : JWTAuthHandler parse secretAuthToken next r w =
        (WriteError
          (HandleError (logPrintf w ("[ERROR] Invalid authentication token: " ++ e)) e)
          UnAuthorized, none) := by
      unfold JWTAuthHandler
      rcases hc : checkJWT parse r secretAuthToken with ⟨claims, err⟩
      rw [hc] at he
      simp only at he
      subst he
      simp [hne]
    refine ⟨h1, ?_, ?_⟩
    · rw [h1]
      simp [WriteError, WriteHeader, HandleError, logPrintf]
      cases w.status <;> rfl
    · intro hs
      rw [h1]
      simp [WriteError, WriteHeader, HandleError, logPrintf, hs, UnAuthorized]
  · intro h
    have hn := checkJWT_error_no_claims parse r secretAuthToken _ h
    refine ⟨hn, ?_⟩
    intro next
    unfold JWTAuthHandler
    rcases hc : checkJWT parse r secretAuthToken with ⟨claims, err⟩
    rw [hc] at h hn
    simp only at h hn
    subst h
    subst hn
    simp
  · intro h next
    unfold JWTAuthHandler
    rcases hc : checkJWT parse r secretAuthToken with ⟨claims, err⟩
    rw [hc] at h
    simp only at h
    subst h
    cases claims <;> rfl

/-- With a parser that finds the signature wrong the handler does not reach Index
and answers 401. -/
theorem jwtAuthHandler_bad_signature :
    (JWTAuthHandler badSignatureParse "secret" (some indexHandler) bearerRequest {}).1.status
      = some 401 :=
  ((jwtAuthHandler_cases badSignatureParse "secret" bearerRequest {}).1
    "signature is invalid" (by decide) (by decide) (some indexHandler)).2.2 rfl

/-! ### JSON time -/

/-- The decimal digit character of `k` stands for `k`. -/
theorem digitChar_toNat_sub (k : Nat) (hk : k < 10) :
    (Nat.digitChar k).toNat - '0'.toNat = k := by
  interval_cases k <;> rfl

theorem digitChar_isDigit (k : Nat) (hk : k < 10) : (Nat.digitChar k).isDigit = true := by
  interval_cases k <;> rfl

theorem toDigitsCore_foldl (f : Nat) : ∀ (n : Nat) (ds : List Char), n < f →
    (Nat.toDigitsCore 10 f n ds).foldl (fun acc c => 10 * acc + (c.toNat - '0'.toNat)) 0 =
      ds.foldl (fun acc c => 10 * acc + (c.toNat - '0'.toNat)) n := by
  induction f with
  | zero => intro n ds h; omega
  | succ f ih =>
    intro n ds h
    simp only [Nat.toDigitsCore]
    by_cases h0 : n / 10 = 0
    · simp only [h0, if_true, List.foldl_cons, Nat.mul_zero, Nat.zero_add]
      rw [digitChar_toNat_sub _ (Nat.mod_lt _ (by decide))]
      congr 1
      omega
    · simp only [h0, if_false]
      rw [ih (n / 10) _ (by omega), List.foldl_cons,
        digitChar_toNat_sub _ (Nat.mod_lt _ (by decide))]
      congr 1
      omega

theorem toDigitsCore_all_isDigit (f : Nat) : ∀ (n : Nat) (ds : List Char),
    ds.all Char.isDigit = true → (Nat.toDigitsCore 10 f n ds).all Char.isDigit = true := by
  induction f with
  | zero => intro n ds h; simpa [Nat.toDigitsCore] using h
  | succ f ih =>
    intro n ds h
    simp only [Nat.toDigitsCore]
    have hd : (Nat.digitChar (n % 10) :: ds).all Char.isDigit = true := by
      simp only [List.all_cons, Bool.and_eq_true]
      exact ⟨digitChar_isDigit _ (Nat.mod_lt _ (by decide)), h⟩
    by_cases h0 : n / 10 = 0
    · simpa only [h0, if_true] using hd
    · simp only [h0, if_false]
      exact ih _ _ hd

theorem toDigitsCore_ne_nil (f : Nat) : ∀ (n : Nat) (ds : List Char),
    (0 < f ∨ ds ≠ []) → Nat.toDigitsCore 10 f n ds ≠ [] := by
  induction f with
  | zero =>
    intro n ds h
    rcases h with h | h
    · omega
    · simpa [Nat.toDigitsCore] using h
  | succ f ih =>
    intro n ds _
    simp only [Nat.toDigitsCore]
    by_cases h0 : n / 10 = 0
    · simp [h0]
    · simp only [h0, if_false]
      exact ih _ _ (Or.inr (by simp))

theorem digitsValue_toDigits (n : Nat) : digitsValue (Nat.toDigits 10 n) = n := by
  unfold digitsValue Nat.toDigits
  rw [toDigitsCore_foldl _ _ _ (Nat.lt_succ_self n)]
  rfl

theorem toDigits_all_isDigit (n : Nat) : (Nat.toDigits 10 n).all Char.isDigit = true :=
  toDigitsCore_all_isDigit _ _ _ rfl

theorem toDigits_ne_nil (n : Nat) : Nat.toDigits 10 n ≠ [] :=
  toDigitsCore_ne_nil _ _ _ (Or.inl (Nat.succ_pos n))

theorem parseInt_digits (l : List Char) (hall : l.all Char.isDigit = true) (hne : l ≠ [])
    (hr : (digitsValue l : Int) ≤ 9223372036854775807) :
    ParseInt (String.mk l) = .ok (digitsValue l : Int) := by
  cases l with
  | nil => exact absurd rfl hne
  | cons c rest =>
    have hc : c.isDigit = true := by
      simp only [List.all_cons, Bool.and_eq_true] at hall
      exact hall.1
    have hp : c ≠ '+' := by
      intro h
      rw [h] at hc
      exact absurd hc (by decide)
    have hm : c ≠ '-' := by
      intro h
      rw [h] at hc
      exact absurd hc (by decide)
    have h1 : ¬ ((digitsValue (c :: rest) : Int) < -9223372036854775808) := by omega
    have h2 : ¬ ((digitsValue (c :: rest) : Int) > 9223372036854775807) := by omega
    simp [ParseInt, hp, hm, hall, h1, h2]

theorem parseInt_neg_digits (l : List Char) (hall : l.all Char.isDigit = true) (hne : l ≠ [])
    (hr : (digitsValue l : Int) ≤ 9223372036854775808) :
    ParseInt (String.mk ('-' :: l)) = .ok (-(digitsValue l : Int)) := by
  unfold ParseInt
  simp only [String.toList]
  have he : l.isEmpty = false := by
    cases l with
    | nil => exact absurd rfl hne
    | cons c rest => rfl
  simp only [hall, he, Bool.not_true, Bool.or_false, Bool.false_eq_true, if_false, if_true]
  have h1 : ¬ (-(digitsValue l : Int) < -9223372036854775808) := by omega
  have h2 : ¬ (-(digitsValue l : Int) > 9223372036854775807) := by omega
  simp [h1, h2]

theorem filter_quote_digits (l : List Char) (hall : l.all Char.isDigit = true) :
    l.filter (fun c => c != '"') = l := by
  rw [List.filter_eq_self]
  intro c hc
  have hd : c.isDigit = true := by
    rw [List.all_eq_true] at hall
    exact hall c hc
  have hq : c ≠ '"' := by
    intro h
    rw [h] at hd
    exact absurd hd (by decide)
  simpa using hq

theorem formatInt_toList (i : Int) :
    (FormatInt i).toList =
      if 0 ≤ i then Nat.toDigits 10 i.toNat else '-' :: Nat.toDigits 10 (-i).toNat := by
  cases i with
  | ofNat m =>
    have h0 : (0 : Int) ≤ Int.ofNat m := Int.ofNat_nonneg m
    rw [if_pos h0]
    rfl
  | negSucc m =>
    have h0 : ¬ (0 : Int) ≤ Int.negSucc m := by
      have := Int.negSucc_lt_zero m
      omega
    rw [if_neg h0]
    rfl

/-- Decoding what `FormatInt` wrote: `ParseInt` reads the number back, and
`UnmarshalJSON` stores the time that many milliseconds, not seconds, after the
epoch. -/
theorem unmarshalJSON_formatInt (i : Int) (hlo : -9223372036854775808 ≤ i)
    (hhi : i ≤ 9223372036854775807) :
    ParseInt (FormatInt i) = .ok i ∧
    UnmarshalJSON (FormatInt i) = .ok (timeUnix (i.tdiv 1000) 0) := by
  have hp : ParseInt (String.mk (FormatInt i).toList) = .ok i := by
    rw [formatInt_toList]
    by_cases h0 : 0 ≤ i
    · rw [if_pos h0, parseInt_digits _ (toDigits_all_isDigit _) (toDigits_ne_nil _)]
      · rw [digitsValue_toDigits, Int.toNat_of_nonneg h0]
      · rw [digitsValue_toDigits, Int.toNat_of_nonneg h0]
        exact hhi
    · have hn : 0 ≤ -i := by omega
      rw [if_neg h0, parseInt_neg_digits _ (toDigits_all_isDigit _) (toDigits_ne_nil _)]
      · rw [digitsValue_toDigits, Int.toNat_of_nonneg hn, neg_neg]
      · rw [digitsValue_toDigits, Int.toNat_of_nonneg hn]
        omega
  have hf : (FormatInt i).toList.filter (fun c => c != '"') = (FormatInt i).toList := by
    rw [formatInt_toList]
    by_cases h0 : 0 ≤ i
    · rw [if_pos h0]
      exact filter_quote_digits _ (toDigits_all_isDigit _)
    · rw [if_neg h0, List.filter_cons_of_pos (by decide),
        filter_quote_digits _ (toDigits_all_isDigit _)]
  constructor
  · exact hp
  · unfold UnmarshalJSON
    simp only [hf, hp]

theorem time_unix_timeUnix (n : Int) : Time.Unix (timeUnix n 0) = n := by
  unfold Time.Unix timeUnix
  omega

/-- The round trip of a JSON time of whole seconds `n` in the range of `int64`
succeeds and comes back as `n / 1000` seconds, rounded towards zero; it is the
time that went in for `n = 0` and for no other `n`. -/
theorem jsonTime_round_trip (n : Int) (hlo : -9223372036854775808 ≤ n)
    (hhi : n ≤ 9223372036854775807) :
    UnmarshalJSON (MarshalJSON (timeUnix n 0)) = .ok (timeUnix (n.tdiv 1000) 0) ∧
    Time.Unix (timeUnix (n.tdiv 1000) 0) = n.tdiv 1000 ∧
    (timeUnix (n.tdiv 1000) 0 = timeUnix n 0 ↔ n = 0) := by
  refine ⟨?_, time_unix_timeUnix _, ?_⟩
  · unfold MarshalJSON
    rw [time_unix_timeUnix]
    exact (unmarshalJSON_formatInt n hlo hhi).2
  · unfold timeUnix
    constructor
    · intro h
      have h0 : n.tdiv 1000 * 1000000000 + 0 = n * 1000000000 + 0 := h
      have h1 : n.tdiv 1000 = n := by omega
      rcases Int.le_total 0 n with hn | hn
      · rw [Int.tdiv_eq_ediv hn (by decide)] at h1
        omega
      · have h2 : (-n).tdiv 1000 = -n := by
          rw [Int.neg_tdiv, h1]
        rw [Int.tdiv_eq_ediv (by omega) (by decide)] at h2
        omega
    · intro h
      subst h
      rfl

/-- C30 (the code at the failing input): the time 1500000000 seconds after the
epoch is marshalled to the bytes `1500000000`, and UnmarshalJSON on these bytes
succeeds with the time 1500000 seconds after the epoch, the count divided by
1000; the count 999 comes back as 0. -/
theorem jsonTime_round_trip_divides_by_1000 :
    MarshalJSON (timeUnix 1500000000 0) = "1500000000" ∧
    UnmarshalJSON (MarshalJSON (timeUnix 1500000000 0)) = .ok (timeUnix 1500000 0) ∧
    Time.Unix (timeUnix 1500000 0) = 1500000 ∧
    Time.Unix (timeUnix 1500000000 0) = 1500000000 ∧
    UnmarshalJSON (MarshalJSON (timeUnix 999 0)) = .ok (timeUnix 0 0) ∧
    UnmarshalJSON "\"1500000000000\"" = .ok (timeUnix 1500000000 0) := by
  refine ⟨by decide, rfl, by decide, by decide, rfl, rfl⟩

end Plib
